import Mathlib

/-!
LoRa OTA firmware-update protocol: embedding and verified properties

A shallow embedding of `src/src/LoRaOTA.cpp` and `src/include/LoRaOTA.h`.

* The object state of class `LoRaOTA` is the structure `BRAVO.LoRaOTA`; every
  member function is a function on that structure.
* The collaborators the class calls (`LoRaComm`, the ESP32 `Update` object,
  `millis()`, `delay()`, `ESP.restart()`) are not part of the repository.  Their
  results are supplied by an `Env` of oracles indexed by the number of external
  calls made so far, and every call with an outward effect is appended to a
  trace of `Effect`s.  `Serial` logging is dropped.
* Machine integers are natural numbers reduced explicitly: `uint8_t` modulo
  `2^8`, `uint16_t` modulo `2^16`, `uint32_t`, `size_t` and `unsigned long`
  modulo `2^32` (the target is the 32-bit ESP32).
* A `const uint8_t*` is a `Ptr`: the memory seen from the pointed-to address.
-/

namespace BRAVO

/-! ## Bytes, pointers and fixed-width integers -/

abbrev Byte := Fin 256

/-- Memory as seen from a base address: `p i` is the byte at `p + i`. -/
abbrev Ptr := Nat → Byte

/-- Pointer arithmetic `p + k`. -/
def Ptr.add (p : Ptr) (k : Nat) : Ptr := fun i => p (k + i)

/-- The `len` bytes found at `p + off`. -/
def readBytes (p : Ptr) (off len : Nat) : List Byte :=
  (List.range len).map (fun i => p (off + i))

/-- A pointer to a buffer holding `bs` (memory past the end reads as zero). -/
def ptrOfList (bs : List Byte) : Ptr := fun i => bs.getD i 0

def byteOf (n : Nat) : Byte := ⟨n % 256, Nat.mod_lt _ (by decide)⟩

def u8 (n : Nat) : Nat := n % 2 ^ 8
def u16 (n : Nat) : Nat := n % 2 ^ 16
def u32 (n : Nat) : Nat := n % 2 ^ 32

/-- Subtraction of two `size_t` / `unsigned long` values (32 bits, wrapping). -/
def sub32 (a b : Nat) : Nat := (a % 2 ^ 32 + 2 ^ 32 - b % 2 ^ 32) % 2 ^ 32

/-- Little-endian object representation of a `uint16_t`. -/
def le16 (n : Nat) : List Byte := [byteOf n, byteOf (n / 256)]

/-- Little-endian object representation of a `uint32_t`. -/
def le32 (n : Nat) : List Byte :=
  [byteOf n, byteOf (n / 256), byteOf (n / 65536), byteOf (n / 16777216)]

/-- The `uint16_t` stored at `p + off`. -/
def rd16 (p : Ptr) (off : Nat) : Nat := (p off).val + 256 * (p (off + 1)).val

/-- The `uint32_t` stored at `p + off`. -/
def rd32 (p : Ptr) (off : Nat) : Nat :=
  (p off).val + 256 * (p (off + 1)).val + 65536 * (p (off + 2)).val
    + 16777216 * (p (off + 3)).val

/-! ## Protocol constants (`LoRaOTA.h`) -/

def LORA_OTA_CHUNK_SIZE : Nat := 240
def LORA_OTA_MAX_RETRIES : Nat := 3
def LORA_OTA_TIMEOUT_MS : Nat := 5000
def LORA_OTA_PROTOCOL_VERSION : Nat := 1

def LORA_OTA_INIT : Nat := 0x01
def LORA_OTA_CHUNK : Nat := 0x02
def LORA_OTA_ACK : Nat := 0x03
def LORA_OTA_NACK : Nat := 0x04
def LORA_OTA_COMPLETE : Nat := 0x05
def LORA_OTA_ABORT : Nat := 0x06
def LORA_OTA_STATUS : Nat := 0x07

inductive LoRaOTAState where
  | LORA_OTA_IDLE
  | LORA_OTA_RECEIVING
  | LORA_OTA_TRANSMITTING
  | LORA_OTA_VALIDATING
  | LORA_OTA_ERROR
  deriving DecidableEq, Repr

open LoRaOTAState

/-- Firmware metadata; `version` is the `char[16]` array. -/
structure FirmwareMetadata where
  totalSize : Nat
  totalChunks : Nat
  crc32 : Nat
  version : List Byte
  protocolVersion : Nat
  deriving DecidableEq, Repr

/-- Chunk header. -/
structure ChunkHeader where
  messageType : Nat
  chunkIndex : Nat
  chunkSize : Nat
  chunkCRC : Nat
  deriving DecidableEq, Repr

/-- Value of `sizeof(FirmwareMetadata)`: the struct is declared without packing, so
its fields sit at their natural alignment: `totalSize` at 0, `totalChunks` at 4,
two padding bytes, `crc32` at 8, `version` at 12, `protocolVersion` at 28 and
three bytes of tail padding. -/
def sizeofFirmwareMetadata : Nat := 32

/-- Value of `sizeof(ChunkHeader)`: `messageType` at 0, one padding byte,
`chunkIndex` at 2, `chunkSize` at 4, two padding bytes, `chunkCRC` at 8. -/
def sizeofChunkHeader : Nat := 12

/-- Result of `memcpy(&m, p, sizeof(FirmwareMetadata))` read back field by field. -/
def readFirmwareMetadata (p : Ptr) : FirmwareMetadata :=
  { totalSize := rd32 p 0
    totalChunks := rd16 p 4
    crc32 := rd32 p 8
    version := readBytes p 12 16
    protocolVersion := (p 28).val }

/-- Object representation of a `FirmwareMetadata` whose padding bytes hold
whatever `pad` (the uninitialised stack slot) held. -/
def encodeFirmwareMetadata (pad : Ptr) (m : FirmwareMetadata) : List Byte :=
  le32 m.totalSize ++ le16 m.totalChunks ++ [pad 6, pad 7] ++ le32 m.crc32
    ++ m.version ++ [byteOf m.protocolVersion] ++ [pad 29, pad 30, pad 31]

/-- Result of `memcpy(&header, p, sizeof(ChunkHeader))` read back field by field. -/
def readChunkHeader (p : Ptr) : ChunkHeader :=
  { messageType := (p 0).val
    chunkIndex := rd16 p 2
    chunkSize := rd16 p 4
    chunkCRC := rd32 p 8 }

/-- Object representation of a `ChunkHeader` whose padding bytes hold whatever
`pad` (the uninitialised stack slot) held. -/
def encodeChunkHeader (pad : Ptr) (h : ChunkHeader) : List Byte :=
  [byteOf h.messageType, pad 1] ++ le16 h.chunkIndex ++ le16 h.chunkSize
    ++ [pad 6, pad 7] ++ le32 h.chunkCRC

/-- Result of `strncpy(dst, src, n)`: the characters of `src` up to its first NUL,
then NUL padding, `n` bytes in all. -/
def strncpy (src : Ptr) : Nat → List Byte
  | 0 => []
  | n + 1 =>
    if src 0 = 0 then List.replicate (n + 1) 0
    else src 0 :: strncpy (src.add 1) n

/-! ## Checksum engine -/

/-- CRC32 lookup table for efficient calculation. -/
def crc32_table : List Nat := [
  0x00000000, 0x77073096, 0xee0e612c, 0x990951ba, 0x076dc419, 0x706af48f,
  0xe963a535, 0x9e6495a3, 0x0edb8832, 0x79dcb8a4, 0xe0d5e91e, 0x97d2d988,
  0x09b64c2b, 0x7eb17cbd, 0xe7b82d07, 0x90bf1d91, 0x1db71064, 0x6ab020f2,
  0xf3b97148, 0x84be41de, 0x1adad47d, 0x6ddde4eb, 0xf4d4b551, 0x83d385c7,
  0x136c9856, 0x646ba8c0, 0xfd62f97a, 0x8a65c9ec, 0x14015c4f, 0x63066cd9,
  0xfa0f3d63, 0x8d080df5, 0x3b6e20c8, 0x4c69105e, 0xd56041e4, 0xa2677172,
  0x3c03e4d1, 0x4b04d447, 0xd20d85fd, 0xa50ab56b, 0x35b5a8fa, 0x42b2986c,
  0xdbbbc9d6, 0xacbcf940, 0x32d86ce3, 0x45df5c75, 0xdcd60dcf, 0xabd13d59,
  0x26d930ac, 0x51de003a, 0xc8d75180, 0xbfd06116, 0x21b4f4b5, 0x56b3c423,
  0xcfba9599, 0xb8bda50f, 0x2802b89e, 0x5f058808, 0xc60cd9b2, 0xb10be924,
  0x2f6f7c87, 0x58684c11, 0xc1611dab, 0xb6662d3d, 0x76dc4190, 0x01db7106,
  0x98d220bc, 0xefd5102a, 0x71b18589, 0x06b6b51f, 0x9fbfe4a5, 0xe8b8d433,
  0x7807c9a2, 0x0f00f934, 0x9609a88e, 0xe10e9818, 0x7f6a0dbb, 0x086d3d2d,
  0x91646c97, 0xe6635c01, 0x6b6b51f4, 0x1c6c6162, 0x856530d8, 0xf262004e,
  0x6c0695ed, 0x1b01a57b, 0x8208f4c1, 0xf50fc457, 0x65b0d9c6, 0x12b7e950,
  0x8bbeb8ea, 0xfcb9887c, 0x62dd1ddf, 0x15da2d49, 0x8cd37cf3, 0xfbd44c65,
  0x4db26158, 0x3ab551ce, 0xa3bc0074, 0xd4bb30e2, 0x4adfa541, 0x3dd895d7,
  0xa4d1c46d, 0xd3d6f4fb, 0x4369e96a, 0x346ed9fc, 0xad678846, 0xda60b8d0,
  0x44042d73, 0x33031de5, 0xaa0a4c5f, 0xdd0d7cc9, 0x5005713c, 0x270241aa,
  0xbe0b1010, 0xc90c2086, 0x5768b525, 0x206f85b3, 0xb966d409, 0xce61e49f,
  0x5edef90e, 0x29d9c998, 0xb0d09822, 0xc7d7a8b4, 0x59b33d17, 0x2eb40d81,
  0xb7bd5c3b, 0xc0ba6cad, 0xedb88320, 0x9abfb3b6, 0x03b6e20c, 0x74b1d29a,
  0xead54739, 0x9dd277af, 0x04db2615, 0x73dc1683, 0xe3630b12, 0x94643b84,
  0x0d6d6a3e, 0x7a6a5aa8, 0xe40ecf0b, 0x9309ff9d, 0x0a00ae27, 0x7d079eb1,
  0xf00f9344, 0x8708a3d2, 0x1e01f268, 0x6906c2fe, 0xf762575d, 0x806567cb,
  0x196c3671, 0x6e6b06e7, 0xfed41b76, 0x89d32be0, 0x10da7a5a, 0x67dd4acc,
  0xf9b9df6f, 0x8ebeeff9, 0x17b7be43, 0x60b08ed5, 0xd6d6a3e8, 0xa1d1937e,
  0x38d8c2c4, 0x4fdff252, 0xd1bb67f1, 0xa6bc5767, 0x3fb506dd, 0x48b2364b,
  0xd80d2bda, 0xaf0a1b4c, 0x36034af6, 0x41047a60, 0xdf60efc3, 0xa867df55,
  0x316e8eef, 0x4669be79, 0xcb61b38c, 0xbc66831a, 0x256fd2a0, 0x5268e236,
  0xcc0c7795, 0xbb0b4703, 0x220216b9, 0x5505262f, 0xc5ba3bbe, 0xb2bd0b28,
  0x2bb45a92, 0x5cb36a04, 0xc2d7ffa7, 0xb5d0cf31, 0x2cd99e8b, 0x5bdeae1d,
  0x9b64c2b0, 0xec63f226, 0x756aa39c, 0x026d930a, 0x9c0906a9, 0xeb0e363f,
  0x72076785, 0x05005713, 0x95bf4a82, 0xe2b87a14, 0x7bb12bae, 0x0cb61b38,
  0x92d28e9b, 0xe5d5be0d, 0x7cdcefb7, 0x0bdbdf21, 0x86d3d2d4, 0xf1d4e242,
  0x68ddb3f8, 0x1fda836e, 0x81be16cd, 0xf6b9265b, 0x6fb077e1, 0x18b74777,
  0x88085ae6, 0xff0f6a70, 0x66063bca, 0x11010b5c, 0x8f659eff, 0xf862ae69,
  0x616bffd3, 0x166ccf45, 0xa00ae278, 0xd70dd2ee, 0x4e048354, 0x3903b3c2,
  0xa7672661, 0xd06016f7, 0x4969474d, 0x3e6e77db, 0xaed16a4a, 0xd9d65adc,
  0x40df0b66, 0x37d83bf0, 0xa9bcae53, 0xdebb9ec5, 0x47b2cf7f, 0x30b5ffe9,
  0xbdbdf21c, 0xcabac28a, 0x53b39330, 0x24b4a3a6, 0xbad03605, 0xcdd70693,
  0x54de5729, 0x23d967bf, 0xb3667a2e, 0xc4614ab8, 0x5d681b02, 0x2a6f2b94,
  0xb40bbe37, 0xc30c8ea1, 0x5a05df1b, 0x2d02ef8d]

/-- Body of the loop of `calculateCRC32`. -/
def crc32Update (crc : Nat) (b : Byte) : Nat :=
  let index := (crc ^^^ b.val) &&& 0xFF
  (crc >>> 8) ^^^ crc32_table.getD index 0

/-- Embedding of `LoRaOTA::calculateCRC32(data, length)`. -/
def calculateCRC32 (data : Ptr) (length : Nat) : Nat :=
  ((List.range length).foldl (fun crc i => crc32Update crc (data i)) 0xFFFFFFFF)
    ^^^ 0xFFFFFFFF

/-- Embedding of `LoRaOTA::validateChunkCRC`. -/
def validateChunkCRC (data : Ptr) (length : Nat) (expectedCRC : Nat) : Bool :=
  let actualCRC := calculateCRC32 data length
  actualCRC == expectedCRC

/-- One bit of the reflected CRC-32 reference algorithm: shift right, and xor
the polynomial `0xEDB88320` in when the bit shifted out was set. -/
def crc32BitStep (c : Nat) : Nat :=
  if c % 2 = 1 then (c >>> 1) ^^^ 0xEDB88320 else c >>> 1

/-- CRC-32/ISO-HDLC as the standard describes it, bit by bit: initial value
`0xFFFFFFFF`, each byte xored into the low end and followed by eight bit steps,
final complement. -/
def crc32Reference (bs : List Byte) : Nat :=
  (bs.foldl (fun crc b => crc32BitStep^[8] (crc ^^^ b.val)) 0xFFFFFFFF) ^^^ 0xFFFFFFFF

/-- Ceiling of `a / b`, written the way the specification words the last
chunk: a full quotient when `b` divides `a`, one more otherwise. -/
def ceilDiv (a b : Nat) : Nat := if a % b = 0 then a / b else a / b + 1

/-! ## External collaborators -/

/-- Outward effects of the module, in the order the code performs them. -/
inductive Effect where
  /-- Record of `lora.sendData(buffer, n)` with the `n` bytes handed over. -/
  | send (packet : List Byte)
  /-- Record of `Update.begin(size)`. -/
  | updateBegin (size : Nat)
  /-- Record of `Update.write(data, length)` made by `writeChunkToFlash(chunkIndex, ..)`. -/
  | updateWrite (chunkIndex : Nat) (bytes : List Byte)
  /-- Record of `Update.end(true)`. -/
  | updateEnd
  /-- Record of `Update.abort()`. -/
  | updateAbort
  /-- Record of `delay(ms)`. -/
  | delay (ms : Nat)
  /-- Record of `ESP.restart()`, which the embedding treats as returning. -/
  | restart
  deriving DecidableEq, Repr

/-- Answers of the collaborators; the argument is the number of external calls
the object has made before this one. -/
structure Env where
  /-- Value of `millis()`. -/
  millis : Nat → Nat
  /-- Value of `lora.available()`. -/
  available : Nat → Bool
  /-- Return value of `lora.receiveData(buffer, 256)`. -/
  receiveLength : Nat → Int
  /-- Contents of `buffer` after `lora.receiveData`, stale bytes included. -/
  receiveBuffer : Nat → Ptr
  /-- Return value of `lora.sendData`. -/
  sendData : Nat → Bool
  /-- Return value of `Update.begin`. -/
  updateBegin : Nat → Bool
  /-- Return value of `Update.write`. -/
  updateWrite : Nat → Nat
  /-- Return value of `Update.end`. -/
  updateEnd : Nat → Bool
  /-- Previous contents of a local variable the code does not initialise. -/
  uninit : Nat → Ptr

/-- Members of class `LoRaOTA`, followed by the record of its dealings with the
collaborators (`calls` counts the external calls, `trace` lists the effects). -/
structure LoRaOTA where
  state : LoRaOTAState
  enabled : Bool
  initialized : Bool
  lastError : String
  rxMetadata : FirmwareMetadata
  rxCurrentChunk : Nat
  rxRetryCount : Nat
  rxLastReceiveTime : Nat
  txFirmwareData : Option Ptr
  txFirmwareSize : Nat
  txCurrentChunk : Nat
  txRetryCount : Nat
  txLastSendTime : Nat
  txTargetDevice : String
  calls : Nat
  trace : List Effect

/-- Packets handed to the transport, oldest first. -/
def sentPackets (tr : List Effect) : List (List Byte) :=
  tr.filterMap (fun e => match e with
    | Effect.send p => some p
    | _ => none)

/-- Chunk indices for which `Update.write` was called, oldest first. -/
def writtenIndices (tr : List Effect) : List Nat :=
  tr.filterMap (fun e => match e with
    | Effect.updateWrite i _ => some i
    | _ => none)

/-- Whether the trace holds a flash operation (`Update.begin/write/end/abort`). -/
def Effect.isFlash : Effect → Bool
  | Effect.updateBegin _ => true
  | Effect.updateWrite _ _ => true
  | Effect.updateEnd => true
  | Effect.updateAbort => true
  | _ => false

/-- Payload of a Chunk packet: what follows the tag and the header. -/
def chunkPayload (packet : List Byte) : List Byte :=
  packet.drop (1 + sizeofChunkHeader)

/-- Header of a Chunk packet. -/
def chunkHeaderOf (packet : List Byte) : ChunkHeader :=
  readChunkHeader ((ptrOfList packet).add 1)

/-- Metadata carried by an Init packet. -/
def metadataOf (packet : List Byte) : FirmwareMetadata :=
  readFirmwareMetadata ((ptrOfList packet).add 1)

/-- The three-byte Ack packet for a chunk index. -/
def ackPacket (chunkIndex : Nat) : List Byte := byteOf LORA_OTA_ACK :: le16 chunkIndex

/-- The three-byte Nack packet for a chunk index. -/
def nackPacket (chunkIndex : Nat) : List Byte := byteOf LORA_OTA_NACK :: le16 chunkIndex

namespace LoRaOTA

/-- State left by the constructor `LoRaOTA::LoRaOTA`. -/
def new : LoRaOTA :=
  { state := LORA_OTA_IDLE
    enabled := true
    initialized := false
    lastError := ""
    rxMetadata := readFirmwareMetadata (fun _ => 0)
    rxCurrentChunk := 0
    rxRetryCount := 0
    rxLastReceiveTime := 0
    txFirmwareData := none
    txFirmwareSize := 0
    txCurrentChunk := 0
    txRetryCount := 0
    txLastSendTime := 0
    txTargetDevice := ""
    calls := 0
    trace := [] }

/-- An external call with an outward effect. -/
def emit (s : LoRaOTA) (e : Effect) : LoRaOTA :=
  { s with calls := s.calls + 1, trace := s.trace ++ [e] }

/-- Call of `millis()`: an `unsigned long`. -/
def millis (env : Env) (s : LoRaOTA) : Nat × LoRaOTA :=
  (u32 (env.millis s.calls), { s with calls := s.calls + 1 })

/-- Call of `lora.sendData(buffer, n)`. -/
def loraSendData (env : Env) (s : LoRaOTA) (packet : List Byte) : Bool × LoRaOTA :=
  (env.sendData s.calls, s.emit (Effect.send packet))

/-- Embedding of `LoRaOTA::begin`. -/
def begin (s : LoRaOTA) : Bool × LoRaOTA :=
  if s.initialized then (true, s)
  else (true, { s with initialized := true, state := LORA_OTA_IDLE })

/-- Embedding of `LoRaOTA::sendInitMessage`. -/
def sendInitMessage (env : Env) (s : LoRaOTA) (pad : Ptr) (metadata : FirmwareMetadata) :
    Bool × LoRaOTA :=
  s.loraSendData env (byteOf LORA_OTA_INIT :: encodeFirmwareMetadata pad metadata)

/-- Number of chunks as `sendChunk`, `handleAckMessage` and `sendFirmware` compute
it in `size_t`: `(size + LORA_OTA_CHUNK_SIZE - 1) / LORA_OTA_CHUNK_SIZE`. -/
def chunkCount (size : Nat) : Nat :=
  u32 (size + LORA_OTA_CHUNK_SIZE - 1) / LORA_OTA_CHUNK_SIZE

/-- The buffer `sendChunk` builds for a chunk index that passed its guard. -/
def chunkPacket (pad : Ptr) (data : Ptr) (size : Nat) (chunkIndex : Nat) : List Byte :=
  let offset := chunkIndex * LORA_OTA_CHUNK_SIZE
  let chunkSize := min LORA_OTA_CHUNK_SIZE (sub32 size offset)
  let chunkData := data.add offset
  let header : ChunkHeader :=
    { messageType := LORA_OTA_CHUNK
      chunkIndex := chunkIndex
      chunkSize := u16 chunkSize
      chunkCRC := calculateCRC32 chunkData chunkSize }
  byteOf LORA_OTA_CHUNK :: (encodeChunkHeader pad header ++ readBytes chunkData 0 chunkSize)

/-- Embedding of `LoRaOTA::sendChunk`. -/
def sendChunk (env : Env) (s : LoRaOTA) (chunkIndex : Nat) : Bool × LoRaOTA :=
  match s.txFirmwareData with
  | none => (false, s)
  | some data =>
    if chunkIndex ≥ chunkCount s.txFirmwareSize then (false, s)
    else s.loraSendData env (chunkPacket (env.uninit s.calls) data s.txFirmwareSize chunkIndex)

/-- Embedding of `LoRaOTA::sendAck`. -/
def sendAck (env : Env) (s : LoRaOTA) (chunkIndex : Nat) : Bool × LoRaOTA :=
  s.loraSendData env (ackPacket chunkIndex)

/-- Embedding of `LoRaOTA::sendNack`. -/
def sendNack (env : Env) (s : LoRaOTA) (chunkIndex : Nat) : Bool × LoRaOTA :=
  s.loraSendData env (nackPacket chunkIndex)

/-- Embedding of `LoRaOTA::sendComplete`. -/
def sendComplete (env : Env) (s : LoRaOTA) : Bool × LoRaOTA :=
  s.loraSendData env [byteOf LORA_OTA_COMPLETE]

/-- Embedding of `LoRaOTA::sendAbort`; the reason is only logged. -/
def sendAbort (env : Env) (s : LoRaOTA) (_reason : String) : Bool × LoRaOTA :=
  s.loraSendData env [byteOf LORA_OTA_ABORT]

/-- Embedding of `LoRaOTA::abortUpdate`. -/
def abortUpdate (env : Env) (s : LoRaOTA) : LoRaOTA :=
  let s1 := if s.state = LORA_OTA_RECEIVING then s.emit Effect.updateAbort else s
  let s2 := (s1.sendAbort env s1.lastError).2
  { s2 with state := LORA_OTA_IDLE, txFirmwareData := none, txFirmwareSize := 0 }

/-- Embedding of `LoRaOTA::beginUpdate`. -/
def beginUpdate (env : Env) (s : LoRaOTA) : Bool × LoRaOTA :=
  if s.state ≠ LORA_OTA_IDLE then
    (false, { s with lastError := "Update already in progress" })
  else
    let s1 : LoRaOTA := { s with state := LORA_OTA_RECEIVING, rxCurrentChunk := 0, rxRetryCount := 0 }
    let m := s1.millis env
    (true, { m.2 with rxLastReceiveTime := m.1, rxMetadata := readFirmwareMetadata (fun _ => 0) })

/-- Embedding of `LoRaOTA::sendFirmware`; `firmwareData = none` is the null pointer
and `version` points to a C string. -/
def sendFirmware (env : Env) (s : LoRaOTA) (firmwareData : Option Ptr) (firmwareSize : Nat)
    (version : Ptr) (targetDeviceId : String) : Bool × LoRaOTA :=
  if s.state ≠ LORA_OTA_IDLE then
    (false, { s with lastError := "Update already in progress" })
  else
    match firmwareData with
    | none => (false, { s with lastError := "Invalid firmware data" })
    | some data =>
      if firmwareSize = 0 then (false, { s with lastError := "Invalid firmware data" })
      else
        let metadata : FirmwareMetadata :=
          { totalSize := u32 firmwareSize
            totalChunks := u16 (chunkCount firmwareSize)
            crc32 := calculateCRC32 data firmwareSize
            protocolVersion := u8 LORA_OTA_PROTOCOL_VERSION
            version := strncpy version 15 ++ [0] }
        let s1 : LoRaOTA := { s with
          txFirmwareData := some data
          txFirmwareSize := firmwareSize
          txCurrentChunk := 0
          txRetryCount := 0
          txTargetDevice := targetDeviceId
          state := LORA_OTA_TRANSMITTING }
        let r := s1.sendInitMessage env (env.uninit s1.calls) metadata
        if !r.1 then
          (false, abortUpdate env { r.2 with lastError := "Failed to send init message" })
        else
          let m := r.2.millis env
          (true, { m.2 with txLastSendTime := m.1 })

/-- Embedding of `LoRaOTA::getState`. -/
def getState (s : LoRaOTA) : LoRaOTAState := s.state

/-- Embedding of `LoRaOTA::getProgress`; `none` stands for the division by zero
the C++ leaves undefined, and the value is narrowed to `uint8_t`. -/
def getProgress (s : LoRaOTA) : Option Nat :=
  if s.state = LORA_OTA_RECEIVING ∧ s.rxMetadata.totalChunks > 0 then
    some (u8 ((s.rxCurrentChunk * 100) / s.rxMetadata.totalChunks))
  else if s.state = LORA_OTA_TRANSMITTING ∧ s.txFirmwareSize > 0 then
    let totalChunks := u16 (chunkCount s.txFirmwareSize)
    if totalChunks = 0 then none
    else some (u8 ((s.txCurrentChunk * 100) / totalChunks))
  else some 0

/-- Embedding of `LoRaOTA::isUpdateInProgress`. -/
def isUpdateInProgress (s : LoRaOTA) : Bool :=
  s.state ≠ LORA_OTA_IDLE && s.state ≠ LORA_OTA_ERROR

/-- Embedding of `LoRaOTA::getLastError`. -/
def getLastError (s : LoRaOTA) : String := s.lastError

/-- Embedding of `LoRaOTA::setEnabled`. -/
def setEnabled (s : LoRaOTA) (enable : Bool) : LoRaOTA := { s with enabled := enable }

/-- Embedding of `LoRaOTA::isEnabled`. -/
def isEnabled (s : LoRaOTA) : Bool := s.enabled

/-- Embedding of `LoRaOTA::writeChunkToFlash`. -/
def writeChunkToFlash (env : Env) (s : LoRaOTA) (chunkIndex : Nat) (data : Ptr) (length : Nat) :
    Bool × LoRaOTA :=
  let written := u32 (env.updateWrite s.calls)
  let s1 := s.emit (Effect.updateWrite chunkIndex (readBytes data 0 length))
  if written ≠ length then (false, { s1 with lastError := "Flash write failed" })
  else (true, s1)

/-- Embedding of `LoRaOTA::finalizeUpdate`. -/
def finalizeUpdate (env : Env) (s : LoRaOTA) : Bool × LoRaOTA :=
  let s1 : LoRaOTA := { s with state := LORA_OTA_VALIDATING }
  let ok := env.updateEnd s1.calls
  let s2 := s1.emit Effect.updateEnd
  if !ok then
    (false, { s2 with lastError := "Update finalization failed", state := LORA_OTA_ERROR })
  else
    let s3 := (s2.sendComplete env).2
    let s4 := s3.emit (Effect.delay 3000)
    let s5 := s4.emit Effect.restart
    (true, s5)

/-- Embedding of `LoRaOTA::handleInitMessage`. -/
def handleInitMessage (env : Env) (s : LoRaOTA) (data : Ptr) (length : Nat) : Bool × LoRaOTA :=
  if length < sizeofFirmwareMetadata + 1 then (false, s)
  else
    let s1 : LoRaOTA := { s with rxMetadata := readFirmwareMetadata (data.add 1) }
    let ok := env.updateBegin s1.calls
    let s2 := s1.emit (Effect.updateBegin s1.rxMetadata.totalSize)
    if !ok then
      let s3 : LoRaOTA := { s2 with lastError := "Failed to begin update" }
      (false, (s3.sendNack env 0).2)
    else
      let s3 : LoRaOTA := { s2 with state := LORA_OTA_RECEIVING, rxCurrentChunk := 0, rxRetryCount := 0 }
      let m := s3.millis env
      let s4 : LoRaOTA := { m.2 with rxLastReceiveTime := m.1 }
      (true, (s4.sendAck env 0).2)

/-- Embedding of `LoRaOTA::handleChunkMessage`. -/
def handleChunkMessage (env : Env) (s : LoRaOTA) (data : Ptr) (length : Nat) : Bool × LoRaOTA :=
  if s.state ≠ LORA_OTA_RECEIVING then (false, s)
  else if length < sizeofChunkHeader + 1 then
    (false, (s.sendNack env s.rxCurrentChunk).2)
  else
    let header := readChunkHeader (data.add 1)
    if header.chunkIndex ≠ s.rxCurrentChunk then
      (false, (s.sendNack env s.rxCurrentChunk).2)
    else
      let chunkData := data.add (1 + sizeofChunkHeader)
      if !validateChunkCRC chunkData header.chunkSize header.chunkCRC then
        let s1 := (s.sendNack env s.rxCurrentChunk).2
        (false, { s1 with rxRetryCount := u8 (s1.rxRetryCount + 1) })
      else
        let w := s.writeChunkToFlash env header.chunkIndex chunkData header.chunkSize
        if !w.1 then
          (false, abortUpdate env { w.2 with lastError := "Failed to write chunk to flash" })
        else
          let s2 : LoRaOTA := { w.2 with rxCurrentChunk := u16 (w.2.rxCurrentChunk + 1), rxRetryCount := 0 }
          let m := s2.millis env
          let s3 : LoRaOTA := { m.2 with rxLastReceiveTime := m.1 }
          let s4 := (s3.sendAck env header.chunkIndex).2
          if s4.rxCurrentChunk ≥ s4.rxMetadata.totalChunks then finalizeUpdate env s4
          else (true, s4)

/-- Embedding of `LoRaOTA::handleAckMessage`. -/
def handleAckMessage (env : Env) (s : LoRaOTA) (data : Ptr) (length : Nat) : Bool × LoRaOTA :=
  if s.state ≠ LORA_OTA_TRANSMITTING then (false, s)
  else if length < 3 then (false, s)
  else
    let ackedChunk := rd16 data 1
    if ackedChunk ≠ s.txCurrentChunk then (false, s)
    else
      let s1 : LoRaOTA := { s with txCurrentChunk := u16 (s.txCurrentChunk + 1), txRetryCount := 0 }
      let totalChunks := u16 (chunkCount s1.txFirmwareSize)
      if s1.txCurrentChunk ≥ totalChunks then
        let s2 := (s1.sendComplete env).2
        (true, { s2 with state := LORA_OTA_IDLE, txFirmwareData := none })
      else
        let r := s1.sendChunk env s1.txCurrentChunk
        if !r.1 then
          (false, abortUpdate env { r.2 with lastError := "Failed to send chunk" })
        else
          let m := r.2.millis env
          (true, { m.2 with txLastSendTime := m.1 })

/-- Embedding of `LoRaOTA::handleNackMessage`. -/
def handleNackMessage (env : Env) (s : LoRaOTA) (data : Ptr) (length : Nat) : Bool × LoRaOTA :=
  if s.state ≠ LORA_OTA_TRANSMITTING then (false, s)
  else if length < 3 then (false, s)
  else
    let nackedChunk := rd16 data 1
    let s1 : LoRaOTA := { s with txRetryCount := u8 (s.txRetryCount + 1) }
    if s1.txRetryCount ≥ LORA_OTA_MAX_RETRIES then
      (false, abortUpdate env { s1 with lastError := "Too many retries" })
    else
      let r := s1.sendChunk env nackedChunk
      let m := r.2.millis env
      (true, { m.2 with txLastSendTime := m.1 })

/-- Embedding of `LoRaOTA::handleCompleteMessage`. -/
def handleCompleteMessage (_env : Env) (s : LoRaOTA) (_data : Ptr) (_length : Nat) :
    Bool × LoRaOTA :=
  (true, s)

/-- Embedding of `LoRaOTA::handleAbortMessage`. -/
def handleAbortMessage (_env : Env) (s : LoRaOTA) (_data : Ptr) (_length : Nat) :
    Bool × LoRaOTA :=
  let s1 := if s.state = LORA_OTA_RECEIVING then s.emit Effect.updateAbort else s
  (true, { s1 with state := LORA_OTA_IDLE })

/-- Embedding of `LoRaOTA::processMessage`. -/
def processMessage (env : Env) (s : LoRaOTA) (data : Ptr) (length : Nat) : Bool × LoRaOTA :=
  if length < 1 then (false, s)
  else
    let messageType := (data 0).val
    if messageType = LORA_OTA_INIT then handleInitMessage env s data length
    else if messageType = LORA_OTA_CHUNK then handleChunkMessage env s data length
    else if messageType = LORA_OTA_ACK then handleAckMessage env s data length
    else if messageType = LORA_OTA_NACK then handleNackMessage env s data length
    else if messageType = LORA_OTA_COMPLETE then handleCompleteMessage env s data length
    else if messageType = LORA_OTA_ABORT then handleAbortMessage env s data length
    else (false, s)

/-- First part of `LoRaOTA::handle`: poll the transport and dispatch a packet. -/
def handleIncoming (env : Env) (s : LoRaOTA) : LoRaOTA :=
  let avail := env.available s.calls
  let s1 : LoRaOTA := { s with calls := s.calls + 1 }
  if avail then
    let length := env.receiveLength s1.calls
    let buffer := env.receiveBuffer s1.calls
    let s2 : LoRaOTA := { s1 with calls := s1.calls + 1 }
    if length > 0 then (processMessage env s2 buffer length.toNat).2 else s2
  else s1

/-- Second part of `LoRaOTA::handle`: the timeout check of the receiving state. -/
def handleReceiveTimeout (env : Env) (s : LoRaOTA) : LoRaOTA :=
  if s.state = LORA_OTA_RECEIVING then
    let now := s.millis env
    if sub32 now.1 now.2.rxLastReceiveTime > LORA_OTA_TIMEOUT_MS then
      if now.2.rxRetryCount < LORA_OTA_MAX_RETRIES then
        let s1 := (now.2.sendNack env now.2.rxCurrentChunk).2
        let s2 : LoRaOTA := { s1 with rxRetryCount := u8 (s1.rxRetryCount + 1) }
        let m := s2.millis env
        { m.2 with rxLastReceiveTime := m.1 }
      else
        abortUpdate env { now.2 with lastError := "Timeout: No response from sender" }
    else now.2
  else s

/-- Third part of `LoRaOTA::handle`: the timeout check of the transmitting state. -/
def handleTransmitTimeout (env : Env) (s : LoRaOTA) : LoRaOTA :=
  if s.state = LORA_OTA_TRANSMITTING then
    let now := s.millis env
    if sub32 now.1 now.2.txLastSendTime > LORA_OTA_TIMEOUT_MS then
      if now.2.txRetryCount < LORA_OTA_MAX_RETRIES then
        let s1 := (now.2.sendChunk env now.2.txCurrentChunk).2
        let s2 : LoRaOTA := { s1 with txRetryCount := u8 (s1.txRetryCount + 1) }
        let m := s2.millis env
        { m.2 with txLastSendTime := m.1 }
      else
        abortUpdate env { now.2 with lastError := "Timeout: No acknowledgment from receiver" }
    else now.2
  else s

/-- Embedding of `LoRaOTA::handle`. -/
def handle (env : Env) (s : LoRaOTA) : LoRaOTA :=
  if !s.initialized || !s.enabled then s
  else handleTransmitTimeout env (handleReceiveTimeout env (handleIncoming env s))

end LoRaOTA

/-- The packet most recently handed to the transport (empty when there is none). -/
def lastSent (tr : List Effect) : List Byte := (sentPackets tr).getLast?.getD []

/-- State `handleChunkMessage` reaches after an accepted chunk (flash write, index
advance, time stamp, Ack) and before its completion check. -/
def LoRaOTA.afterAccept (env : Env) (s : LoRaOTA) (data : Ptr) : LoRaOTA :=
  { s with
    calls := s.calls + 3
    trace := s.trace ++
      [Effect.updateWrite s.rxCurrentChunk (readBytes (data.add (1 + sizeofChunkHeader)) 0
         (readChunkHeader (data.add 1)).chunkSize),
       Effect.send (ackPacket s.rxCurrentChunk)]
    rxCurrentChunk := u16 (s.rxCurrentChunk + 1)
    rxRetryCount := 0
    rxLastReceiveTime := u32 (env.millis (s.calls + 1)) }

/-- Invariant of a receiver session: the object is not transmitting, the stored
chunk count is a 16-bit value, and the chunk indices written to flash so far are
`0, 1, .., m-1` in this order, `m` being the expected index while receiving. -/
def SessionInv (s : LoRaOTA) : Prop :=
  s.state ≠ LORA_OTA_TRANSMITTING ∧ s.rxMetadata.totalChunks < 65536 ∧
  ∃ m, writtenIndices s.trace = List.range m ∧
    (s.state = LORA_OTA_RECEIVING → s.rxCurrentChunk = m ∧ m < 65535)

/-! ## Concrete inputs used to exercise the embedding -/

/-- The image `testFirmware` of `examples/lora_ota_transmitter.cpp`. -/
def testFirmware : List Byte :=
  [0x00, 0x01, 0x02, 0x03, 0x04, 0x05, 0x06, 0x07,
   0x08, 0x09, 0x0A, 0x0B, 0x0C, 0x0D, 0x0E, 0x0F]

/-- The version string "2.0.0" of the example, NUL-terminated. -/
def testVersion : Ptr := ptrOfList [0x32, 0x2E, 0x30, 0x2E, 0x30, 0x00]

/-- Collaborators that always succeed: nothing to receive, every send and flash
operation succeeds (a write reports `written` bytes), the clock stands at 0 and
uninitialised memory reads as zero. -/
def quietEnv (written : Nat) : Env :=
  { millis := fun _ => 0
    available := fun _ => false
    receiveLength := fun _ => 0
    receiveBuffer := fun _ _ => 0
    sendData := fun _ => true
    updateBegin := fun _ => true
    updateWrite := fun _ => written
    updateEnd := fun _ => true
    uninit := fun _ _ => 0 }

/-- The environment `quietEnv` with one packet waiting at every poll. -/
def deliverEnv (written : Nat) (packet : List Byte) : Env :=
  { quietEnv written with
    available := fun _ => true
    receiveLength := fun _ => packet.length
    receiveBuffer := fun _ => ptrOfList packet }

/-- An initialised object in the idle state. -/
def idleSession : LoRaOTA := (LoRaOTA.new.begin).2

/-- A 500-byte image (three chunks: 240, 240 and 20 bytes). -/
def image500 : List Byte := (List.range 500).map byteOf

/-- A sender holding `image500`, as `sendFirmware` leaves it. -/
def sender500 : LoRaOTA :=
  (idleSession.sendFirmware (quietEnv 0) (some (ptrOfList image500)) 500 testVersion "BRAVO_001").2

/-- A sender holding `testFirmware`, as the example's `sendFirmware` call leaves it. -/
def sender16 : LoRaOTA :=
  (idleSession.sendFirmware (quietEnv 0) (some (ptrOfList testFirmware)) 16 testVersion
    "BRAVO_001").2

/-- The Init packet `sender500` sent. -/
def init500 : List Byte := lastSent sender500.trace

/-- The Init packet `sender16` sent. -/
def init16 : List Byte := lastSent sender16.trace

/-- The Chunk packet `sender500` builds for chunk 0. -/
def chunk0of500 : List Byte := lastSent (sender500.sendChunk (quietEnv 0) 0).2.trace

/-- The Chunk packet `sender500` builds for chunk 1. -/
def chunk1of500 : List Byte := lastSent (sender500.sendChunk (quietEnv 0) 1).2.trace

/-- A receiver that accepted `init500`: state Receiving, expected index 0, three
chunks announced. -/
def receiver500 : LoRaOTA :=
  (idleSession.handleInitMessage (quietEnv 0) (ptrOfList init500) init500.length).2

/-- A thirteen-byte Chunk packet: the tag and a header announcing index 0, sixteen
payload bytes and the CRC-32 of `testFirmware`, with no payload behind it. -/
def truncatedChunk : List Byte :=
  [0x02, 0x02, 0x00, 0x00, 0x00, 0x10, 0x00, 0x00, 0x00, 0x88, 0xE2, 0xCE, 0xCE]

/-- Transport that delivers `truncatedChunk` (13 bytes) into a buffer whose
following sixteen bytes are stale and happen to hold `testFirmware`; a flash
write reports sixteen bytes written. -/
def truncatedEnv : Env :=
  { quietEnv 16 with
    available := fun _ => true
    receiveLength := fun _ => 13
    receiveBuffer := fun _ => ptrOfList (truncatedChunk ++ testFirmware) }

/-- The Chunk packet `sender16` builds for its only chunk. -/
def chunk0of16 : List Byte := lastSent (sender16.sendChunk (quietEnv 0) 0).2.trace

/-- A receiver that accepted `init16`: state Receiving, expected index 0, one
chunk announced. -/
def receiver16 : LoRaOTA :=
  (idleSession.handleInitMessage (quietEnv 0) (ptrOfList init16) init16.length).2

/-- Collaborators of `quietEnv` whose `Update.end` fails. -/
def commitFailEnv (written : Nat) : Env :=
  { quietEnv written with updateEnd := fun _ => false }

/-- Collaborators of `quietEnv` whose clock advances 6000 ms per external call. -/
def slowEnv : Env :=
  { quietEnv 0 with millis := fun t => 6000 * (t + 1) }

/-- Collaborators of `quietEnv` whose transport refuses every send. -/
def sendFailEnv : Env :=
  { quietEnv 0 with sendData := fun _ => false }

/-- The session fields a refused start must leave alone: state, stored metadata,
both chunk cursors, both retry counts, both activity stamps, the image pointer
and size, the target id, and the record of effects (no packet sent). -/
def SameSession (a b : LoRaOTA) : Prop :=
  a.state = b.state ∧ a.rxMetadata = b.rxMetadata ∧
  a.rxCurrentChunk = b.rxCurrentChunk ∧ a.txCurrentChunk = b.txCurrentChunk ∧
  a.rxRetryCount = b.rxRetryCount ∧ a.txRetryCount = b.txRetryCount ∧
  a.rxLastReceiveTime = b.rxLastReceiveTime ∧ a.txLastSendTime = b.txLastSendTime ∧
  a.txFirmwareData = b.txFirmwareData ∧ a.txFirmwareSize = b.txFirmwareSize ∧
  a.txTargetDevice = b.txTargetDevice ∧ a.trace = b.trace

/-- A receiver whose finalization failed: `receiver16` after its only chunk, the
Flash Sink commit failing.  Its state is Error. -/
def errorSession : LoRaOTA :=
  (receiver16.handleChunkMessage (commitFailEnv 16) (ptrOfList chunk0of16) chunk0of16.length).2

/-- Transport that delivers `packet` at every poll while `Update.begin` fails. -/
def beginFailEnv (packet : List Byte) : Env :=
  { deliverEnv 0 packet with updateBegin := fun _ => false }

/-- The Init packet of a sender holding a 1200-byte image of zeros (five chunks). -/
def init1200 : List Byte :=
  lastSent (idleSession.sendFirmware (quietEnv 0) (some (fun _ => 0)) 1200 testVersion "").2.trace

/-- A sender as `sendFirmware` leaves it for an image of 15728401 zero bytes,
whose chunk count is 65536. -/
def senderHuge : LoRaOTA :=
  (idleSession.sendFirmware (quietEnv 0) (some (fun _ => 0)) 15728401 testVersion "").2

/-- A clock that reads 5704 ms: it has wrapped past `2^32` since a stamp taken
at 4294967000 ms, 6000 ms earlier. -/
def wrapEnv : Env :=
  { quietEnv 0 with millis := fun _ => 5704 }

/-- The receiver `receiver16` with its last activity stamped at 4294967000 ms,
296 ms before the 32-bit clock wraps. -/
def wrapReceiver : LoRaOTA :=
  { receiver16 with rxLastReceiveTime := 4294967000 }

/-! # Verified properties -/

/-! ## Bytes and buffers -/

theorem readBytes_length (p : Ptr) (off len : Nat) : (readBytes p off len).length = len := by
  simp [readBytes]

theorem readBytes_ptrOfList (bs : List Byte) : readBytes (ptrOfList bs) 0 bs.length = bs := by
  apply List.ext_getElem
  · simp [readBytes]
  · intro i h1 h2
    simp [readBytes, ptrOfList, List.getElem?_eq_getElem h2]

/-! ## Checksum engine -/

set_option maxRecDepth 100000 in
theorem crc32_table_entry : ∀ i < 256, crc32_table.getD i 0 = crc32BitStep^[8] i := by
  decide

theorem crc32BitStep_xor (a b : Nat) :
    crc32BitStep (a ^^^ b) = crc32BitStep a ^^^ crc32BitStep b := by
  unfold crc32BitStep
  have hx : (a ^^^ b) >>> 1 = (a >>> 1) ^^^ (b >>> 1) := by
    apply Nat.eq_of_testBit_eq; intro i; simp
  rw [hx, Nat.xor_mod_two_eq]
  rcases Nat.mod_two_eq_zero_or_one a with ha | ha <;>
    rcases Nat.mod_two_eq_zero_or_one b with hb | hb
  · have : (a + b) % 2 = 0 := by omega
    simp [ha, hb, this]
  · have : (a + b) % 2 = 1 := by omega
    simp [ha, hb, this, Nat.xor_assoc]
  · have : (a + b) % 2 = 1 := by omega
    simp only [ha, hb, this, if_true, if_false, one_ne_zero, zero_ne_one]
    ac_rfl
  · have : (a + b) % 2 = 0 := by omega
    simp only [ha, hb, this, if_true, if_false, one_ne_zero, zero_ne_one]
    have h4 : (a >>> 1 ^^^ 0xEDB88320) ^^^ (b >>> 1 ^^^ 0xEDB88320)
        = (a >>> 1 ^^^ b >>> 1) ^^^ (0xEDB88320 ^^^ 0xEDB88320) := by ac_rfl
    rw [h4, Nat.xor_self, Nat.xor_zero]

theorem crc32BitStep_iterate_xor (k a b : Nat) :
    crc32BitStep^[k] (a ^^^ b) = crc32BitStep^[k] a ^^^ crc32BitStep^[k] b := by
  induction k generalizing a b with
  | zero => rfl
  | succ k ih => simp only [Function.iterate_succ, Function.comp_apply, crc32BitStep_xor, ih]

theorem crc32BitStep_iterate_shiftLeft (k y : Nat) :
    crc32BitStep^[k] (y <<< k) = y := by
  induction k with
  | zero => simp
  | succ k ih =>
    have h : crc32BitStep (y <<< (k + 1)) = y <<< k := by
      unfold crc32BitStep
      have h1 : y <<< (k + 1) = 2 * (y <<< k) := Nat.shiftLeft_succ y k
      have h2 : (y <<< (k + 1)) % 2 = 0 := by omega
      have h3 : (y <<< (k + 1)) >>> 1 = y <<< k := by
        rw [Nat.shiftRight_eq_div_pow]; omega
      simp [h2, h3]
    simp only [Function.iterate_succ, Function.comp_apply, h, ih]

theorem split_low_byte (x : Nat) : x = ((x >>> 8) <<< 8) ^^^ (x % 256) := by
  apply Nat.eq_of_testBit_eq; intro i
  have : (256 : Nat) = 2 ^ 8 := by norm_num
  rw [this]
  simp only [Nat.testBit_xor, Nat.testBit_shiftLeft, Nat.testBit_shiftRight,
    Nat.testBit_mod_two_pow]
  by_cases h : i < 8
  · have h2 : ¬ (i ≥ 8) := by omega
    simp [h, h2]
  · have h2 : i ≥ 8 := by omega
    have : 8 + (i - 8) = i := by omega
    simp [h, h2, this]

/-- Eight bit steps equal one table lookup: the table-driven byte
update of the code is the bitwise update of the reference algorithm. -/
theorem crc32BitStep_iterate_eight (x : Nat) :
    crc32BitStep^[8] x = (x >>> 8) ^^^ crc32_table.getD (x &&& 0xFF) 0 := by
  have hlow : x &&& 0xFF = x % 256 := by
    have := Nat.and_pow_two_sub_one_eq_mod x 8
    simpa using this
  have hlt : x % 256 < 256 := Nat.mod_lt _ (by norm_num)
  rw [hlow, crc32_table_entry _ hlt]
  conv_lhs => rw [split_low_byte x]
  rw [crc32BitStep_iterate_xor, crc32BitStep_iterate_shiftLeft]

theorem crc32Update_eq (crc : Nat) (b : Byte) :
    crc32Update crc b = crc32BitStep^[8] (crc ^^^ b.val) := by
  rw [crc32BitStep_iterate_eight]
  have hb : b.val >>> 8 = 0 := by
    rw [Nat.shiftRight_eq_div_pow]
    exact Nat.div_eq_of_lt b.isLt
  have hx : (crc ^^^ b.val) >>> 8 = crc >>> 8 := by
    apply Nat.eq_of_testBit_eq; intro i
    have := congrArg (fun n => Nat.testBit n i) hb
    simp only [Nat.testBit_shiftRight, Nat.zero_testBit] at this
    simp [this]
  simp only [crc32Update, hx]

theorem calculateCRC32_eq_foldl (data : Ptr) (length : Nat) :
    calculateCRC32 data length
      = ((readBytes data 0 length).foldl crc32Update 0xFFFFFFFF) ^^^ 0xFFFFFFFF := by
  simp [calculateCRC32, readBytes, List.foldl_map]

theorem calculateCRC32_readBytes (data : Ptr) (length : Nat) :
    calculateCRC32 data length = crc32Reference (readBytes data 0 length) := by
  rw [calculateCRC32_eq_foldl, crc32Reference]
  congr 1
  have h : crc32Update = fun crc (b : Byte) => crc32BitStep^[8] (crc ^^^ b.val) := by
    funext crc b; exact crc32Update_eq crc b
  rw [h]

/-- C1: for every byte sequence (given as a list, or as any pointer and
length) `calculateCRC32` returns the CRC-32/ISO-HDLC value of the bitwise
reflected reference algorithm with polynomial 0xEDB88320, initial value
0xFFFFFFFF and final complement; the empty sequence gives 0 and the ASCII bytes
of "123456789" give 0xCBF43926. -/
theorem calculateCRC32_matches_reference :
    (∀ bs : List Byte, calculateCRC32 (ptrOfList bs) bs.length = crc32Reference bs) ∧
    (∀ (data : Ptr) (length : Nat),
      calculateCRC32 data length = crc32Reference (readBytes data 0 length)) ∧
    calculateCRC32 (ptrOfList []) 0 = 0x00000000 ∧
    calculateCRC32 (ptrOfList [0x31, 0x32, 0x33, 0x34, 0x35, 0x36, 0x37, 0x38, 0x39]) 9
      = 0xCBF43926 := by
  refine ⟨?_, calculateCRC32_readBytes, by decide, by decide⟩
  intro bs
  rw [calculateCRC32_readBytes, readBytes_ptrOfList]

/-! ## Wire encoding round trips -/

theorem rd16_le16 (n : Nat) (h : n < 65536) (p : Ptr) (off : Nat)
    (h0 : p off = byteOf n) (h1 : p (off + 1) = byteOf (n / 256)) : rd16 p off = n := by
  simp only [rd16, h0, h1, byteOf]
  omega

theorem rd32_le32 (n : Nat) (h : n < 4294967296) (p : Ptr) (off : Nat)
    (h0 : p off = byteOf n) (h1 : p (off + 1) = byteOf (n / 256))
    (h2 : p (off + 2) = byteOf (n / 65536)) (h3 : p (off + 3) = byteOf (n / 16777216)) :
    rd32 p off = n := by
  simp only [rd32, h0, h1, h2, h3, byteOf]
  omega

theorem chunkCount_eq_ceilDiv (size : Nat) (h : size + 239 < 4294967296) :
    LoRaOTA.chunkCount size = ceilDiv size 240 := by
  simp only [LoRaOTA.chunkCount, LORA_OTA_CHUNK_SIZE, u32, ceilDiv]
  have : (size + 240 - 1) % 2 ^ 32 = size + 239 := by
    norm_num; omega
  rw [this]
  split <;> omega

/-- The ceiling written in the specification's words is the least number of
240-byte chunks that covers the image. -/
theorem ceilDiv_spec (a : Nat) (h : 0 < a) :
    a ≤ ceilDiv a 240 * 240 ∧ (ceilDiv a 240 - 1) * 240 < a := by
  simp only [ceilDiv]
  split <;> omega

theorem chunkPayload_chunkPacket (pad data : Ptr) (size i : Nat) :
    chunkPayload (LoRaOTA.chunkPacket pad data size i)
      = readBytes (data.add (i * 240)) 0 (min 240 (sub32 size (i * 240))) := by
  simp [chunkPayload, LoRaOTA.chunkPacket, encodeChunkHeader, le16, le32, sizeofChunkHeader,
    LORA_OTA_CHUNK_SIZE]

set_option maxRecDepth 100000 in
theorem crc32_table_lt : ∀ i < 256, crc32_table.getD i 0 < 4294967296 := by
  decide

theorem crc32Update_lt (crc : Nat) (b : Byte) (h : crc < 4294967296) :
    crc32Update crc b < 4294967296 := by
  have h1 : crc >>> 8 < 2 ^ 32 := by
    rw [Nat.shiftRight_eq_div_pow]
    exact lt_of_le_of_lt (Nat.div_le_self _ _) h
  have hlow : (crc ^^^ b.val) &&& 0xFF = (crc ^^^ b.val) % 256 := by
    have := Nat.and_pow_two_sub_one_eq_mod (crc ^^^ b.val) 8
    simpa using this
  have h2 : crc32_table.getD ((crc ^^^ b.val) &&& 0xFF) 0 < 2 ^ 32 := by
    rw [hlow]
    exact crc32_table_lt _ (Nat.mod_lt _ (by norm_num))
  exact Nat.xor_lt_two_pow h1 h2

theorem foldl_crc32Update_lt (bs : List Byte) (crc : Nat) (h : crc < 4294967296) :
    bs.foldl crc32Update crc < 4294967296 := by
  induction bs generalizing crc with
  | nil => simpa using h
  | cons b bs ih => exact ih _ (crc32Update_lt crc b h)

theorem calculateCRC32_lt (data : Ptr) (length : Nat) :
    calculateCRC32 data length < 4294967296 := by
  rw [calculateCRC32_eq_foldl]
  have h1 := foldl_crc32Update_lt (readBytes data 0 length) 0xFFFFFFFF (by norm_num)
  have h2 : (0xFFFFFFFF : Nat) < 2 ^ 32 := by norm_num
  exact Nat.xor_lt_two_pow h1 h2

theorem chunkHeaderOf_chunkPacket (pad data : Ptr) (size i : Nat) (hi : i < 65536) :
    chunkHeaderOf (LoRaOTA.chunkPacket pad data size i)
      = { messageType := LORA_OTA_CHUNK
          chunkIndex := i
          chunkSize := min 240 (sub32 size (i * 240))
          chunkCRC := calculateCRC32 (data.add (i * 240)) (min 240 (sub32 size (i * 240))) } := by
  have hc := calculateCRC32_lt (data.add (i * 240)) (min 240 (sub32 size (i * 240)))
  have hs : min 240 (sub32 size (i * 240)) < 65536 := by omega
  simp only [chunkHeaderOf, readChunkHeader, LoRaOTA.chunkPacket, encodeChunkHeader,
    LORA_OTA_CHUNK_SIZE, u16]
  have hm : min 240 (sub32 size (i * 240)) % 2 ^ 16 = min 240 (sub32 size (i * 240)) :=
    Nat.mod_eq_of_lt (by omega)
  rw [hm, ChunkHeader.mk.injEq]
  refine ⟨?_, ?_, ?_, ?_⟩
  · simp [Ptr.add, ptrOfList, byteOf, LORA_OTA_CHUNK]
  · apply rd16_le16 _ hi <;> simp [Ptr.add, ptrOfList, le16]
  · apply rd16_le16 _ hs <;> simp [Ptr.add, ptrOfList, le16]
  · apply rd32_le32 _ hc <;> simp [Ptr.add, ptrOfList, le16, le32]
/-! ## Chunking -/

theorem readBytes_add_ptrOfList (bs : List Byte) (k m : Nat) (h : k + m ≤ bs.length) :
    readBytes ((ptrOfList bs).add k) 0 m = (bs.drop k).take m := by
  apply List.ext_getElem
  · simp [readBytes]; omega
  · intro i h1 h2
    have h3 : k + i < bs.length := by
      simp [readBytes] at h1; omega
    simp [readBytes, ptrOfList, Ptr.add, List.getElem?_eq_getElem h3]

theorem flatMap_chunks (n : Nat) : ∀ l : List Byte, l.length ≤ 240 * n →
    (List.range n).flatMap (fun i => (l.drop (240 * i)).take (min 240 (l.length - 240 * i))) = l := by
  induction n with
  | zero => intro l h; simp at h; simp [h]
  | succ n ih =>
    intro l h
    rw [List.range_succ_eq_map, List.flatMap_cons, List.flatMap_map]
    have h1 : (l.drop (240 * 0)).take (min 240 (l.length - 240 * 0)) = l.take 240 := by
      simp only [Nat.mul_zero, List.drop_zero, Nat.sub_zero]
      by_cases hl : 240 ≤ l.length
      · rw [Nat.min_eq_left hl]
      · have hl2 : l.length ≤ 240 := by omega
        rw [Nat.min_eq_right hl2, List.take_of_length_le (le_refl _), List.take_of_length_le hl2]
    have h2 : ∀ i, (l.drop (240 * (i + 1))).take (min 240 (l.length - 240 * (i + 1)))
        = ((l.drop 240).drop (240 * i)).take (min 240 ((l.drop 240).length - 240 * i)) := by
      intro i
      rw [List.drop_drop, List.length_drop]
      have e1 : 240 + 240 * i = 240 * (i + 1) := by ring
      have e2 : l.length - 240 - 240 * i = l.length - 240 * (i + 1) := by omega
      rw [e1, e2]
    have h3 := ih (l.drop 240) (by rw [List.length_drop]; omega)
    rw [h1]
    simp only [Function.comp, h2]
    rw [h3, List.take_append_drop]

theorem sendChunk_sends (env : Env) (s : LoRaOTA) (data : Ptr) (i : Nat)
    (hdata : s.txFirmwareData = some data) (hi : i < LoRaOTA.chunkCount s.txFirmwareSize) :
    (s.sendChunk env i).2.trace
      = s.trace ++ [Effect.send (LoRaOTA.chunkPacket (env.uninit s.calls) data s.txFirmwareSize i)] := by
  have : ¬ (i ≥ LoRaOTA.chunkCount s.txFirmwareSize) := by omega
  simp [LoRaOTA.sendChunk, hdata, this, LoRaOTA.loraSendData, LoRaOTA.emit]

theorem lastSent_append_send (tr : List Effect) (p : List Byte) :
    lastSent (tr ++ [Effect.send p]) = p := by
  simp [lastSent, sentPackets, List.filterMap_append]

/-- C2: for a non-empty image whose chunk count `n = ceil(S/240)` fits in 16 bits,
`sendChunk` emits for each index below `n` exactly one Chunk packet, whose header
carries that index and a chunkSize in 1..240 equal to its payload length: 240 for
chunks `0..n-2`, and `S mod 240` (or 240 when `S` is a multiple of 240) for the
last; the payloads concatenated in index order are the image. -/
theorem sendChunk_reassembles_image (env : Env) (st : Nat → LoRaOTA) (image : List Byte)
    (hdata : ∀ i, (st i).txFirmwareData = some (ptrOfList image))
    (hsize : ∀ i, (st i).txFirmwareSize = image.length)
    (hpos : 0 < image.length)
    (hfit : ceilDiv image.length 240 ≤ 65535) :
    (∀ i < ceilDiv image.length 240,
      ∃ pkt, ((st i).sendChunk env i).2.trace = (st i).trace ++ [Effect.send pkt] ∧
        (chunkHeaderOf pkt).chunkIndex = i ∧
        (chunkHeaderOf pkt).chunkSize = (chunkPayload pkt).length ∧
        1 ≤ (chunkHeaderOf pkt).chunkSize ∧ (chunkHeaderOf pkt).chunkSize ≤ 240 ∧
        (i + 1 < ceilDiv image.length 240 → (chunkHeaderOf pkt).chunkSize = 240) ∧
        (i + 1 = ceilDiv image.length 240 → (chunkHeaderOf pkt).chunkSize =
            if image.length % 240 = 0 then 240 else image.length % 240)) ∧
    (List.range (ceilDiv image.length 240)).flatMap
        (fun i => chunkPayload (lastSent ((st i).sendChunk env i).2.trace)) = image := by
  have hS : image.length + 239 < 4294967296 := by
    have := (ceilDiv_spec image.length hpos).1
    omega
  have hcc : ∀ i, LoRaOTA.chunkCount (st i).txFirmwareSize = ceilDiv image.length 240 := by
    intro i; rw [hsize, chunkCount_eq_ceilDiv _ hS]
  have hsub : ∀ i, i < ceilDiv image.length 240 →
      sub32 image.length (i * 240) = image.length - 240 * i ∧ 240 * i < image.length := by
    intro i hi
    have h2 := (ceilDiv_spec image.length hpos).2
    have h3 : 240 * i < image.length := by
      have : i ≤ ceilDiv image.length 240 - 1 := by omega
      have : i * 240 ≤ (ceilDiv image.length 240 - 1) * 240 := Nat.mul_le_mul_right _ this
      omega
    refine ⟨?_, h3⟩
    simp only [sub32]
    omega
  constructor
  · intro i hi
    have hsend := sendChunk_sends env (st i) (ptrOfList image) i (hdata i) (by rw [hcc]; exact hi)
    refine ⟨_, hsend, ?_⟩
    rw [chunkHeaderOf_chunkPacket _ _ _ _ (by omega), chunkPayload_chunkPacket, readBytes_length,
      hsize]
    obtain ⟨e1, e2⟩ := hsub i hi
    have h1 := (ceilDiv_spec image.length hpos).1
    have h2 := (ceilDiv_spec image.length hpos).2
    simp only [e1]
    refine ⟨trivial, trivial, by omega, by omega, ?_, ?_⟩
    · intro hlt
      have : (i + 1) * 240 ≤ (ceilDiv image.length 240 - 1) * 240 :=
        Nat.mul_le_mul_right _ (by omega)
      omega
    · intro heq
      simp only [ceilDiv] at heq
      split at heq <;> rename_i hm
      · simp only [hm, if_true]; omega
      · simp only [hm, if_false]; omega
  · have key : ∀ i ∈ List.range (ceilDiv image.length 240),
        chunkPayload (lastSent ((st i).sendChunk env i).2.trace)
          = (image.drop (240 * i)).take (min 240 (image.length - 240 * i)) := by
      intro i hi
      rw [List.mem_range] at hi
      rw [sendChunk_sends env (st i) (ptrOfList image) i (hdata i) (by rw [hcc]; exact hi),
        lastSent_append_send, chunkPayload_chunkPacket, hsize]
      obtain ⟨e1, e2⟩ := hsub i hi
      rw [e1, Nat.mul_comm i 240]
      exact readBytes_add_ptrOfList image _ _ (by omega)
    rw [List.flatMap_congr key]
    exact flatMap_chunks _ image (by have := (ceilDiv_spec image.length hpos).1; omega)
theorem image500_length : image500.length = 500 := by simp [image500]

theorem sendChunk_reassembles_image_witness :
    (∀ _i : Nat, sender500.txFirmwareData = some (ptrOfList image500)) ∧
    (∀ _i : Nat, sender500.txFirmwareSize = image500.length) ∧
    0 < image500.length ∧ ceilDiv image500.length 240 ≤ 65535 ∧
    (List.range (ceilDiv image500.length 240)).flatMap
        (fun i => chunkPayload (lastSent (sender500.sendChunk (quietEnv 0) i).2.trace))
      = image500 :=
  ⟨fun _ => rfl, fun _ => image500_length.symm,
    by rw [image500_length]; decide, by rw [image500_length]; decide,
    (sendChunk_reassembles_image (quietEnv 0) (fun _ => sender500) image500
      (fun _ => rfl) (fun _ => image500_length.symm) (by rw [image500_length]; decide)
      (by rw [image500_length]; decide)).2⟩
/-! ## Starting a transmission -/

theorem metadataOf_init_totalChunks (pad : Ptr) (m : FirmwareMetadata)
    (h : m.totalChunks < 65536) :
    (metadataOf (byteOf LORA_OTA_INIT :: encodeFirmwareMetadata pad m)).totalChunks
      = m.totalChunks := by
  simp only [metadataOf, readFirmwareMetadata, encodeFirmwareMetadata]
  apply rd16_le16 _ h <;> simp [Ptr.add, ptrOfList, le16, le32]

/-- What an accepted `sendFirmware` hands to the transport first: the Init packet
built from the metadata it computed. -/
theorem sendFirmware_trace (env : Env) (s : LoRaOTA) (data : Ptr) (size : Nat)
    (version : Ptr) (target : String) (hidle : s.state = LORA_OTA_IDLE) (hpos : 0 < size) :
    ∃ rest, (s.sendFirmware env (some data) size version target).2.trace
      = s.trace ++ Effect.send (byteOf LORA_OTA_INIT :: encodeFirmwareMetadata (env.uninit s.calls)
          { totalSize := u32 size
            totalChunks := u16 (LoRaOTA.chunkCount size)
            crc32 := calculateCRC32 data size
            protocolVersion := u8 LORA_OTA_PROTOCOL_VERSION
            version := strncpy version 15 ++ [0] }) :: rest := by
  have hne : size ≠ 0 := by omega
  by_cases hsend : env.sendData s.calls = true
  · refine ⟨[], ?_⟩
    simp [LoRaOTA.sendFirmware, hidle, hne, LoRaOTA.sendInitMessage, LoRaOTA.loraSendData,
      LoRaOTA.emit, LoRaOTA.millis, hsend]
  · refine ⟨[Effect.send [byteOf LORA_OTA_ABORT]], ?_⟩
    simp [LoRaOTA.sendFirmware, hidle, hne, LoRaOTA.sendInitMessage, LoRaOTA.loraSendData,
      LoRaOTA.emit, LoRaOTA.abortUpdate, LoRaOTA.sendAbort, hsend]

/-- C3 (as stated, refuted): `sendFirmware` accepts the size 15728401, whose chunk
count `ceil(S/240)` is 65536, and the 16-bit `totalChunks` field of the Init
message it sends holds 0. -/
theorem sendFirmware_totalChunks_truncated :
    ∃ pkt rest,
      (idleSession.sendFirmware (quietEnv 0) (some (fun _ => 0)) 15728401 testVersion "").2.trace
        = Effect.send pkt :: rest ∧
      (metadataOf pkt).totalChunks = 0 ∧ ceilDiv 15728401 240 = 65536 ∧
      (metadataOf pkt).totalChunks ≠ ceilDiv 15728401 240 := by
  obtain ⟨rest, h⟩ := sendFirmware_trace (quietEnv 0) idleSession (fun _ => 0) 15728401
    testVersion "" rfl (by decide)
  refine ⟨_, rest, h, ?_⟩
  rw [metadataOf_init_totalChunks _ _ (Nat.mod_lt _ (by decide))]
  decide

/-- C3 (amended): for every accepted image size `S > 0` (state Idle, non-null
image, `S` a 32-bit `size_t` with `S + 239` not wrapping), the first packet
`sendFirmware` sends is the Init message and its `totalChunks` field is
`ceil(S/240)` reduced modulo `2^16`; it equals `ceil(S/240)` whenever
`S ≤ 15728400`, that is whenever the chunk count fits in 16 bits. -/
theorem sendFirmware_totalChunks (env : Env) (s : LoRaOTA) (data : Ptr) (size : Nat)
    (version : Ptr) (target : String) (hidle : s.state = LORA_OTA_IDLE) (hpos : 0 < size)
    (hsize : size + 239 < 4294967296) :
    ∃ pkt rest,
      (s.sendFirmware env (some data) size version target).2.trace
        = s.trace ++ Effect.send pkt :: rest ∧
      pkt.head? = some (byteOf LORA_OTA_INIT) ∧
      (metadataOf pkt).totalChunks = ceilDiv size 240 % 65536 ∧
      (size ≤ 15728400 → (metadataOf pkt).totalChunks = ceilDiv size 240) := by
  obtain ⟨rest, h⟩ := sendFirmware_trace env s data size version target hidle hpos
  refine ⟨_, rest, h, rfl, ?_, ?_⟩
  · rw [metadataOf_init_totalChunks _ _ (Nat.mod_lt _ (by decide)),
      chunkCount_eq_ceilDiv _ hsize]
    rfl
  · intro hle
    rw [metadataOf_init_totalChunks _ _ (Nat.mod_lt _ (by decide)),
      chunkCount_eq_ceilDiv _ hsize]
    have := (ceilDiv_spec size hpos).2
    simp only [u16]
    exact Nat.mod_eq_of_lt (by omega)

theorem sendFirmware_totalChunks_witness :
    idleSession.state = LORA_OTA_IDLE ∧ 0 < 16 ∧ 16 + 239 < 4294967296 ∧
    ∃ pkt rest,
      (idleSession.sendFirmware (quietEnv 0) (some (ptrOfList testFirmware)) 16 testVersion
          "BRAVO_001").2.trace
        = idleSession.trace ++ Effect.send pkt :: rest ∧
      pkt.head? = some (byteOf LORA_OTA_INIT) ∧
      (metadataOf pkt).totalChunks = ceilDiv 16 240 % 65536 ∧
      (16 ≤ 15728400 → (metadataOf pkt).totalChunks = ceilDiv 16 240) :=
  ⟨rfl, by decide, by decide,
    sendFirmware_totalChunks (quietEnv 0) idleSession (ptrOfList testFirmware) 16 testVersion
      "BRAVO_001" rfl (by decide) (by decide)⟩
/-! ## Receiving chunks -/

theorem writtenIndices_append (a b : List Effect) :
    writtenIndices (a ++ b) = writtenIndices a ++ writtenIndices b := by
  simp [writtenIndices, List.filterMap_append]

theorem sentPackets_append (a b : List Effect) :
    sentPackets (a ++ b) = sentPackets a ++ sentPackets b := by
  simp [sentPackets, List.filterMap_append]

/-- State left by `sendNack`: one more call, one more packet, nothing else. -/
theorem sendNack_state (env : Env) (s : LoRaOTA) (k : Nat) :
    (s.sendNack env k).2
      = { s with calls := s.calls + 1, trace := s.trace ++ [Effect.send (nackPacket k)] } := by
  rfl

/-- A Chunk packet outside the receiving state is dropped. -/
theorem handleChunkMessage_not_receiving (env : Env) (s : LoRaOTA) (data : Ptr) (length : Nat)
    (h : s.state ≠ LORA_OTA_RECEIVING) : s.handleChunkMessage env data length = (false, s) := by
  simp [LoRaOTA.handleChunkMessage, h]

/-- A Chunk packet too short to hold a header, or whose header names another index
than the expected one, is answered with `Nack(rxCurrentChunk)` and nothing else. -/
theorem handleChunkMessage_reject (env : Env) (s : LoRaOTA) (data : Ptr) (length : Nat)
    (hrx : s.state = LORA_OTA_RECEIVING)
    (h : length < sizeofChunkHeader + 1 ∨ (readChunkHeader (data.add 1)).chunkIndex ≠ s.rxCurrentChunk) :
    s.handleChunkMessage env data length
      = (false, { s with calls := s.calls + 1
                         trace := s.trace ++ [Effect.send (nackPacket s.rxCurrentChunk)] }) := by
  by_cases hl : length < sizeofChunkHeader + 1
  · simp [LoRaOTA.handleChunkMessage, hrx, hl, sendNack_state]
  · have hi : (readChunkHeader (data.add 1)).chunkIndex ≠ s.rxCurrentChunk := by tauto
    simp [LoRaOTA.handleChunkMessage, hrx, hl, hi, sendNack_state]

/-- A well-indexed chunk whose CRC does not match is answered with a Nack and
counted as a retry. -/
theorem handleChunkMessage_crc_mismatch (env : Env) (s : LoRaOTA) (data : Ptr) (length : Nat)
    (hrx : s.state = LORA_OTA_RECEIVING) (hl : sizeofChunkHeader + 1 ≤ length)
    (hi : (readChunkHeader (data.add 1)).chunkIndex = s.rxCurrentChunk)
    (hcrc : validateChunkCRC (data.add (1 + sizeofChunkHeader))
      (readChunkHeader (data.add 1)).chunkSize (readChunkHeader (data.add 1)).chunkCRC = false) :
    s.handleChunkMessage env data length
      = (false, { s with calls := s.calls + 1
                         trace := s.trace ++ [Effect.send (nackPacket s.rxCurrentChunk)]
                         rxRetryCount := u8 (s.rxRetryCount + 1) }) := by
  have hl2 : ¬ length < sizeofChunkHeader + 1 := by omega
  simp [LoRaOTA.handleChunkMessage, hrx, hl2, hi, hcrc, sendNack_state]

/-- A chunk that passes the size, index and CRC checks but whose flash write
reports another byte count aborts the session. -/
theorem handleChunkMessage_write_failed (env : Env) (s : LoRaOTA) (data : Ptr) (length : Nat)
    (hrx : s.state = LORA_OTA_RECEIVING) (hl : sizeofChunkHeader + 1 ≤ length)
    (hi : (readChunkHeader (data.add 1)).chunkIndex = s.rxCurrentChunk)
    (hcrc : validateChunkCRC (data.add (1 + sizeofChunkHeader))
      (readChunkHeader (data.add 1)).chunkSize (readChunkHeader (data.add 1)).chunkCRC = true)
    (hw : u32 (env.updateWrite s.calls) ≠ (readChunkHeader (data.add 1)).chunkSize) :
    s.handleChunkMessage env data length
      = (false, { s with
          calls := s.calls + 3
          trace := s.trace ++
            [Effect.updateWrite s.rxCurrentChunk (readBytes (data.add (1 + sizeofChunkHeader)) 0
               (readChunkHeader (data.add 1)).chunkSize),
             Effect.updateAbort, Effect.send [byteOf LORA_OTA_ABORT]]
          lastError := "Failed to write chunk to flash"
          state := LORA_OTA_IDLE
          txFirmwareData := none
          txFirmwareSize := 0 }) := by
  have hl2 : ¬ length < sizeofChunkHeader + 1 := by omega
  simp [LoRaOTA.handleChunkMessage, hrx, hl2, hi, hcrc, hw, LoRaOTA.writeChunkToFlash,
    LoRaOTA.abortUpdate, LoRaOTA.emit, LoRaOTA.sendAbort, LoRaOTA.loraSendData]

/-- A chunk that passes every check is written once, acknowledged, and the
expected index advances; the update is finalized when the count is reached. -/
theorem handleChunkMessage_accept (env : Env) (s : LoRaOTA) (data : Ptr) (length : Nat)
    (hrx : s.state = LORA_OTA_RECEIVING) (hl : sizeofChunkHeader + 1 ≤ length)
    (hi : (readChunkHeader (data.add 1)).chunkIndex = s.rxCurrentChunk)
    (hcrc : validateChunkCRC (data.add (1 + sizeofChunkHeader))
      (readChunkHeader (data.add 1)).chunkSize (readChunkHeader (data.add 1)).chunkCRC = true)
    (hw : u32 (env.updateWrite s.calls) = (readChunkHeader (data.add 1)).chunkSize) :
    s.handleChunkMessage env data length
      = if u16 (s.rxCurrentChunk + 1) ≥ s.rxMetadata.totalChunks
        then LoRaOTA.finalizeUpdate env (s.afterAccept env data)
        else (true, s.afterAccept env data) := by
  have hl2 : ¬ length < sizeofChunkHeader + 1 := by omega
  simp [LoRaOTA.handleChunkMessage, hrx, hl2, hi, hcrc, hw, LoRaOTA.writeChunkToFlash,
    LoRaOTA.emit, LoRaOTA.sendAck, LoRaOTA.loraSendData, LoRaOTA.millis, LoRaOTA.afterAccept]
theorem finalizeUpdate_ok (env : Env) (s : LoRaOTA) (h : env.updateEnd s.calls = true) :
    LoRaOTA.finalizeUpdate env s
      = (true, { s with
          state := LORA_OTA_VALIDATING
          calls := s.calls + 4
          trace := s.trace ++ [Effect.updateEnd, Effect.send [byteOf LORA_OTA_COMPLETE],
            Effect.delay 3000, Effect.restart] }) := by
  simp [LoRaOTA.finalizeUpdate, h, LoRaOTA.emit, LoRaOTA.sendComplete, LoRaOTA.loraSendData]

theorem finalizeUpdate_failed (env : Env) (s : LoRaOTA) (h : env.updateEnd s.calls = false) :
    LoRaOTA.finalizeUpdate env s
      = (false, { s with
          state := LORA_OTA_ERROR
          lastError := "Update finalization failed"
          calls := s.calls + 1
          trace := s.trace ++ [Effect.updateEnd] }) := by
  simp [LoRaOTA.finalizeUpdate, h, LoRaOTA.emit]

/-- A step that writes nothing to flash, keeps the stored metadata, does not start
transmitting, and either leaves the receiving state or keeps the expected index. -/
theorem SessionInv_of_quiet (s t : LoRaOTA) (h : SessionInv s)
    (hw : writtenIndices t.trace = writtenIndices s.trace)
    (hm : t.rxMetadata = s.rxMetadata) (ht : t.state ≠ LORA_OTA_TRANSMITTING)
    (hr : t.state = LORA_OTA_RECEIVING →
      s.state = LORA_OTA_RECEIVING ∧ t.rxCurrentChunk = s.rxCurrentChunk) :
    SessionInv t := by
  obtain ⟨_, h2, m, h3, h4⟩ := h
  refine ⟨ht, by rw [hm]; exact h2, m, by rw [hw]; exact h3, ?_⟩
  intro hrx
  obtain ⟨h5, h6⟩ := hr hrx
  rw [h6]
  exact h4 h5

theorem finalizeUpdate_quiet (env : Env) (s : LoRaOTA) :
    writtenIndices (LoRaOTA.finalizeUpdate env s).2.trace = writtenIndices s.trace ∧
    (LoRaOTA.finalizeUpdate env s).2.rxMetadata = s.rxMetadata ∧
    ((LoRaOTA.finalizeUpdate env s).2.state = LORA_OTA_VALIDATING ∨
      (LoRaOTA.finalizeUpdate env s).2.state = LORA_OTA_ERROR) := by
  cases h : env.updateEnd s.calls
  · rw [finalizeUpdate_failed env s h]
    simp [writtenIndices_append, writtenIndices]
  · rw [finalizeUpdate_ok env s h]
    simp [writtenIndices_append, writtenIndices]

theorem handleChunkMessage_inv (env : Env) (s : LoRaOTA) (data : Ptr) (length : Nat)
    (h : SessionInv s) : SessionInv (s.handleChunkMessage env data length).2 := by
  by_cases hrx : s.state = LORA_OTA_RECEIVING
  · by_cases hrej : length < sizeofChunkHeader + 1 ∨
        (readChunkHeader (data.add 1)).chunkIndex ≠ s.rxCurrentChunk
    · rw [handleChunkMessage_reject env s data length hrx hrej]
      apply SessionInv_of_quiet s _ h
      · simp [writtenIndices_append, writtenIndices]
      · rfl
      · simp [hrx]
      · intro _; exact ⟨hrx, rfl⟩
    · push_neg at hrej
      obtain ⟨hl, hi⟩ := hrej
      cases hcrc : validateChunkCRC (data.add (1 + sizeofChunkHeader))
        (readChunkHeader (data.add 1)).chunkSize (readChunkHeader (data.add 1)).chunkCRC
      · rw [handleChunkMessage_crc_mismatch env s data length hrx hl hi hcrc]
        apply SessionInv_of_quiet s _ h
        · simp [writtenIndices_append, writtenIndices]
        · rfl
        · simp [hrx]
        · intro _; exact ⟨hrx, rfl⟩
      · by_cases hw : u32 (env.updateWrite s.calls) = (readChunkHeader (data.add 1)).chunkSize
        · rw [handleChunkMessage_accept env s data length hrx hl hi hcrc hw]
          obtain ⟨_, h2, m, h3, h4⟩ := h
          obtain ⟨h5, h6⟩ := h4 hrx
          have hwr : writtenIndices (s.afterAccept env data).trace = List.range (m + 1) := by
            simp [LoRaOTA.afterAccept, writtenIndices_append, h3, List.range_succ, h5]
            simp [writtenIndices]
          have hu : u16 (s.rxCurrentChunk + 1) = m + 1 := by
            rw [h5]; simp only [u16]; omega
          split
          · obtain ⟨q1, q2, q3⟩ := finalizeUpdate_quiet env (s.afterAccept env data)
            refine ⟨?_, by rw [q2]; exact h2, m + 1, by rw [q1]; exact hwr, ?_⟩
            · rcases q3 with q | q <;> simp [q]
            · intro hc; rcases q3 with q | q <;> simp [q] at hc
          · rename_i hlt
            refine ⟨by simp [LoRaOTA.afterAccept, hrx], h2, m + 1, hwr, ?_⟩
            intro _
            rw [hu] at hlt
            have : (s.afterAccept env data).rxCurrentChunk = u16 (s.rxCurrentChunk + 1) := rfl
            have h7 : s.rxMetadata.totalChunks < 65536 := h2
            rw [this, hu]
            exact ⟨rfl, by omega⟩
        · rw [handleChunkMessage_write_failed env s data length hrx hl hi hcrc hw]
          obtain ⟨_, h2, m, h3, h4⟩ := h
          obtain ⟨h5, h6⟩ := h4 hrx
          refine ⟨by simp, h2, m + 1, ?_, by simp⟩
          simp [writtenIndices_append, h3, List.range_succ, h5]
          simp [writtenIndices]
  · rw [handleChunkMessage_not_receiving env s data length hrx]
    exact h
theorem abortUpdate_quiet (env : Env) (t : LoRaOTA) :
    writtenIndices (LoRaOTA.abortUpdate env t).trace = writtenIndices t.trace ∧
    (LoRaOTA.abortUpdate env t).rxMetadata = t.rxMetadata ∧
    (LoRaOTA.abortUpdate env t).state = LORA_OTA_IDLE := by
  by_cases hrx : t.state = LORA_OTA_RECEIVING <;>
    simp [LoRaOTA.abortUpdate, LoRaOTA.sendAbort, LoRaOTA.loraSendData, LoRaOTA.emit, hrx,
      writtenIndices_append, writtenIndices]

theorem abortUpdate_inv (env : Env) (s t : LoRaOTA) (h : SessionInv s)
    (hw : writtenIndices t.trace = writtenIndices s.trace) (hm : t.rxMetadata = s.rxMetadata) :
    SessionInv (LoRaOTA.abortUpdate env t) := by
  obtain ⟨q1, q2, q3⟩ := abortUpdate_quiet env t
  apply SessionInv_of_quiet s _ h
  · rw [q1, hw]
  · rw [q2, hm]
  · simp [q3]
  · simp [q3]

theorem processMessage_inv (env : Env) (s : LoRaOTA) (data : Ptr) (length : Nat)
    (h : SessionInv s) (hinit : (data 0).val ≠ LORA_OTA_INIT) :
    SessionInv (s.processMessage env data length).2 := by
  have hnt : s.state ≠ LORA_OTA_TRANSMITTING := h.1
  simp only [LoRaOTA.processMessage, hinit, if_false]
  split
  · exact h
  · split
    · exact handleChunkMessage_inv env s data length h
    · split
      · simpa [LoRaOTA.handleAckMessage, hnt] using h
      · split
        · simpa [LoRaOTA.handleNackMessage, hnt] using h
        · split
          · exact h
          · split
            · apply SessionInv_of_quiet s _ h
              · by_cases hrx : s.state = LORA_OTA_RECEIVING <;>
                  simp [LoRaOTA.handleAbortMessage, LoRaOTA.emit, hrx, writtenIndices_append,
                    writtenIndices]
              · by_cases hrx : s.state = LORA_OTA_RECEIVING <;>
                  simp [LoRaOTA.handleAbortMessage, LoRaOTA.emit, hrx]
              · simp [LoRaOTA.handleAbortMessage]
              · simp [LoRaOTA.handleAbortMessage]
            · exact h

theorem SessionInv_calls (s : LoRaOTA) (n : Nat) (h : SessionInv s) :
    SessionInv { s with calls := n } := h

theorem handleIncoming_inv (env : Env) (s : LoRaOTA) (h : SessionInv s)
    (hinit : ∀ t, (env.receiveBuffer t 0).val ≠ LORA_OTA_INIT) :
    SessionInv (LoRaOTA.handleIncoming env s) := by
  simp only [LoRaOTA.handleIncoming]
  split
  · split
    · exact processMessage_inv env _ _ _ (SessionInv_calls _ _ (SessionInv_calls s _ h)) (hinit _)
    · exact SessionInv_calls _ _ (SessionInv_calls s _ h)
  · exact SessionInv_calls s _ h

theorem handleReceiveTimeout_inv (env : Env) (s : LoRaOTA) (h : SessionInv s) :
    SessionInv (LoRaOTA.handleReceiveTimeout env s) := by
  simp only [LoRaOTA.handleReceiveTimeout]
  split
  · rename_i hrx
    split
    · split
      · apply SessionInv_of_quiet s _ h
        · simp [LoRaOTA.millis, LoRaOTA.sendNack, LoRaOTA.loraSendData, LoRaOTA.emit,
            writtenIndices_append, writtenIndices]
        · rfl
        · simp [LoRaOTA.millis, LoRaOTA.sendNack, LoRaOTA.loraSendData, LoRaOTA.emit, hrx]
        · intro _; exact ⟨hrx, rfl⟩
      · exact abortUpdate_inv env s _ h rfl rfl
    · exact SessionInv_calls s _ h
  · exact h

theorem handleTransmitTimeout_inv (env : Env) (s : LoRaOTA) (h : SessionInv s) :
    SessionInv (LoRaOTA.handleTransmitTimeout env s) := by
  have hnt : s.state ≠ LORA_OTA_TRANSMITTING := h.1
  simpa [LoRaOTA.handleTransmitTimeout, hnt] using h

/-- Every service call that does not deliver an Init packet keeps the receiver
session invariant. -/
theorem handle_inv (env : Env) (s : LoRaOTA) (h : SessionInv s)
    (hinit : ∀ t, (env.receiveBuffer t 0).val ≠ LORA_OTA_INIT) :
    SessionInv (LoRaOTA.handle env s) := by
  simp only [LoRaOTA.handle]
  split
  · exact h
  · exact handleTransmitTimeout_inv env _
      (handleReceiveTimeout_inv env _ (handleIncoming_inv env s h hinit))

theorem handle_iterate_inv (env : Env) (n : Nat) (s : LoRaOTA) (h : SessionInv s)
    (hinit : ∀ t, (env.receiveBuffer t 0).val ≠ LORA_OTA_INIT) :
    SessionInv ((LoRaOTA.handle env)^[n] s) := by
  induction n generalizing s with
  | zero => exact h
  | succ n ih =>
    rw [Function.iterate_succ, Function.comp_apply]
    exact ih _ (handle_inv env s h hinit)

/-- C4: in state Receiving, a Chunk packet whose header index differs from
`rxCurrentChunk` (or that is too short to hold a header), whatever its payload
and CRC, changes nothing but the transport record: no flash call, same state and
`rxCurrentChunk`, and the reply `Nack(rxCurrentChunk)`.  Hence over a whole
receiver session (any number of service calls from the moment the session starts
with expected index 0, whatever the transport delivers apart from a new Init,
and whatever the clock and the Flash Sink answer) the chunk indices passed to the
flash write are `0, 1, .., m-1`, each exactly once and in order. -/
theorem handleChunkMessage_strict_index :
    (∀ (env : Env) (s : LoRaOTA) (data : Ptr) (length : Nat),
      s.state = LORA_OTA_RECEIVING →
      (length < sizeofChunkHeader + 1 ∨
        (readChunkHeader (data.add 1)).chunkIndex ≠ s.rxCurrentChunk) →
      s.handleChunkMessage env data length
        = (false, { s with
            calls := s.calls + 1
            trace := s.trace ++ [Effect.send (nackPacket s.rxCurrentChunk)] })) ∧
    (∀ (env : Env) (s : LoRaOTA) (n : Nat),
      s.state = LORA_OTA_RECEIVING → s.rxCurrentChunk = 0 →
      s.rxMetadata.totalChunks < 65536 → writtenIndices s.trace = [] →
      (∀ t, (env.receiveBuffer t 0).val ≠ LORA_OTA_INIT) →
      ∃ m, writtenIndices ((LoRaOTA.handle env)^[n] s).trace = List.range m ∧
        (writtenIndices ((LoRaOTA.handle env)^[n] s).trace).Nodup) := by
  refine ⟨handleChunkMessage_reject, ?_⟩
  intro env s n hrx h0 hm hw hinit
  have hinv : SessionInv s :=
    ⟨by simp [hrx], hm, 0, by simpa using hw, fun _ => ⟨h0, by decide⟩⟩
  obtain ⟨_, _, m, h1, _⟩ := handle_iterate_inv env n s hinv hinit
  exact ⟨m, h1, by rw [h1]; exact List.nodup_range m⟩
set_option maxRecDepth 1000000 in
theorem handleChunkMessage_strict_index_witness :
    (LoRaOTA.handle (deliverEnv 240 chunk0of500) receiver500).state = LORA_OTA_RECEIVING ∧
    (readChunkHeader ((ptrOfList chunk0of500).add 1)).chunkIndex
      ≠ (LoRaOTA.handle (deliverEnv 240 chunk0of500) receiver500).rxCurrentChunk ∧
    ((LoRaOTA.handle (deliverEnv 240 chunk0of500) receiver500).handleChunkMessage
        (deliverEnv 240 chunk0of500) (ptrOfList chunk0of500) 253).2.trace
      = (LoRaOTA.handle (deliverEnv 240 chunk0of500) receiver500).trace
          ++ [Effect.send (nackPacket 1)] ∧
    ∃ m, writtenIndices ((LoRaOTA.handle (deliverEnv 240 chunk0of500))^[3] receiver500).trace
        = List.range m ∧
      (writtenIndices
        ((LoRaOTA.handle (deliverEnv 240 chunk0of500))^[3] receiver500).trace).Nodup := by
  have hrx : (LoRaOTA.handle (deliverEnv 240 chunk0of500) receiver500).state
      = LORA_OTA_RECEIVING := by decide
  have hidx : (readChunkHeader ((ptrOfList chunk0of500).add 1)).chunkIndex
      ≠ (LoRaOTA.handle (deliverEnv 240 chunk0of500) receiver500).rxCurrentChunk := by decide
  have hb : (ptrOfList chunk0of500 0).val ≠ LORA_OTA_INIT := by decide
  refine ⟨hrx, hidx, ?_, ?_⟩
  · rw [handleChunkMessage_strict_index.1 (deliverEnv 240 chunk0of500) _
      (ptrOfList chunk0of500) 253 hrx (Or.inr hidx)]
    have h1 : (LoRaOTA.handle (deliverEnv 240 chunk0of500) receiver500).rxCurrentChunk = 1 := by
      decide
    simp only [h1]
  · exact handleChunkMessage_strict_index.2 (deliverEnv 240 chunk0of500) receiver500 3
      (by decide) (by decide) (by decide) (by decide) (fun _ => hb)
/-! ## Behaviour at the inputs where the code departs from the specification -/

set_option maxRecDepth 1000000 in
/-- C5 (code at the failing input): after `sendFirmware` on the 16-byte example
image the sender has sent the Init packet only and is Transmitting; the first
`Ack(0)` it processes makes it send Complete and return to Idle.  No Chunk packet
is ever handed to the transport, where the scenario expects `Chunk(0, 16, crc)`
on that Ack and Complete only on a further one. -/
theorem sender_scenario_completes_without_chunk :
    sender16.state = LORA_OTA_TRANSMITTING ∧
    sentPackets sender16.trace = [init16] ∧
    init16.head? = some (byteOf LORA_OTA_INIT) ∧
    (metadataOf init16).totalChunks = 1 ∧
    (LoRaOTA.handle (deliverEnv 0 (ackPacket 0)) sender16).state = LORA_OTA_IDLE ∧
    sentPackets (LoRaOTA.handle (deliverEnv 0 (ackPacket 0)) sender16).trace
      = [init16, [byteOf LORA_OTA_COMPLETE]] ∧
    (∀ p ∈ sentPackets (LoRaOTA.handle (deliverEnv 0 (ackPacket 0)) sender16).trace,
      p.head? ≠ some (byteOf LORA_OTA_CHUNK)) := by
  decide

set_option maxRecDepth 1000000 in
/-- C6 (code at the failing input): a 13-byte Chunk packet whose header declares
sixteen payload bytes is not rejected.  The receiver checksums and writes the
sixteen stale bytes that follow the packet in the receive buffer, advances
`rxCurrentChunk` and replies `Ack(0)`. -/
theorem handleChunkMessage_reads_past_packet :
    receiver500.state = LORA_OTA_RECEIVING ∧ receiver500.rxCurrentChunk = 0 ∧
    truncatedChunk.length = 13 ∧
    (readChunkHeader ((ptrOfList truncatedChunk).add 1)).chunkSize = 16 ∧
    truncatedChunk.length < 1 + sizeofChunkHeader
      + (readChunkHeader ((ptrOfList truncatedChunk).add 1)).chunkSize ∧
    (LoRaOTA.handle truncatedEnv receiver500).trace
      = receiver500.trace ++ [Effect.updateWrite 0 testFirmware, Effect.send (ackPacket 0)] ∧
    (LoRaOTA.handle truncatedEnv receiver500).rxCurrentChunk = 1 := by
  decide

set_option maxRecDepth 1000000 in
/-- C7 (code at the failing input): an Init packet is accepted outside Idle.  A
receiver that has already accepted chunk 0 of a three-chunk image and receives
the Init of another image asks the Flash Sink to prepare again, replaces the
stored metadata and resets `rxCurrentChunk` to 0; a sender in Transmitting that
receives an Init becomes a receiver. -/
theorem handleInitMessage_accepted_outside_idle :
    (LoRaOTA.handle (deliverEnv 240 chunk0of500) receiver500).state = LORA_OTA_RECEIVING ∧
    (LoRaOTA.handle (deliverEnv 240 chunk0of500) receiver500).rxCurrentChunk = 1 ∧
    (LoRaOTA.handle (deliverEnv 240 chunk0of500) receiver500).rxMetadata.totalChunks = 3 ∧
    init16.length = sizeofFirmwareMetadata + 1 ∧
    ((LoRaOTA.handle (deliverEnv 240 chunk0of500) receiver500).handleInitMessage (quietEnv 0)
        (ptrOfList init16) init16.length).2.rxCurrentChunk = 0 ∧
    ((LoRaOTA.handle (deliverEnv 240 chunk0of500) receiver500).handleInitMessage (quietEnv 0)
        (ptrOfList init16) init16.length).2.rxMetadata.totalChunks = 1 ∧
    ((LoRaOTA.handle (deliverEnv 240 chunk0of500) receiver500).handleInitMessage (quietEnv 0)
        (ptrOfList init16) init16.length).2.trace
      = (LoRaOTA.handle (deliverEnv 240 chunk0of500) receiver500).trace
          ++ [Effect.updateBegin 16, Effect.send (ackPacket 0)] ∧
    sender500.state = LORA_OTA_TRANSMITTING ∧
    (sender500.handleInitMessage (quietEnv 0) (ptrOfList init16) init16.length).2.state
      = LORA_OTA_RECEIVING := by
  decide
/-! ## Flash failures and finalization -/

set_option maxRecDepth 1000000 in
/-- C8 (as stated, refuted): the only chunk of the 16-byte image passes the size, index
and CRC checks of a receiver expecting it, the Flash Sink reports 0 bytes written
instead of 16, and the state after `handleChunkMessage` is Idle, not Error. -/
theorem flash_write_failure_state_not_error :
    receiver16.state = LORA_OTA_RECEIVING ∧
    sizeofChunkHeader + 1 ≤ chunk0of16.length ∧
    (readChunkHeader ((ptrOfList chunk0of16).add 1)).chunkIndex = receiver16.rxCurrentChunk ∧
    validateChunkCRC ((ptrOfList chunk0of16).add (1 + sizeofChunkHeader))
      (readChunkHeader ((ptrOfList chunk0of16).add 1)).chunkSize
      (readChunkHeader ((ptrOfList chunk0of16).add 1)).chunkCRC = true ∧
    u32 ((quietEnv 0).updateWrite receiver16.calls)
      ≠ (readChunkHeader ((ptrOfList chunk0of16).add 1)).chunkSize ∧
    (receiver16.handleChunkMessage (quietEnv 0) (ptrOfList chunk0of16)
        chunk0of16.length).2.state = LORA_OTA_IDLE ∧
    (receiver16.handleChunkMessage (quietEnv 0) (ptrOfList chunk0of16)
        chunk0of16.length).2.state ≠ LORA_OTA_ERROR := by
  decide

/-- C8 (amended): when a chunk passes the size, index and CRC checks in state
Receiving but the Flash Sink write returns a byte count different from the chunk
size, `handleChunkMessage` fails, records the error "Failed to write chunk to
flash" (so `lastError` is non-empty), tells the Flash Sink to discard, sends an
Abort packet, and leaves the session state Idle. -/
theorem handleChunkMessage_flash_failure (env : Env) (s : LoRaOTA) (data : Ptr) (length : Nat)
    (hrx : s.state = LORA_OTA_RECEIVING) (hl : sizeofChunkHeader + 1 ≤ length)
    (hi : (readChunkHeader (data.add 1)).chunkIndex = s.rxCurrentChunk)
    (hcrc : validateChunkCRC (data.add (1 + sizeofChunkHeader))
      (readChunkHeader (data.add 1)).chunkSize (readChunkHeader (data.add 1)).chunkCRC = true)
    (hw : u32 (env.updateWrite s.calls) ≠ (readChunkHeader (data.add 1)).chunkSize) :
    (s.handleChunkMessage env data length).1 = false ∧
    (s.handleChunkMessage env data length).2.lastError = "Failed to write chunk to flash" ∧
    (s.handleChunkMessage env data length).2.lastError ≠ "" ∧
    (s.handleChunkMessage env data length).2.trace
      = s.trace ++
        [Effect.updateWrite s.rxCurrentChunk (readBytes (data.add (1 + sizeofChunkHeader)) 0
           (readChunkHeader (data.add 1)).chunkSize),
         Effect.updateAbort, Effect.send [byteOf LORA_OTA_ABORT]] ∧
    (s.handleChunkMessage env data length).2.state = LORA_OTA_IDLE ∧
    (s.handleChunkMessage env data length).2.rxCurrentChunk = s.rxCurrentChunk := by
  rw [handleChunkMessage_write_failed env s data length hrx hl hi hcrc hw]
  refine ⟨rfl, rfl, ?_, rfl, rfl, rfl⟩
  show ("Failed to write chunk to flash" : String) ≠ ""
  decide

set_option maxRecDepth 1000000 in
theorem handleChunkMessage_flash_failure_witness :
    (receiver16.handleChunkMessage (quietEnv 0) (ptrOfList chunk0of16) 29).2.lastError
      = "Failed to write chunk to flash" ∧
    (receiver16.handleChunkMessage (quietEnv 0) (ptrOfList chunk0of16) 29).2.state
      = LORA_OTA_IDLE :=
  have h := handleChunkMessage_flash_failure (quietEnv 0) receiver16 (ptrOfList chunk0of16) 29
    (by decide) (by decide) (by decide) (by decide) (by decide)
  ⟨h.2.1, h.2.2.2.2.1⟩

set_option maxRecDepth 1000000 in
/-- C9 (as stated, refuted): the only chunk of the 16-byte image is accepted, so
`rxCurrentChunk` reaches `totalChunks`, the Flash Sink commit succeeds and the
restart returns; the receiver has sent Complete and its state after
`finalizeUpdate` is Validating, not Idle. -/
theorem finalizeUpdate_state_not_idle :
    receiver16.state = LORA_OTA_RECEIVING ∧ receiver16.rxMetadata.totalChunks = 1 ∧
    (quietEnv 16).updateEnd (receiver16.calls + 3) = true ∧
    (receiver16.handleChunkMessage (quietEnv 16) (ptrOfList chunk0of16)
        chunk0of16.length).2.rxCurrentChunk = 1 ∧
    (receiver16.handleChunkMessage (quietEnv 16) (ptrOfList chunk0of16)
        chunk0of16.length).2.trace
      = receiver16.trace ++
        [Effect.updateWrite 0 testFirmware, Effect.send (ackPacket 0), Effect.updateEnd,
         Effect.send [byteOf LORA_OTA_COMPLETE], Effect.delay 3000, Effect.restart] ∧
    (receiver16.handleChunkMessage (quietEnv 16) (ptrOfList chunk0of16)
        chunk0of16.length).2.state = LORA_OTA_VALIDATING ∧
    (receiver16.handleChunkMessage (quietEnv 16) (ptrOfList chunk0of16)
        chunk0of16.length).2.state ≠ LORA_OTA_IDLE := by
  decide

/-- C9 (amended): when a chunk is accepted in state Receiving and `rxCurrentChunk`
thereby reaches (or passes) `totalChunks`, the receiver finalizes.  If the Flash
Sink commit succeeds it sends Complete, waits and requests the restart, and, the
restart being a no-op, its state after `finalizeUpdate` is Validating (the code
leaves the return to Idle to the restart); if the commit fails the state is
Error and `lastError` is "Update finalization failed".  The same holds for
`finalizeUpdate` called in any state. -/
theorem finalizeUpdate_outcome (env : Env) (s : LoRaOTA) (data : Ptr) (length : Nat)
    (hrx : s.state = LORA_OTA_RECEIVING) (hl : sizeofChunkHeader + 1 ≤ length)
    (hi : (readChunkHeader (data.add 1)).chunkIndex = s.rxCurrentChunk)
    (hcrc : validateChunkCRC (data.add (1 + sizeofChunkHeader))
      (readChunkHeader (data.add 1)).chunkSize (readChunkHeader (data.add 1)).chunkCRC = true)
    (hw : u32 (env.updateWrite s.calls) = (readChunkHeader (data.add 1)).chunkSize)
    (hlast : u16 (s.rxCurrentChunk + 1) ≥ s.rxMetadata.totalChunks) :
    s.handleChunkMessage env data length = LoRaOTA.finalizeUpdate env (s.afterAccept env data) ∧
    (∀ t : LoRaOTA, env.updateEnd t.calls = true →
      (LoRaOTA.finalizeUpdate env t).1 = true ∧
      (LoRaOTA.finalizeUpdate env t).2.state = LORA_OTA_VALIDATING ∧
      (LoRaOTA.finalizeUpdate env t).2.trace
        = t.trace ++ [Effect.updateEnd, Effect.send [byteOf LORA_OTA_COMPLETE],
            Effect.delay 3000, Effect.restart] ∧
      (LoRaOTA.finalizeUpdate env t).2.lastError = t.lastError) ∧
    (∀ t : LoRaOTA, env.updateEnd t.calls = false →
      (LoRaOTA.finalizeUpdate env t).1 = false ∧
      (LoRaOTA.finalizeUpdate env t).2.state = LORA_OTA_ERROR ∧
      (LoRaOTA.finalizeUpdate env t).2.trace = t.trace ++ [Effect.updateEnd] ∧
      (LoRaOTA.finalizeUpdate env t).2.lastError = "Update finalization failed" ∧
      (LoRaOTA.finalizeUpdate env t).2.lastError ≠ "") := by
  refine ⟨?_, ?_, ?_⟩
  · rw [handleChunkMessage_accept env s data length hrx hl hi hcrc hw, if_pos hlast]
  · intro t ht
    rw [finalizeUpdate_ok env t ht]
    exact ⟨rfl, rfl, rfl, rfl⟩
  · intro t ht
    rw [finalizeUpdate_failed env t ht]
    refine ⟨rfl, rfl, rfl, rfl, ?_⟩
    show ("Update finalization failed" : String) ≠ ""
    decide

set_option maxRecDepth 1000000 in
theorem finalizeUpdate_outcome_witness :
    (receiver16.handleChunkMessage (commitFailEnv 16) (ptrOfList chunk0of16) 29).2.state
      = LORA_OTA_ERROR ∧
    (receiver16.handleChunkMessage (quietEnv 16) (ptrOfList chunk0of16) 29).2.state
      = LORA_OTA_VALIDATING := by
  have h1 := finalizeUpdate_outcome (commitFailEnv 16) receiver16 (ptrOfList chunk0of16) 29
    (by decide) (by decide) (by decide) (by decide) (by decide) (by decide)
  have h2 := finalizeUpdate_outcome (quietEnv 16) receiver16 (ptrOfList chunk0of16) 29
    (by decide) (by decide) (by decide) (by decide) (by decide) (by decide)
  constructor
  · rw [h1.1]
    exact (h1.2.2 _ rfl).2.1
  · rw [h2.1]
    exact (h2.2.1 _ rfl).2.1
/-! ## Sender timeouts -/

/-- A service call of a sender with nothing to receive, timed out and below the
retry ceiling: the current chunk is resent, the retry counted, the time restamped. -/
theorem handle_transmit_retry (env : Env) (s : LoRaOTA) (d : Ptr)
    (hinit : s.initialized = true) (hen : s.enabled = true)
    (hst : s.state = LORA_OTA_TRANSMITTING) (hav : env.available s.calls = false)
    (hto : sub32 (u32 (env.millis (s.calls + 1))) s.txLastSendTime > LORA_OTA_TIMEOUT_MS)
    (hretry : s.txRetryCount < LORA_OTA_MAX_RETRIES)
    (hdata : s.txFirmwareData = some d)
    (hidx : s.txCurrentChunk < LoRaOTA.chunkCount s.txFirmwareSize) :
    LoRaOTA.handle env s
      = { s with
          calls := s.calls + 4
          trace := s.trace ++ [Effect.send
            (LoRaOTA.chunkPacket (env.uninit (s.calls + 2)) d s.txFirmwareSize s.txCurrentChunk)]
          txRetryCount := s.txRetryCount + 1
          txLastSendTime := u32 (env.millis (s.calls + 3)) } := by
  have hnr : s.state ≠ LORA_OTA_RECEIVING := by simp [hst]
  have hge : ¬ (s.txCurrentChunk ≥ LoRaOTA.chunkCount s.txFirmwareSize) := by omega
  have hu : u8 (s.txRetryCount + 1) = s.txRetryCount + 1 := by
    simp only [u8, LORA_OTA_MAX_RETRIES] at *; omega
  simp [LoRaOTA.handle, hinit, hen, LoRaOTA.handleIncoming, hav, LoRaOTA.handleReceiveTimeout,
    hst, LoRaOTA.handleTransmitTimeout, LoRaOTA.millis, hto, hretry, LoRaOTA.sendChunk, hdata,
    hge, LoRaOTA.loraSendData, LoRaOTA.emit, hu]

/-- A service call of a sender with nothing to receive, timed out and at the retry
ceiling: no resend, the error is recorded and the transfer aborted. -/
theorem handle_transmit_give_up (env : Env) (s : LoRaOTA)
    (hinit : s.initialized = true) (hen : s.enabled = true)
    (hst : s.state = LORA_OTA_TRANSMITTING) (hav : env.available s.calls = false)
    (hto : sub32 (u32 (env.millis (s.calls + 1))) s.txLastSendTime > LORA_OTA_TIMEOUT_MS)
    (hretry : ¬ s.txRetryCount < LORA_OTA_MAX_RETRIES) :
    LoRaOTA.handle env s
      = { s with
          calls := s.calls + 3
          trace := s.trace ++ [Effect.send [byteOf LORA_OTA_ABORT]]
          lastError := "Timeout: No acknowledgment from receiver"
          state := LORA_OTA_IDLE
          txFirmwareData := none
          txFirmwareSize := 0 } := by
  simp [LoRaOTA.handle, hinit, hen, LoRaOTA.handleIncoming, hav, LoRaOTA.handleReceiveTimeout,
    hst, LoRaOTA.handleTransmitTimeout, LoRaOTA.millis, hto, hretry, LoRaOTA.abortUpdate,
    LoRaOTA.sendAbort, LoRaOTA.loraSendData, LoRaOTA.emit]

theorem handle_transmit_retry_props (env : Env) (s : LoRaOTA) (d : Ptr)
    (hinit : s.initialized = true) (hen : s.enabled = true)
    (hst : s.state = LORA_OTA_TRANSMITTING) (hav : env.available s.calls = false)
    (hto : sub32 (u32 (env.millis (s.calls + 1))) s.txLastSendTime > LORA_OTA_TIMEOUT_MS)
    (hretry : s.txRetryCount < LORA_OTA_MAX_RETRIES)
    (hdata : s.txFirmwareData = some d)
    (hidx : s.txCurrentChunk < LoRaOTA.chunkCount s.txFirmwareSize) :
    (LoRaOTA.handle env s).initialized = true ∧ (LoRaOTA.handle env s).enabled = true ∧
    (LoRaOTA.handle env s).state = LORA_OTA_TRANSMITTING ∧
    (LoRaOTA.handle env s).txFirmwareData = some d ∧
    (LoRaOTA.handle env s).txFirmwareSize = s.txFirmwareSize ∧
    (LoRaOTA.handle env s).txCurrentChunk = s.txCurrentChunk ∧
    (LoRaOTA.handle env s).txRetryCount = s.txRetryCount + 1 ∧
    (LoRaOTA.handle env s).lastError = s.lastError ∧
    (LoRaOTA.handle env s).trace = s.trace ++ [Effect.send
      (LoRaOTA.chunkPacket (env.uninit (s.calls + 2)) d s.txFirmwareSize s.txCurrentChunk)] ∧
    (LoRaOTA.handle env s).txLastSendTime = u32 (env.millis (s.calls + 3)) := by
  rw [handle_transmit_retry env s d hinit hen hst hav hto hretry hdata hidx]
  exact ⟨hinit, hen, hst, hdata, rfl, rfl, rfl, rfl, rfl, rfl⟩

/-- C10: a sender in Transmitting with retry count 0 that receives no packets and
whose every service call finds more than 5000 ms elapsed since the last send
resends `currentChunk` on each of the first three calls, counting the retry
(1, 2, 3) and restamping the send time with the clock value read after the
resend; the fourth such call sends no chunk, only Abort, sets `lastError` to
"Timeout: No acknowledgment from receiver" and leaves the session Idle. -/
theorem sender_timeout_policy (env : Env) (s : LoRaOTA) (d : Ptr)
    (hinit : s.initialized = true) (hen : s.enabled = true)
    (hst : s.state = LORA_OTA_TRANSMITTING)
    (hdata : s.txFirmwareData = some d)
    (hidx : s.txCurrentChunk < LoRaOTA.chunkCount s.txFirmwareSize)
    (h0 : s.txRetryCount = 0)
    (hquiet : ∀ t, env.available t = false)
    (hto : ∀ k < 4,
      sub32 (u32 (env.millis (((LoRaOTA.handle env)^[k] s).calls + 1)))
        ((LoRaOTA.handle env)^[k] s).txLastSendTime > LORA_OTA_TIMEOUT_MS) :
    (∀ k < 3,
      ((LoRaOTA.handle env)^[k + 1] s).trace
        = ((LoRaOTA.handle env)^[k] s).trace ++ [Effect.send
            (LoRaOTA.chunkPacket (env.uninit (((LoRaOTA.handle env)^[k] s).calls + 2)) d
              s.txFirmwareSize s.txCurrentChunk)] ∧
      ((LoRaOTA.handle env)^[k + 1] s).txRetryCount = k + 1 ∧
      ((LoRaOTA.handle env)^[k + 1] s).txLastSendTime
        = u32 (env.millis (((LoRaOTA.handle env)^[k] s).calls + 3)) ∧
      ((LoRaOTA.handle env)^[k + 1] s).state = LORA_OTA_TRANSMITTING ∧
      ((LoRaOTA.handle env)^[k + 1] s).txCurrentChunk = s.txCurrentChunk ∧
      ((LoRaOTA.handle env)^[k + 1] s).lastError = s.lastError) ∧
    ((LoRaOTA.handle env)^[4] s).trace
      = ((LoRaOTA.handle env)^[3] s).trace ++ [Effect.send [byteOf LORA_OTA_ABORT]] ∧
    ((LoRaOTA.handle env)^[4] s).lastError = "Timeout: No acknowledgment from receiver" ∧
    ((LoRaOTA.handle env)^[4] s).lastError ≠ "" ∧
    ((LoRaOTA.handle env)^[4] s).state = LORA_OTA_IDLE := by
  have it : ∀ k, (LoRaOTA.handle env)^[k + 1] s
      = LoRaOTA.handle env ((LoRaOTA.handle env)^[k] s) :=
    fun k => Function.iterate_succ_apply' _ k s
  have hto0 := hto 0 (by decide)
  have hto1 := hto 1 (by decide)
  have hto2 := hto 2 (by decide)
  have hto3 := hto 3 (by decide)
  rw [it 0] at hto1
  rw [it 1, it 0] at hto2
  rw [it 2, it 1, it 0] at hto3
  simp only [Function.iterate_zero, id_eq] at hto0 hto1 hto2 hto3
  obtain ⟨a1, a2, a3, a4, a5, a6, a7, a8, a9, a10⟩ :=
    handle_transmit_retry_props env s d hinit hen hst (hquiet _) hto0
      (by rw [h0]; decide) hdata hidx
  obtain ⟨b1, b2, b3, b4, b5, b6, b7, b8, b9, b10⟩ :=
    handle_transmit_retry_props env (LoRaOTA.handle env s) d a1 a2 a3 (hquiet _) hto1
      (by rw [a7, h0]; decide) a4 (by rw [a5, a6]; exact hidx)
  obtain ⟨c1, c2, c3, c4, c5, c6, c7, c8, c9, c10⟩ :=
    handle_transmit_retry_props env (LoRaOTA.handle env (LoRaOTA.handle env s)) d b1 b2 b3
      (hquiet _) hto2 (by rw [b7, a7, h0]; decide) b4 (by rw [b5, b6, a5, a6]; exact hidx)
  have hfin := handle_transmit_give_up env
    (LoRaOTA.handle env (LoRaOTA.handle env (LoRaOTA.handle env s))) c1 c2 c3 (hquiet _) hto3
    (by rw [c7, b7, a7, h0]; decide)
  refine ⟨?_, ?_, ?_, ?_, ?_⟩
  · intro k hk
    rw [it k]
    rcases k with _ | _ | _ | k
    · simp only [Function.iterate_zero, id_eq]
      exact ⟨a9, by rw [a7, h0], a10, a3, a6, a8⟩
    · rw [it 0]
      simp only [Function.iterate_zero, id_eq]
      exact ⟨by rw [b9, a5, a6], by rw [b7, a7, h0], b10, b3, by rw [b6, a6], by rw [b8, a8]⟩
    · rw [it 1, it 0]
      simp only [Function.iterate_zero, id_eq]
      exact ⟨by rw [c9, b5, b6, a5, a6], by rw [c7, b7, a7, h0], c10, c3,
        by rw [c6, b6, a6], by rw [c8, b8, a8]⟩
    · omega
  · rw [it 3, it 2, it 1, it 0]
    simp only [Function.iterate_zero, id_eq]
    rw [hfin]
  · rw [it 3, it 2, it 1, it 0]
    simp only [Function.iterate_zero, id_eq]
    rw [hfin]
  · rw [it 3, it 2, it 1, it 0]
    simp only [Function.iterate_zero, id_eq]
    rw [hfin]
    show ("Timeout: No acknowledgment from receiver" : String) ≠ ""
    decide
  · rw [it 3, it 2, it 1, it 0]
    simp only [Function.iterate_zero, id_eq]
    rw [hfin]

set_option maxRecDepth 1000000 in
theorem sender_timeout_policy_witness :
    sender500.state = LORA_OTA_TRANSMITTING ∧ sender500.txRetryCount = 0 ∧
    ((LoRaOTA.handle slowEnv)^[3] sender500).txRetryCount = 3 ∧
    ((LoRaOTA.handle slowEnv)^[3] sender500).state = LORA_OTA_TRANSMITTING ∧
    ((LoRaOTA.handle slowEnv)^[4] sender500).trace
      = ((LoRaOTA.handle slowEnv)^[3] sender500).trace
          ++ [Effect.send [byteOf LORA_OTA_ABORT]] ∧
    ((LoRaOTA.handle slowEnv)^[4] sender500).state = LORA_OTA_IDLE :=
  have h := sender_timeout_policy slowEnv sender500 (ptrOfList image500) (by decide) (by decide)
    (by decide) rfl (by decide) (by decide) (fun _ => rfl) (by decide)
  ⟨by decide, by decide, (h.1 2 (by decide)).2.1, (h.1 2 (by decide)).2.2.2.1, h.2.1,
    h.2.2.2.2⟩

/-! ## Acknowledgments -/

theorem readBytes_add (p : Ptr) (k n : Nat) : readBytes (p.add k) 0 n = readBytes p k n := by
  simp [readBytes, Ptr.add]

/-- An Ack outside the transmitting state, too short, or for another index than
`txCurrentChunk` changes nothing. -/
theorem handleAckMessage_ignored (env : Env) (s : LoRaOTA) (data : Ptr) (length : Nat)
    (h : s.state ≠ LORA_OTA_TRANSMITTING ∨ length < 3 ∨ rd16 data 1 ≠ s.txCurrentChunk) :
    s.handleAckMessage env data length = (false, s) := by
  by_cases h1 : s.state = LORA_OTA_TRANSMITTING
  · by_cases h2 : length < 3
    · simp [LoRaOTA.handleAckMessage, h1, h2]
    · have h3 : rd16 data 1 ≠ s.txCurrentChunk := by tauto
      simp [LoRaOTA.handleAckMessage, h1, h2, h3]
  · simp [LoRaOTA.handleAckMessage, h1]

/-- The Ack of the last chunk: Complete is sent and the sender returns to Idle. -/
theorem handleAckMessage_complete (env : Env) (s : LoRaOTA) (data : Ptr) (length : Nat)
    (hst : s.state = LORA_OTA_TRANSMITTING) (hl : 3 ≤ length)
    (hack : rd16 data 1 = s.txCurrentChunk)
    (hlast : u16 (s.txCurrentChunk + 1) ≥ u16 (LoRaOTA.chunkCount s.txFirmwareSize)) :
    s.handleAckMessage env data length
      = (true, { s with
          txCurrentChunk := u16 (s.txCurrentChunk + 1)
          txRetryCount := 0
          calls := s.calls + 1
          trace := s.trace ++ [Effect.send [byteOf LORA_OTA_COMPLETE]]
          state := LORA_OTA_IDLE
          txFirmwareData := none }) := by
  have hl2 : ¬ length < 3 := by omega
  simp [LoRaOTA.handleAckMessage, hst, hl2, hack, hlast, LoRaOTA.sendComplete,
    LoRaOTA.loraSendData, LoRaOTA.emit]

/-- The Ack of an earlier chunk, the transport accepting the next one. -/
theorem handleAckMessage_next (env : Env) (s : LoRaOTA) (data d : Ptr) (length : Nat)
    (hst : s.state = LORA_OTA_TRANSMITTING) (hl : 3 ≤ length)
    (hack : rd16 data 1 = s.txCurrentChunk) (hdata : s.txFirmwareData = some d)
    (hmore : u16 (s.txCurrentChunk + 1) < u16 (LoRaOTA.chunkCount s.txFirmwareSize))
    (hsend : env.sendData s.calls = true) :
    s.handleAckMessage env data length
      = (true, { s with
          txCurrentChunk := u16 (s.txCurrentChunk + 1)
          txRetryCount := 0
          calls := s.calls + 2
          trace := s.trace ++ [Effect.send (LoRaOTA.chunkPacket (env.uninit s.calls) d
            s.txFirmwareSize (u16 (s.txCurrentChunk + 1)))]
          txLastSendTime := u32 (env.millis (s.calls + 1)) }) := by
  have hl2 : ¬ length < 3 := by omega
  have h1 : ¬ (u16 (s.txCurrentChunk + 1) ≥ u16 (LoRaOTA.chunkCount s.txFirmwareSize)) := by
    omega
  have h2 : ¬ (u16 (s.txCurrentChunk + 1) ≥ LoRaOTA.chunkCount s.txFirmwareSize) := by
    have : u16 (LoRaOTA.chunkCount s.txFirmwareSize) ≤ LoRaOTA.chunkCount s.txFirmwareSize :=
      Nat.mod_le _ _
    omega
  simp [LoRaOTA.handleAckMessage, hst, hl2, hack, h1, h2, hdata, LoRaOTA.sendChunk,
    LoRaOTA.loraSendData, LoRaOTA.emit, LoRaOTA.millis, hsend]

/-- The Ack of an earlier chunk, the transport refusing the next one. -/
theorem handleAckMessage_next_failed (env : Env) (s : LoRaOTA) (data d : Ptr) (length : Nat)
    (hst : s.state = LORA_OTA_TRANSMITTING) (hl : 3 ≤ length)
    (hack : rd16 data 1 = s.txCurrentChunk) (hdata : s.txFirmwareData = some d)
    (hmore : u16 (s.txCurrentChunk + 1) < u16 (LoRaOTA.chunkCount s.txFirmwareSize))
    (hsend : env.sendData s.calls = false) :
    s.handleAckMessage env data length
      = (false, { s with
          txCurrentChunk := u16 (s.txCurrentChunk + 1)
          txRetryCount := 0
          calls := s.calls + 2
          trace := s.trace ++ [Effect.send (LoRaOTA.chunkPacket (env.uninit s.calls) d
            s.txFirmwareSize (u16 (s.txCurrentChunk + 1))), Effect.send [byteOf LORA_OTA_ABORT]]
          lastError := "Failed to send chunk"
          state := LORA_OTA_IDLE
          txFirmwareData := none
          txFirmwareSize := 0 }) := by
  have hl2 : ¬ length < 3 := by omega
  have h1 : ¬ (u16 (s.txCurrentChunk + 1) ≥ u16 (LoRaOTA.chunkCount s.txFirmwareSize)) := by
    omega
  have h2 : ¬ (u16 (s.txCurrentChunk + 1) ≥ LoRaOTA.chunkCount s.txFirmwareSize) := by
    have : u16 (LoRaOTA.chunkCount s.txFirmwareSize) ≤ LoRaOTA.chunkCount s.txFirmwareSize :=
      Nat.mod_le _ _
    omega
  simp [LoRaOTA.handleAckMessage, hst, hl2, hack, h1, h2, hdata, LoRaOTA.sendChunk,
    LoRaOTA.loraSendData, LoRaOTA.emit, hsend, LoRaOTA.abortUpdate, LoRaOTA.sendAbort]

set_option maxRecDepth 1000000 in
/-- C11 (as stated, refuted): a sender of the 500-byte image (three chunks) in
Transmitting with `currentChunk = 0` processes the well-sized `Ack(0)` while the
transport refuses the send.  `currentChunk` becomes 1, which is not the chunk
count, yet the state does not stay Transmitting: the sender aborts to Idle, its
last packet being Abort. -/
theorem handleAckMessage_send_failure_leaves_transmitting :
    sender500.state = LORA_OTA_TRANSMITTING ∧
    rd16 (ptrOfList (ackPacket 0)) 1 = sender500.txCurrentChunk ∧
    (sender500.handleAckMessage sendFailEnv (ptrOfList (ackPacket 0)) 3).2.txCurrentChunk = 1 ∧
    ceilDiv sender500.txFirmwareSize 240 = 3 ∧
    (sender500.handleAckMessage sendFailEnv (ptrOfList (ackPacket 0)) 3).2.state
      = LORA_OTA_IDLE ∧
    (sender500.handleAckMessage sendFailEnv (ptrOfList (ackPacket 0)) 3).2.state
      ≠ LORA_OTA_TRANSMITTING ∧
    lastSent (sender500.handleAckMessage sendFailEnv (ptrOfList (ackPacket 0)) 3).2.trace
      = [byteOf LORA_OTA_ABORT] := by
  decide

/-- C11 (amended): for a sender as `sendFirmware` establishes it (image present,
chunk count `ceil(size/240)` within 16 bits, `currentChunk` below it) and a
well-sized Ack while Transmitting.  If the acknowledged index differs from
`currentChunk` the object is unchanged and nothing is sent.  If it equals
`currentChunk`, then `currentChunk` increases by exactly 1 and the retry count
becomes 0; when the new `currentChunk` equals the chunk count, Complete is sent
and the state becomes Idle; otherwise the Chunk packet for the new `currentChunk`
(its index, the slice `[currentChunk*240, min(size, (currentChunk+1)*240))`, the
CRC of that slice) is handed to the transport, and the state stays Transmitting
with the send time restamped when the transport accepts it, while a refused send
records "Failed to send chunk", sends Abort and leaves the state Idle. -/
theorem handleAckMessage_advances (env : Env) (s : LoRaOTA) (data d : Ptr) (length : Nat)
    (hst : s.state = LORA_OTA_TRANSMITTING) (hl : 3 ≤ length)
    (hdata : s.txFirmwareData = some d)
    (hfit : ceilDiv s.txFirmwareSize 240 ≤ 65535)
    (hsize : s.txFirmwareSize + 239 < 4294967296)
    (hcur : s.txCurrentChunk < ceilDiv s.txFirmwareSize 240) :
    (rd16 data 1 ≠ s.txCurrentChunk → s.handleAckMessage env data length = (false, s)) ∧
    (rd16 data 1 = s.txCurrentChunk →
      (s.handleAckMessage env data length).2.txCurrentChunk = s.txCurrentChunk + 1 ∧
      (s.handleAckMessage env data length).2.txRetryCount = 0 ∧
      (s.txCurrentChunk + 1 = ceilDiv s.txFirmwareSize 240 →
        (s.handleAckMessage env data length).2.trace
          = s.trace ++ [Effect.send [byteOf LORA_OTA_COMPLETE]] ∧
        (s.handleAckMessage env data length).2.state = LORA_OTA_IDLE) ∧
      (s.txCurrentChunk + 1 ≠ ceilDiv s.txFirmwareSize 240 →
        ∃ pkt,
          (chunkHeaderOf pkt).chunkIndex = s.txCurrentChunk + 1 ∧
          chunkPayload pkt = readBytes d ((s.txCurrentChunk + 1) * 240)
            (min s.txFirmwareSize ((s.txCurrentChunk + 2) * 240)
              - (s.txCurrentChunk + 1) * 240) ∧
          (chunkHeaderOf pkt).chunkCRC = calculateCRC32 (d.add ((s.txCurrentChunk + 1) * 240))
            (min s.txFirmwareSize ((s.txCurrentChunk + 2) * 240)
              - (s.txCurrentChunk + 1) * 240) ∧
          (env.sendData s.calls = true →
            (s.handleAckMessage env data length).2.trace = s.trace ++ [Effect.send pkt] ∧
            (s.handleAckMessage env data length).2.state = LORA_OTA_TRANSMITTING ∧
            (s.handleAckMessage env data length).2.txLastSendTime
              = u32 (env.millis (s.calls + 1))) ∧
          (env.sendData s.calls = false →
            (s.handleAckMessage env data length).2.trace
              = s.trace ++ [Effect.send pkt, Effect.send [byteOf LORA_OTA_ABORT]] ∧
            (s.handleAckMessage env data length).2.lastError = "Failed to send chunk" ∧
            (s.handleAckMessage env data length).2.state = LORA_OTA_IDLE))) := by
  have hcc : LoRaOTA.chunkCount s.txFirmwareSize = ceilDiv s.txFirmwareSize 240 :=
    chunkCount_eq_ceilDiv _ hsize
  have hu1 : u16 (s.txCurrentChunk + 1) = s.txCurrentChunk + 1 := by
    simp only [u16]; omega
  have hu2 : u16 (LoRaOTA.chunkCount s.txFirmwareSize) = ceilDiv s.txFirmwareSize 240 := by
    rw [hcc]; simp only [u16]; omega
  refine ⟨fun hne => handleAckMessage_ignored env s data length (Or.inr (Or.inr hne)), ?_⟩
  intro hack
  by_cases hlast : s.txCurrentChunk + 1 = ceilDiv s.txFirmwareSize 240
  · rw [handleAckMessage_complete env s data length hst hl hack (by rw [hu1, hu2]; omega)]
    exact ⟨hu1, rfl, fun _ => ⟨rfl, rfl⟩, fun h => absurd hlast h⟩
  · have hmore : u16 (s.txCurrentChunk + 1) < u16 (LoRaOTA.chunkCount s.txFirmwareSize) := by
      rw [hu1, hu2]; omega
    have hpos : 0 < s.txFirmwareSize := by
      rcases Nat.eq_zero_or_pos s.txFirmwareSize with h0 | h0
      · rw [h0] at hcur; simp [ceilDiv] at hcur
      · exact h0
    have hspec := ceilDiv_spec s.txFirmwareSize hpos
    have hoff : (s.txCurrentChunk + 1) * 240 < s.txFirmwareSize := by
      have : (s.txCurrentChunk + 1) * 240 ≤ (ceilDiv s.txFirmwareSize 240 - 1) * 240 :=
        Nat.mul_le_mul_right _ (by omega)
      omega
    have hlen : min 240 (sub32 s.txFirmwareSize ((s.txCurrentChunk + 1) * 240))
        = min s.txFirmwareSize ((s.txCurrentChunk + 2) * 240)
            - (s.txCurrentChunk + 1) * 240 := by
      simp only [sub32]; omega
    have hpkt : ∀ pad : Ptr,
        (chunkHeaderOf (LoRaOTA.chunkPacket pad d s.txFirmwareSize
            (s.txCurrentChunk + 1))).chunkIndex = s.txCurrentChunk + 1 ∧
        chunkPayload (LoRaOTA.chunkPacket pad d s.txFirmwareSize (s.txCurrentChunk + 1))
          = readBytes d ((s.txCurrentChunk + 1) * 240)
            (min s.txFirmwareSize ((s.txCurrentChunk + 2) * 240)
              - (s.txCurrentChunk + 1) * 240) ∧
        (chunkHeaderOf (LoRaOTA.chunkPacket pad d s.txFirmwareSize
            (s.txCurrentChunk + 1))).chunkCRC
          = calculateCRC32 (d.add ((s.txCurrentChunk + 1) * 240))
            (min s.txFirmwareSize ((s.txCurrentChunk + 2) * 240)
              - (s.txCurrentChunk + 1) * 240) := by
      intro pad
      rw [chunkHeaderOf_chunkPacket _ _ _ _ (by omega), chunkPayload_chunkPacket, hlen,
        readBytes_add]
      exact ⟨rfl, rfl, rfl⟩
    cases hsend : env.sendData s.calls
    · rw [handleAckMessage_next_failed env s data d length hst hl hack hdata hmore hsend]
      refine ⟨hu1, rfl, fun h => absurd h hlast, fun _ => ?_⟩
      rw [hu1]
      obtain ⟨p1, p2, p3⟩ := hpkt (env.uninit s.calls)
      exact ⟨_, p1, p2, p3, fun h => by simp at h, fun _ => ⟨rfl, rfl, rfl⟩⟩
    · rw [handleAckMessage_next env s data d length hst hl hack hdata hmore hsend]
      refine ⟨hu1, rfl, fun h => absurd h hlast, fun _ => ?_⟩
      rw [hu1]
      obtain ⟨p1, p2, p3⟩ := hpkt (env.uninit s.calls)
      exact ⟨_, p1, p2, p3, fun _ => ⟨rfl, hst, rfl⟩, fun h => by simp at h⟩

set_option maxRecDepth 1000000 in
theorem handleAckMessage_advances_witness :
    sender500.state = LORA_OTA_TRANSMITTING ∧ sender500.txCurrentChunk = 0 ∧
    (sender500.handleAckMessage (quietEnv 0) (ptrOfList (ackPacket 0)) 3).2.txCurrentChunk
      = 0 + 1 ∧
    (sender500.handleAckMessage (quietEnv 0) (ptrOfList (ackPacket 0)) 3).2.txRetryCount = 0 :=
  have h := (handleAckMessage_advances (quietEnv 0) sender500 (ptrOfList (ackPacket 0))
    (ptrOfList image500) 3 (by decide) (by decide) rfl (by decide) (by decide) (by decide)).2
    (by decide)
  ⟨by decide, by decide, h.1, h.2.1⟩

/-! ## Negative acknowledgments -/

/-- A Nack that brings the retry count to the ceiling aborts the transfer. -/
theorem handleNackMessage_too_many (env : Env) (s : LoRaOTA) (data : Ptr) (length : Nat)
    (hst : s.state = LORA_OTA_TRANSMITTING) (hl : 3 ≤ length)
    (hmax : u8 (s.txRetryCount + 1) ≥ LORA_OTA_MAX_RETRIES) :
    s.handleNackMessage env data length
      = (false, { s with
          txRetryCount := u8 (s.txRetryCount + 1)
          lastError := "Too many retries"
          calls := s.calls + 1
          trace := s.trace ++ [Effect.send [byteOf LORA_OTA_ABORT]]
          state := LORA_OTA_IDLE
          txFirmwareData := none
          txFirmwareSize := 0 }) := by
  have hl2 : ¬ length < 3 := by omega
  simp [LoRaOTA.handleNackMessage, hst, hl2, hmax, LoRaOTA.abortUpdate, LoRaOTA.sendAbort,
    LoRaOTA.loraSendData, LoRaOTA.emit]

/-- A Nack below the retry ceiling resends the chunk it names. -/
theorem handleNackMessage_resend (env : Env) (s : LoRaOTA) (data d : Ptr) (length : Nat)
    (hst : s.state = LORA_OTA_TRANSMITTING) (hl : 3 ≤ length)
    (hmax : u8 (s.txRetryCount + 1) < LORA_OTA_MAX_RETRIES)
    (hdata : s.txFirmwareData = some d)
    (hk : rd16 data 1 < LoRaOTA.chunkCount s.txFirmwareSize) :
    s.handleNackMessage env data length
      = (true, { s with
          txRetryCount := u8 (s.txRetryCount + 1)
          calls := s.calls + 2
          trace := s.trace ++ [Effect.send (LoRaOTA.chunkPacket (env.uninit s.calls) d
            s.txFirmwareSize (rd16 data 1))]
          txLastSendTime := u32 (env.millis (s.calls + 1)) }) := by
  have hl2 : ¬ length < 3 := by omega
  have h1 : ¬ (u8 (s.txRetryCount + 1) ≥ LORA_OTA_MAX_RETRIES) := by omega
  have h2 : ¬ (rd16 data 1 ≥ LoRaOTA.chunkCount s.txFirmwareSize) := by omega
  simp [LoRaOTA.handleNackMessage, hst, hl2, h1, h2, hdata, LoRaOTA.sendChunk,
    LoRaOTA.loraSendData, LoRaOTA.emit, LoRaOTA.millis]

theorem rd16_lt (p : Ptr) (off : Nat) : rd16 p off < 65536 := by
  have h0 := (p off).isLt
  have h1 := (p (off + 1)).isLt
  simp only [rd16]
  omega

/-- C12: on a well-sized `Nack(k)` while Transmitting (image present, retry count
an 8-bit value below 255, `size + 239` within `size_t`) the retry count is
incremented.  If the new count is at least `LORA_OTA_MAX_RETRIES` (3) the sender
aborts without resending: `lastError` is "Too many retries", the only packet sent
is Abort and the state is Idle.  Otherwise, for `k < ceil(size/240)`, the only
packet sent is the Chunk packet for index `k` (header index `k`, payload the slice
`[k*240, min(size, (k+1)*240))`), `currentChunk` is unchanged and the state stays
Transmitting. -/
theorem handleNackMessage_policy (env : Env) (s : LoRaOTA) (data d : Ptr) (length : Nat)
    (hst : s.state = LORA_OTA_TRANSMITTING) (hl : 3 ≤ length)
    (hdata : s.txFirmwareData = some d)
    (hsize : s.txFirmwareSize + 239 < 4294967296)
    (hret : s.txRetryCount < 255) :
    (s.handleNackMessage env data length).2.txRetryCount = s.txRetryCount + 1 ∧
    (s.txRetryCount + 1 ≥ LORA_OTA_MAX_RETRIES →
      (s.handleNackMessage env data length).1 = false ∧
      (s.handleNackMessage env data length).2.lastError = "Too many retries" ∧
      (s.handleNackMessage env data length).2.trace
        = s.trace ++ [Effect.send [byteOf LORA_OTA_ABORT]] ∧
      (s.handleNackMessage env data length).2.state = LORA_OTA_IDLE) ∧
    (s.txRetryCount + 1 < LORA_OTA_MAX_RETRIES → rd16 data 1 < ceilDiv s.txFirmwareSize 240 →
      ∃ pkt,
        (s.handleNackMessage env data length).2.trace = s.trace ++ [Effect.send pkt] ∧
        (chunkHeaderOf pkt).chunkIndex = rd16 data 1 ∧
        chunkPayload pkt = readBytes d (rd16 data 1 * 240)
          (min s.txFirmwareSize ((rd16 data 1 + 1) * 240) - rd16 data 1 * 240) ∧
        (chunkHeaderOf pkt).chunkCRC = calculateCRC32 (d.add (rd16 data 1 * 240))
          (min s.txFirmwareSize ((rd16 data 1 + 1) * 240) - rd16 data 1 * 240) ∧
        (s.handleNackMessage env data length).2.txCurrentChunk = s.txCurrentChunk ∧
        (s.handleNackMessage env data length).2.state = LORA_OTA_TRANSMITTING) := by
  have hu : u8 (s.txRetryCount + 1) = s.txRetryCount + 1 := by
    simp only [u8]; omega
  have hcc : LoRaOTA.chunkCount s.txFirmwareSize = ceilDiv s.txFirmwareSize 240 :=
    chunkCount_eq_ceilDiv _ hsize
  by_cases hmax : s.txRetryCount + 1 ≥ LORA_OTA_MAX_RETRIES
  · rw [handleNackMessage_too_many env s data length hst hl (by rw [hu]; exact hmax)]
    exact ⟨hu, fun _ => ⟨rfl, rfl, rfl, rfl⟩, fun h => absurd hmax (by omega)⟩
  · refine ⟨?_, fun h => absurd h hmax, ?_⟩
    · by_cases hk : rd16 data 1 < LoRaOTA.chunkCount s.txFirmwareSize
      · rw [handleNackMessage_resend env s data d length hst hl (by rw [hu]; omega) hdata hk]
        exact hu
      · have hl2 : ¬ length < 3 := by omega
        have h1 : ¬ (u8 (s.txRetryCount + 1) ≥ LORA_OTA_MAX_RETRIES) := by rw [hu]; exact hmax
        have h2 : rd16 data 1 ≥ LoRaOTA.chunkCount s.txFirmwareSize := by omega
        have h3 : ¬ LORA_OTA_MAX_RETRIES ≤ s.txRetryCount + 1 := hmax
        simp [LoRaOTA.handleNackMessage, hst, hl2, h1, h2, h3, hdata, LoRaOTA.sendChunk,
          LoRaOTA.millis, hu]
    · intro _ hk
      rw [handleNackMessage_resend env s data d length hst hl (by rw [hu]; omega) hdata
        (by rw [hcc]; exact hk)]
      have hpos : 0 < s.txFirmwareSize := by
        rcases Nat.eq_zero_or_pos s.txFirmwareSize with h0 | h0
        · rw [h0] at hk; simp [ceilDiv] at hk
        · exact h0
      have hspec := ceilDiv_spec s.txFirmwareSize hpos
      have hoff : rd16 data 1 * 240 < s.txFirmwareSize := by
        have : rd16 data 1 * 240 ≤ (ceilDiv s.txFirmwareSize 240 - 1) * 240 :=
          Nat.mul_le_mul_right _ (by omega)
        omega
      have hlen : min 240 (sub32 s.txFirmwareSize (rd16 data 1 * 240))
          = min s.txFirmwareSize ((rd16 data 1 + 1) * 240) - rd16 data 1 * 240 := by
        simp only [sub32]; omega
      refine ⟨_, rfl, ?_, ?_, ?_, rfl, hst⟩
      · rw [chunkHeaderOf_chunkPacket _ _ _ _ (rd16_lt data 1)]
      · rw [chunkPayload_chunkPacket, hlen, readBytes_add]
      · rw [chunkHeaderOf_chunkPacket _ _ _ _ (rd16_lt data 1), hlen]

set_option maxRecDepth 1000000 in
theorem handleNackMessage_policy_witness :
    sender500.state = LORA_OTA_TRANSMITTING ∧ sender500.txRetryCount < 255 ∧
    (sender500.handleNackMessage (quietEnv 0) (ptrOfList (nackPacket 0)) 3).2.txRetryCount
      = sender500.txRetryCount + 1 :=
  ⟨by decide, by decide,
    (handleNackMessage_policy (quietEnv 0) sender500 (ptrOfList (nackPacket 0))
      (ptrOfList image500) 3 (by decide) (by decide) rfl (by decide) (by decide)).1⟩

/-! ## Starting and aborting sessions -/

/-- C13: for every session whose state is not Idle, `sendFirmware` (with any
arguments) and `beginUpdate` return false and only set `lastError`: the state,
stored metadata, `rxCurrentChunk`, `txCurrentChunk`, both retry counts, both
activity timestamps, the image pointer and size and the target id are as before
the call, and no packet is sent. -/
theorem active_session_refuses_start (env : Env) (s : LoRaOTA)
    (h : s.state ≠ LORA_OTA_IDLE) :
    (∀ (firmwareData : Option Ptr) (firmwareSize : Nat) (version : Ptr) (target : String),
      (s.sendFirmware env firmwareData firmwareSize version target).1 = false ∧
      SameSession (s.sendFirmware env firmwareData firmwareSize version target).2 s ∧
      (s.sendFirmware env firmwareData firmwareSize version target).2
        = { s with lastError := "Update already in progress" }) ∧
    (s.beginUpdate env).1 = false ∧
    SameSession (s.beginUpdate env).2 s ∧
    (s.beginUpdate env).2 = { s with lastError := "Update already in progress" } := by
  refine ⟨?_, ?_, ?_, ?_⟩
  · intro fd fs v t
    simp [LoRaOTA.sendFirmware, h, SameSession]
  · simp [LoRaOTA.beginUpdate, h]
  · simp [LoRaOTA.beginUpdate, h, SameSession]
  · simp [LoRaOTA.beginUpdate, h]

set_option maxRecDepth 1000000 in
theorem active_session_refuses_start_witness :
    sender16.state ≠ LORA_OTA_IDLE ∧
    (sender16.beginUpdate (quietEnv 0)).1 = false ∧
    SameSession (sender16.beginUpdate (quietEnv 0)).2 sender16 :=
  ⟨by decide,
    (active_session_refuses_start (quietEnv 0) sender16 (by decide)).2.1,
    (active_session_refuses_start (quietEnv 0) sender16 (by decide)).2.2.1⟩

set_option maxRecDepth 1000000 in
/-- C19 (as stated, refuted): `abortUpdate` called on the sender of the example
image, in Transmitting, sends the Abort packet and resets the session, but makes
no call to the Flash Sink. -/
theorem abortUpdate_transmitting_skips_flash :
    sender16.state = LORA_OTA_TRANSMITTING ∧
    (LoRaOTA.abortUpdate (quietEnv 0) sender16).trace
      = sender16.trace ++ [Effect.send [byteOf LORA_OTA_ABORT]] ∧
    Effect.updateAbort ∉ (LoRaOTA.abortUpdate (quietEnv 0) sender16).trace ∧
    (∀ e ∈ (LoRaOTA.abortUpdate (quietEnv 0) sender16).trace, e.isFlash = false) := by
  decide

/-- C19 (amended): `abortUpdate` called in Receiving tells the Flash Sink to
discard and then sends the one-byte Abort packet (0x06); called in Transmitting
it sends the Abort packet and does not call the Flash Sink.  In both roles, and
whatever the result of the send, the state is then Idle, the image pointer is
cleared and the image size is 0. -/
theorem abortUpdate_effects (env : Env) (s : LoRaOTA) :
    (s.state = LORA_OTA_RECEIVING →
      (LoRaOTA.abortUpdate env s).trace
        = s.trace ++ [Effect.updateAbort, Effect.send [byteOf LORA_OTA_ABORT]]) ∧
    (s.state = LORA_OTA_TRANSMITTING →
      (LoRaOTA.abortUpdate env s).trace = s.trace ++ [Effect.send [byteOf LORA_OTA_ABORT]]) ∧
    [byteOf LORA_OTA_ABORT] = [(0x06 : Byte)] ∧
    (LoRaOTA.abortUpdate env s).state = LORA_OTA_IDLE ∧
    (LoRaOTA.abortUpdate env s).txFirmwareData = none ∧
    (LoRaOTA.abortUpdate env s).txFirmwareSize = 0 := by
  refine ⟨?_, ?_, by decide, rfl, rfl, rfl⟩
  · intro h
    simp [LoRaOTA.abortUpdate, h, LoRaOTA.sendAbort, LoRaOTA.loraSendData, LoRaOTA.emit]
  · intro h
    simp [LoRaOTA.abortUpdate, h, LoRaOTA.sendAbort, LoRaOTA.loraSendData, LoRaOTA.emit]

set_option maxRecDepth 1000000 in
theorem abortUpdate_effects_witness :
    receiver16.state = LORA_OTA_RECEIVING ∧
    (LoRaOTA.abortUpdate sendFailEnv receiver16).trace
      = receiver16.trace ++ [Effect.updateAbort, Effect.send [byteOf LORA_OTA_ABORT]] ∧
    (LoRaOTA.abortUpdate sendFailEnv receiver16).state = LORA_OTA_IDLE :=
  ⟨by decide, (abortUpdate_effects sendFailEnv receiver16).1 (by decide),
    (abortUpdate_effects sendFailEnv receiver16).2.2.2.1⟩

/-! ## Init messages -/

/-- A well-sized Init whose flash preparation fails, in any state. -/
theorem handleInitMessage_begin_failed (env : Env) (s : LoRaOTA) (data : Ptr) (length : Nat)
    (hl : sizeofFirmwareMetadata + 1 ≤ length) (hb : env.updateBegin s.calls = false) :
    s.handleInitMessage env data length
      = (false, { s with
          rxMetadata := readFirmwareMetadata (data.add 1)
          lastError := "Failed to begin update"
          calls := s.calls + 2
          trace := s.trace ++ [Effect.updateBegin (readFirmwareMetadata (data.add 1)).totalSize,
            Effect.send (nackPacket 0)] }) := by
  have hl2 : ¬ length < sizeofFirmwareMetadata + 1 := by omega
  simp [LoRaOTA.handleInitMessage, hl2, hb, LoRaOTA.emit, LoRaOTA.sendNack,
    LoRaOTA.loraSendData]

/-- A well-sized Init whose flash preparation succeeds, in any state. -/
theorem handleInitMessage_accepted (env : Env) (s : LoRaOTA) (data : Ptr) (length : Nat)
    (hl : sizeofFirmwareMetadata + 1 ≤ length) (hb : env.updateBegin s.calls = true) :
    s.handleInitMessage env data length
      = (true, { s with
          rxMetadata := readFirmwareMetadata (data.add 1)
          state := LORA_OTA_RECEIVING
          rxCurrentChunk := 0
          rxRetryCount := 0
          rxLastReceiveTime := u32 (env.millis (s.calls + 1))
          calls := s.calls + 3
          trace := s.trace ++ [Effect.updateBegin (readFirmwareMetadata (data.add 1)).totalSize,
            Effect.send (ackPacket 0)] }) := by
  have hl2 : ¬ length < sizeofFirmwareMetadata + 1 := by omega
  simp [LoRaOTA.handleInitMessage, hl2, hb, LoRaOTA.emit, LoRaOTA.sendAck,
    LoRaOTA.loraSendData, LoRaOTA.millis]

/-- C20: for a well-sized Init received in state Idle, the Flash Sink is asked to
prepare for the `totalSize` of the packet.  If that fails the receiver replies
`Nack(0)` and the state stays Idle; otherwise the state becomes Receiving with
expected chunk index 0 and retry count 0, the activity time is stamped, the
stored metadata is the metadata carried in the packet, and the receiver replies
`Ack(0)`. -/
theorem handleInitMessage_from_idle (env : Env) (s : LoRaOTA) (data : Ptr) (length : Nat)
    (hidle : s.state = LORA_OTA_IDLE) (hl : sizeofFirmwareMetadata + 1 ≤ length) :
    (env.updateBegin s.calls = false →
      (s.handleInitMessage env data length).1 = false ∧
      (s.handleInitMessage env data length).2.state = LORA_OTA_IDLE ∧
      (s.handleInitMessage env data length).2.trace
        = s.trace ++ [Effect.updateBegin (readFirmwareMetadata (data.add 1)).totalSize,
            Effect.send (nackPacket 0)]) ∧
    (env.updateBegin s.calls = true →
      (s.handleInitMessage env data length).1 = true ∧
      (s.handleInitMessage env data length).2.state = LORA_OTA_RECEIVING ∧
      (s.handleInitMessage env data length).2.rxCurrentChunk = 0 ∧
      (s.handleInitMessage env data length).2.rxRetryCount = 0 ∧
      (s.handleInitMessage env data length).2.rxLastReceiveTime = u32 (env.millis (s.calls + 1)) ∧
      (s.handleInitMessage env data length).2.rxMetadata = readFirmwareMetadata (data.add 1) ∧
      (s.handleInitMessage env data length).2.trace
        = s.trace ++ [Effect.updateBegin (readFirmwareMetadata (data.add 1)).totalSize,
            Effect.send (ackPacket 0)]) := by
  constructor
  · intro hb
    rw [handleInitMessage_begin_failed env s data length hl hb]
    exact ⟨rfl, hidle, rfl⟩
  · intro hb
    rw [handleInitMessage_accepted env s data length hl hb]
    exact ⟨rfl, rfl, rfl, rfl, rfl, rfl, rfl⟩

set_option maxRecDepth 1000000 in
theorem handleInitMessage_from_idle_witness :
    idleSession.state = LORA_OTA_IDLE ∧ sizeofFirmwareMetadata + 1 ≤ init16.length ∧
    (idleSession.handleInitMessage (quietEnv 0) (ptrOfList init16) init16.length).2.state
      = LORA_OTA_RECEIVING ∧
    (idleSession.handleInitMessage (quietEnv 0) (ptrOfList init16) init16.length).2.rxMetadata
      = metadataOf init16 :=
  have h := (handleInitMessage_from_idle (quietEnv 0) idleSession (ptrOfList init16)
    init16.length (by decide) (by decide)).2 rfl
  ⟨by decide, by decide, h.2.1, h.2.2.2.2.2.1⟩

/-! ## The error state -/

/-- In state Error every packet other than Init and Abort is dropped. -/
theorem processMessage_error (env : Env) (s : LoRaOTA) (data : Ptr) (length : Nat)
    (herr : s.state = LORA_OTA_ERROR)
    (hinit : (data 0).val ≠ LORA_OTA_INIT) (habort : (data 0).val ≠ LORA_OTA_ABORT) :
    (s.processMessage env data length).2 = s := by
  have h1 : s.state ≠ LORA_OTA_RECEIVING := by simp [herr]
  have h2 : s.state ≠ LORA_OTA_TRANSMITTING := by simp [herr]
  simp only [LoRaOTA.processMessage, hinit, habort, if_false]
  split
  · rfl
  · split
    · rw [handleChunkMessage_not_receiving env s data length h1]
    · split
      · rw [handleAckMessage_ignored env s data length (Or.inl h2)]
      · split
        · simp [LoRaOTA.handleNackMessage, h2]
        · split <;> rfl

/-- A service call in state Error that receives nothing, or a packet other than
Init and Abort, only polls the transport. -/
theorem handle_error (env : Env) (s : LoRaOTA) (herr : s.state = LORA_OTA_ERROR)
    (hinit : ∀ t, (env.receiveBuffer t 0).val ≠ LORA_OTA_INIT)
    (habort : ∀ t, (env.receiveBuffer t 0).val ≠ LORA_OTA_ABORT) :
    ∃ n, LoRaOTA.handle env s = { s with calls := n } := by
  simp only [LoRaOTA.handle]
  split
  · exact ⟨s.calls, rfl⟩
  · have key : ∃ n, LoRaOTA.handleIncoming env s = { s with calls := n } := by
      simp only [LoRaOTA.handleIncoming]
      split
      · split
        · rw [processMessage_error env { s with calls := s.calls + 1 + 1 } _ _ herr (hinit _)
            (habort _)]
          exact ⟨_, rfl⟩
        · exact ⟨_, rfl⟩
      · exact ⟨_, rfl⟩
    obtain ⟨n, hn⟩ := key
    refine ⟨n, ?_⟩
    rw [hn]
    simp [LoRaOTA.handleReceiveTimeout, LoRaOTA.handleTransmitTimeout, herr]

set_option maxRecDepth 1000000 in
/-- C16 (as stated, refuted): a receiver is in Error after a failed finalization;
a service call that receives the one-byte Abort packet leaves it in Idle. -/
theorem error_state_left_by_abort_packet :
    errorSession.state = LORA_OTA_ERROR ∧
    (LoRaOTA.handle (deliverEnv 0 [byteOf LORA_OTA_ABORT]) errorSession).state
      = LORA_OTA_IDLE ∧
    (LoRaOTA.handle (deliverEnv 0 [byteOf LORA_OTA_ABORT]) errorSession).state
      ≠ LORA_OTA_ERROR := by
  decide

/-- C16 (amended): once the session state is Error, a service call leaves the
object in Error, with its error message and its record of effects unchanged,
whatever the clock value and whatever it receives other than an Init or an Abort
packet (nothing, Chunk, Ack, Nack, Complete, an unknown or an empty packet).  A
received Abort packet resets the state to Idle, as the host calling
`abortUpdate` does. -/
theorem error_state_persists (env : Env) (s : LoRaOTA) (herr : s.state = LORA_OTA_ERROR) :
    ((∀ t, (env.receiveBuffer t 0).val ≠ LORA_OTA_INIT) →
      (∀ t, (env.receiveBuffer t 0).val ≠ LORA_OTA_ABORT) →
      ∀ n, ((LoRaOTA.handle env)^[n] s).state = LORA_OTA_ERROR ∧
        ((LoRaOTA.handle env)^[n] s).lastError = s.lastError ∧
        ((LoRaOTA.handle env)^[n] s).trace = s.trace) ∧
    (∀ (data : Ptr) (length : Nat), 0 < length → (data 0).val = LORA_OTA_ABORT →
      (s.processMessage env data length).2.state = LORA_OTA_IDLE) ∧
    (LoRaOTA.abortUpdate env s).state = LORA_OTA_IDLE := by
  refine ⟨?_, ?_, rfl⟩
  · intro hinit habort n
    induction n with
    | zero => exact ⟨herr, rfl, rfl⟩
    | succ n ih =>
      rw [Function.iterate_succ_apply']
      obtain ⟨m, hm⟩ := handle_error env _ ih.1 hinit habort
      rw [hm]
      exact ih
  · intro data length hl hab
    have hl2 : ¬ length < 1 := by omega
    simp [LoRaOTA.processMessage, hl2, hab, LORA_OTA_ABORT, LORA_OTA_INIT, LORA_OTA_CHUNK,
      LORA_OTA_ACK, LORA_OTA_NACK, LORA_OTA_COMPLETE, LoRaOTA.handleAbortMessage]

set_option maxRecDepth 1000000 in
theorem error_state_persists_witness :
    errorSession.state = LORA_OTA_ERROR ∧
    ((LoRaOTA.handle (deliverEnv 0 chunk0of16))^[2] errorSession).state = LORA_OTA_ERROR :=
  have h1 : (ptrOfList chunk0of16 0).val ≠ LORA_OTA_INIT := by decide
  have h2 : (ptrOfList chunk0of16 0).val ≠ LORA_OTA_ABORT := by decide
  ⟨by decide,
    ((error_state_persists (deliverEnv 0 chunk0of16) errorSession (by decide)).1
      (fun _ => h1) (fun _ => h2) 2).1⟩

/-! ## Chunk packets seen by the receiver -/

theorem chunkPacket_length (pad d : Ptr) (size i : Nat) :
    (LoRaOTA.chunkPacket pad d size i).length
      = 1 + sizeofChunkHeader + min 240 (sub32 size (i * 240)) := by
  simp [LoRaOTA.chunkPacket, encodeChunkHeader, le16, le32, readBytes, sizeofChunkHeader,
    LORA_OTA_CHUNK_SIZE]
  omega

/-- The payload a receiver finds behind the header of a packet built by
`sendChunk` is the slice the sender copied. -/
theorem readBytes_chunkPacket (pad d : Ptr) (size i : Nat) :
    readBytes ((ptrOfList (LoRaOTA.chunkPacket pad d size i)).add (1 + sizeofChunkHeader)) 0
        (min 240 (sub32 size (i * 240)))
      = readBytes (d.add (i * 240)) 0 (min 240 (sub32 size (i * 240))) := by
  rw [readBytes_add_ptrOfList _ _ _ (by rw [chunkPacket_length])]
  have h := chunkPayload_chunkPacket pad d size i
  simp only [chunkPayload] at h
  rw [h, List.take_of_length_le (by rw [readBytes_length])]

/-- A packet built by `sendChunk` passes the receiver's CRC check. -/
theorem chunkPacket_validates (pad d : Ptr) (size i : Nat) (hi : i < 65536) :
    validateChunkCRC ((ptrOfList (LoRaOTA.chunkPacket pad d size i)).add (1 + sizeofChunkHeader))
      (readChunkHeader ((ptrOfList (LoRaOTA.chunkPacket pad d size i)).add 1)).chunkSize
      (readChunkHeader ((ptrOfList (LoRaOTA.chunkPacket pad d size i)).add 1)).chunkCRC
      = true := by
  have h := chunkHeaderOf_chunkPacket pad d size i hi
  simp only [chunkHeaderOf] at h
  rw [h]
  simp only [validateChunkCRC, beq_iff_eq]
  rw [calculateCRC32_eq_foldl, calculateCRC32_eq_foldl, readBytes_chunkPacket]

theorem chunk0of500_eq :
    chunk0of500 = LoRaOTA.chunkPacket ((quietEnv 0).uninit sender500.calls)
      (ptrOfList image500) 500 0 := by
  have h := sendChunk_sends (quietEnv 0) sender500 (ptrOfList image500) 0 rfl (by decide)
  simp only [chunk0of500, h, lastSent_append_send]
  rfl

theorem chunk1of500_eq :
    chunk1of500 = LoRaOTA.chunkPacket ((quietEnv 0).uninit sender500.calls)
      (ptrOfList image500) 500 1 := by
  have h := sendChunk_sends (quietEnv 0) sender500 (ptrOfList image500) 1 rfl (by decide)
  simp only [chunk1of500, h, lastSent_append_send]
  rfl

theorem chunk0of500_valid :
    (readChunkHeader ((ptrOfList chunk0of500).add 1)).chunkIndex = 0 ∧
    (readChunkHeader ((ptrOfList chunk0of500).add 1)).chunkSize = 240 ∧
    validateChunkCRC ((ptrOfList chunk0of500).add (1 + sizeofChunkHeader))
      (readChunkHeader ((ptrOfList chunk0of500).add 1)).chunkSize
      (readChunkHeader ((ptrOfList chunk0of500).add 1)).chunkCRC = true := by
  rw [chunk0of500_eq]
  refine ⟨?_, ?_, chunkPacket_validates _ _ _ _ (by decide)⟩
  · have h := chunkHeaderOf_chunkPacket ((quietEnv 0).uninit sender500.calls)
      (ptrOfList image500) 500 0 (by decide)
    simp only [chunkHeaderOf] at h
    rw [h]
  · have h := chunkHeaderOf_chunkPacket ((quietEnv 0).uninit sender500.calls)
      (ptrOfList image500) 500 0 (by decide)
    simp only [chunkHeaderOf] at h
    rw [h]
    decide

theorem chunk1of500_valid :
    (readChunkHeader ((ptrOfList chunk1of500).add 1)).chunkIndex = 1 ∧
    (readChunkHeader ((ptrOfList chunk1of500).add 1)).chunkSize = 240 ∧
    validateChunkCRC ((ptrOfList chunk1of500).add (1 + sizeofChunkHeader))
      (readChunkHeader ((ptrOfList chunk1of500).add 1)).chunkSize
      (readChunkHeader ((ptrOfList chunk1of500).add 1)).chunkCRC = true := by
  rw [chunk1of500_eq]
  refine ⟨?_, ?_, chunkPacket_validates _ _ _ _ (by decide)⟩
  · have h := chunkHeaderOf_chunkPacket ((quietEnv 0).uninit sender500.calls)
      (ptrOfList image500) 500 1 (by decide)
    simp only [chunkHeaderOf] at h
    rw [h]
  · have h := chunkHeaderOf_chunkPacket ((quietEnv 0).uninit sender500.calls)
      (ptrOfList image500) 500 1 (by decide)
    simp only [chunkHeaderOf] at h
    rw [h]
    decide

/-! ## Progress -/

theorem handleChunkMessage_accept_more (env : Env) (s : LoRaOTA) (data : Ptr) (length : Nat)
    (hrx : s.state = LORA_OTA_RECEIVING) (hl : sizeofChunkHeader + 1 ≤ length)
    (hi : (readChunkHeader (data.add 1)).chunkIndex = s.rxCurrentChunk)
    (hcrc : validateChunkCRC (data.add (1 + sizeofChunkHeader))
      (readChunkHeader (data.add 1)).chunkSize (readChunkHeader (data.add 1)).chunkCRC = true)
    (hw : u32 (env.updateWrite s.calls) = (readChunkHeader (data.add 1)).chunkSize)
    (hmore : u16 (s.rxCurrentChunk + 1) < s.rxMetadata.totalChunks) :
    s.handleChunkMessage env data length = (true, s.afterAccept env data) := by
  rw [handleChunkMessage_accept env s data length hrx hl hi hcrc hw]
  exact if_neg (by omega)

set_option maxRecDepth 1000000 in
theorem receiver500_facts :
    receiver500.state = LORA_OTA_RECEIVING ∧ receiver500.rxCurrentChunk = 0 ∧
    receiver500.rxMetadata.totalChunks = 3 := by
  decide

set_option maxRecDepth 1000000 in
/-- The receiver `receiver500` accepts chunk 0 of the 500-byte image. -/
theorem receiver500_accepts_chunk0 :
    receiver500.handleChunkMessage (quietEnv 240) (ptrOfList chunk0of500) 253
      = (true, receiver500.afterAccept (quietEnv 240) (ptrOfList chunk0of500)) := by
  obtain ⟨h1, h2, h3⟩ := chunk0of500_valid
  obtain ⟨r1, r2, r3⟩ := receiver500_facts
  apply handleChunkMessage_accept_more _ _ _ _ r1 (by decide) (by rw [h1, r2]) h3
  · rw [h2]; rfl
  · rw [r2, r3]; decide

set_option maxRecDepth 1000000 in
/-- After chunk 0 the receiver accepts chunk 1. -/
theorem receiver500_accepts_chunk1 :
    (receiver500.afterAccept (quietEnv 240) (ptrOfList chunk0of500)).handleChunkMessage
        (quietEnv 240) (ptrOfList chunk1of500) 253
      = (true, (receiver500.afterAccept (quietEnv 240) (ptrOfList chunk0of500)).afterAccept
          (quietEnv 240) (ptrOfList chunk1of500)) := by
  obtain ⟨h1, h2, h3⟩ := chunk1of500_valid
  obtain ⟨r1, r2, r3⟩ := receiver500_facts
  have c1 : (receiver500.afterAccept (quietEnv 240) (ptrOfList chunk0of500)).rxCurrentChunk
      = 1 := by
    show u16 (receiver500.rxCurrentChunk + 1) = 1
    rw [r2]; decide
  have c0 : (receiver500.afterAccept (quietEnv 240) (ptrOfList chunk0of500)).state
      = LORA_OTA_RECEIVING := r1
  have c2 : (receiver500.afterAccept (quietEnv 240) (ptrOfList chunk0of500)).rxMetadata.totalChunks
      = 3 := r3
  apply handleChunkMessage_accept_more (quietEnv 240)
    (receiver500.afterAccept (quietEnv 240) (ptrOfList chunk0of500)) (ptrOfList chunk1of500) 253
    c0 (by decide) (by rw [h1, c1]) h3
  · rw [h2]; rfl
  · rw [c1, c2]; decide

set_option maxRecDepth 1000000 in
theorem init_packets_facts :
    init16.length = 33 ∧ (readFirmwareMetadata ((ptrOfList init16).add 1)).totalChunks = 1 ∧
    init1200.length = 33 ∧ (readFirmwareMetadata ((ptrOfList init1200).add 1)).totalChunks = 5 := by
  decide

theorem getProgress_receiving (s : LoRaOTA) (h : s.state = LORA_OTA_RECEIVING)
    (hT : 0 < s.rxMetadata.totalChunks) :
    s.getProgress = some (u8 ((s.rxCurrentChunk * 100) / s.rxMetadata.totalChunks)) := by
  simp [LoRaOTA.getProgress, h, hT]

/-- The receiver `receiver500` accepts chunks 0 and 1 of the 500-byte image in
turn and is then in Receiving with expected index 2 of 3. -/
theorem receiver500_two_chunks :
    ∃ s1 s2 : LoRaOTA,
      receiver500.handleChunkMessage (quietEnv 240) (ptrOfList chunk0of500) 253 = (true, s1) ∧
      s1.handleChunkMessage (quietEnv 240) (ptrOfList chunk1of500) 253 = (true, s2) ∧
      (s1.state = LORA_OTA_RECEIVING ∧ s1.rxCurrentChunk = 1 ∧ s1.rxMetadata.totalChunks = 3) ∧
      (s2.state = LORA_OTA_RECEIVING ∧ s2.rxCurrentChunk = 2 ∧ s2.rxMetadata.totalChunks = 3) := by
  obtain ⟨r1, r2, r3⟩ := receiver500_facts
  refine ⟨_, _, receiver500_accepts_chunk0, receiver500_accepts_chunk1, ⟨r1, ?_, r3⟩,
    ⟨r1, ?_, r3⟩⟩
  · show u16 (receiver500.rxCurrentChunk + 1) = 1
    rw [r2]; decide
  · show u16 (u16 (receiver500.rxCurrentChunk + 1) + 1) = 2
    rw [r2]; decide

/-- C14 (code at the failing input): a receiver that accepted the Init of a
three-chunk image and then chunks 0 and 1 (progress 66) receives the Init of a
one-chunk image while the Flash Sink refuses to prepare.  It stays in Receiving
with `rxCurrentChunk = 2` and the new metadata, and `getProgress` returns 200. -/
theorem getProgress_exceeds_100 :
    ∃ s1 s2 s3 : LoRaOTA,
      receiver500.handleChunkMessage (quietEnv 240) (ptrOfList chunk0of500) 253 = (true, s1) ∧
      s1.handleChunkMessage (quietEnv 240) (ptrOfList chunk1of500) 253 = (true, s2) ∧
      s2.state = LORA_OTA_RECEIVING ∧ s2.getProgress = some 66 ∧
      s2.handleInitMessage (beginFailEnv init16) (ptrOfList init16) init16.length
        = (false, s3) ∧
      s3.state = LORA_OTA_RECEIVING ∧ s3.rxCurrentChunk = 2 ∧
      s3.rxMetadata.totalChunks = 1 ∧ s3.getProgress = some 200 := by
  obtain ⟨s1, s2, h1, h2, _, ⟨a1, a2, a3⟩⟩ := receiver500_two_chunks
  obtain ⟨i1, i2, _, _⟩ := init_packets_facts
  have hfail := handleInitMessage_begin_failed (beginFailEnv init16) s2
    (ptrOfList init16) init16.length (by rw [i1]; decide) rfl
  refine ⟨s1, s2, _, h1, h2, a1, ?before, hfail, a1, a2, i2, ?after⟩
  case before =>
    rw [getProgress_receiving s2 a1 (by omega), a2, a3]; decide
  case after =>
    simp [LoRaOTA.getProgress, a1, a2, i2, u8]

/-- C15 (code at the failing input): a receiver that accepted the Init of a
three-chunk image and then chunk 0 reports progress 33.  When it receives the
Init of a five-chunk image while the Flash Sink refuses to prepare, it keeps the
state Receiving and the expected index 1, and the progress drops to 20; when it
receives an Init the Flash Sink accepts, it keeps the state Receiving and the
progress drops to 0. -/
theorem getProgress_decreases :
    ∃ s1 s2 s3 : LoRaOTA,
      receiver500.handleChunkMessage (quietEnv 240) (ptrOfList chunk0of500) 253 = (true, s1) ∧
      s1.state = LORA_OTA_RECEIVING ∧ s1.getProgress = some 33 ∧
      s1.handleInitMessage (beginFailEnv init1200) (ptrOfList init1200) init1200.length
        = (false, s2) ∧
      s2.state = LORA_OTA_RECEIVING ∧ s2.rxCurrentChunk = s1.rxCurrentChunk ∧
      s2.getProgress = some 20 ∧
      s1.handleInitMessage (quietEnv 0) (ptrOfList init16) init16.length = (true, s3) ∧
      s3.state = LORA_OTA_RECEIVING ∧ s3.getProgress = some 0 := by
  obtain ⟨s1, _, h1, _, ⟨a1, a2, a3⟩, _⟩ := receiver500_two_chunks
  obtain ⟨i1, i2, i3, i4⟩ := init_packets_facts
  have hfail := handleInitMessage_begin_failed (beginFailEnv init1200) s1
    (ptrOfList init1200) init1200.length (by rw [i3]; decide) rfl
  have hok := handleInitMessage_accepted (quietEnv 0) s1
    (ptrOfList init16) init16.length (by rw [i1]; decide) rfl
  refine ⟨s1, _, _, h1, a1, ?before, hfail, a1, rfl, ?failed, hok, rfl, ?restarted⟩
  case before =>
    rw [getProgress_receiving s1 a1 (by omega), a2, a3]; decide
  case failed =>
    simp [LoRaOTA.getProgress, a1, a2, i4, u8]
  case restarted =>
    simp [LoRaOTA.getProgress, i2, u8]

/-! ## Packet sizes -/

set_option maxRecDepth 1000000 in
/-- C17 (as stated, refuted): the Chunk packet `sendChunk` hands to the transport
for the only chunk of the 16-byte example image declares 16 payload bytes and is
29 bytes long, not 1 + 8 + 16 = 25; the packet for chunk 0 of the 500-byte image
is 253 bytes long, more than 249. -/
theorem sendChunk_packet_longer_than_claimed :
    (sender16.sendChunk (quietEnv 0) 0).2.trace = sender16.trace ++ [Effect.send chunk0of16] ∧
    (chunkHeaderOf chunk0of16).chunkSize = 16 ∧
    chunk0of16.length = 29 ∧ chunk0of16.length ≠ 1 + 8 + (chunkHeaderOf chunk0of16).chunkSize ∧
    (sender500.sendChunk (quietEnv 0) 0).2.trace = sender500.trace ++ [Effect.send chunk0of500] ∧
    chunk0of500.length = 253 ∧ 249 < chunk0of500.length := by
  have h500 : chunk0of500.length = 253 := by
    rw [chunk0of500_eq, chunkPacket_length]; decide
  have hs := sendChunk_sends (quietEnv 0) sender500 (ptrOfList image500) 0 rfl (by decide)
  refine ⟨by decide, by decide, by decide, by decide, ?_, h500, by rw [h500]; decide⟩
  rw [hs, chunk0of500_eq]
  rfl

/-- C17 (amended): every Chunk packet passed to the transport by `sendChunk` has
length exactly `1 + sizeof(ChunkHeader) + chunkSize`: one kind tag, the header
(messageType, chunkIndex, chunkSize and chunkCRC, 12 bytes with the natural
alignment of the unpacked struct), then the payload; as `chunkSize ≤ 240` it
never exceeds 253 bytes. -/
theorem sendChunk_packet_length (env : Env) (s : LoRaOTA) (d : Ptr) (i : Nat)
    (hdata : s.txFirmwareData = some d) (hi16 : i < 65536)
    (hi : i < LoRaOTA.chunkCount s.txFirmwareSize) :
    ∃ pkt, (s.sendChunk env i).2.trace = s.trace ++ [Effect.send pkt] ∧
      pkt.length = 1 + sizeofChunkHeader + (chunkHeaderOf pkt).chunkSize ∧
      sizeofChunkHeader = 12 ∧
      (chunkHeaderOf pkt).chunkSize = (chunkPayload pkt).length ∧
      (chunkHeaderOf pkt).chunkSize ≤ 240 ∧
      pkt.length ≤ 253 := by
  refine ⟨_, sendChunk_sends env s d i hdata hi, ?_, rfl, ?_, ?_, ?_⟩
  · rw [chunkPacket_length, chunkHeaderOf_chunkPacket _ _ _ _ hi16]
  · rw [chunkHeaderOf_chunkPacket _ _ _ _ hi16, chunkPayload_chunkPacket, readBytes_length]
  · rw [chunkHeaderOf_chunkPacket _ _ _ _ hi16]
    exact Nat.min_le_left _ _
  · rw [chunkPacket_length]
    have : min 240 (sub32 s.txFirmwareSize (i * 240)) ≤ 240 := Nat.min_le_left _ _
    simp only [sizeofChunkHeader]
    omega

set_option maxRecDepth 1000000 in
theorem sendChunk_packet_length_witness :
    sender16.txFirmwareData = some (ptrOfList testFirmware) ∧
    0 < LoRaOTA.chunkCount sender16.txFirmwareSize ∧
    ∃ pkt, (sender16.sendChunk (quietEnv 0) 0).2.trace = sender16.trace ++ [Effect.send pkt] ∧
      pkt.length = 1 + sizeofChunkHeader + (chunkHeaderOf pkt).chunkSize ∧
      sizeofChunkHeader = 12 ∧
      (chunkHeaderOf pkt).chunkSize = (chunkPayload pkt).length ∧
      (chunkHeaderOf pkt).chunkSize ≤ 240 ∧
      pkt.length ≤ 253 :=
  ⟨rfl, by decide,
    sendChunk_packet_length (quietEnv 0) sender16 (ptrOfList testFirmware) 0 rfl (by decide)
      (by decide)⟩

/-! ## Error detection of the checksum -/

theorem crc32BitStep_lt (c : Nat) (h : c < 4294967296) : crc32BitStep c < 4294967296 := by
  unfold crc32BitStep
  have h1 : c >>> 1 < 2 ^ 32 := by
    rw [Nat.shiftRight_eq_div_pow]; omega
  split
  · exact Nat.xor_lt_two_pow h1 (by norm_num)
  · exact h1

/-- The polynomial has bit 31 set, so xoring it into a 31-bit value gives a value
of at least `2^31`: the bit shifted out can be read back from the result. -/
theorem xor_poly_ge (x : Nat) (h : x < 2147483648) : 2147483648 ≤ x ^^^ 0xEDB88320 := by
  have hb : (x ^^^ 0xEDB88320).testBit 31 = true := by
    have hx : x.testBit 31 = false := Nat.testBit_lt_two_pow (by simpa using h)
    rw [Nat.testBit_xor, hx]
    decide
  have := Nat.testBit_implies_ge hb
  simpa using this

theorem crc32BitStep_injective (a b : Nat) (ha : a < 4294967296) (hb : b < 4294967296)
    (h : crc32BitStep a = crc32BitStep b) : a = b := by
  unfold crc32BitStep at h
  have ha1 : a >>> 1 = a / 2 := by rw [Nat.shiftRight_eq_div_pow, Nat.pow_one]
  have hb1 : b >>> 1 = b / 2 := by rw [Nat.shiftRight_eq_div_pow, Nat.pow_one]
  rw [ha1, hb1] at h
  have hah : a / 2 < 2147483648 := by omega
  have hbh : b / 2 < 2147483648 := by omega
  by_cases pa : a % 2 = 1 <;> by_cases pb : b % 2 = 1
  · simp only [pa, pb, if_true] at h
    have := Nat.xor_left_inj.mp h
    omega
  · simp only [pa, pb, if_true, if_false] at h
    have := xor_poly_ge (a / 2) hah
    omega
  · simp only [pa, pb, if_true, if_false] at h
    have := xor_poly_ge (b / 2) hbh
    omega
  · simp only [pa, pb, if_false] at h
    omega

theorem crc32BitStep_iterate_lt (k c : Nat) (h : c < 4294967296) :
    crc32BitStep^[k] c < 4294967296 := by
  induction k generalizing c with
  | zero => exact h
  | succ k ih =>
    rw [Function.iterate_succ, Function.comp_apply]
    exact ih _ (crc32BitStep_lt c h)

theorem crc32BitStep_iterate_injective (k a b : Nat) (ha : a < 4294967296)
    (hb : b < 4294967296) (h : crc32BitStep^[k] a = crc32BitStep^[k] b) : a = b := by
  induction k generalizing a b with
  | zero => exact h
  | succ k ih =>
    simp only [Function.iterate_succ, Function.comp_apply] at h
    exact crc32BitStep_injective a b ha hb
      (ih _ _ (crc32BitStep_lt a ha) (crc32BitStep_lt b hb) h)

theorem xor_byte_lt (crc : Nat) (b : Byte) (h : crc < 4294967296) :
    crc ^^^ b.val < 4294967296 := by
  have h1 : crc < 2 ^ 32 := by simpa using h
  have h2 : b.val < 2 ^ 32 := lt_trans b.isLt (by norm_num)
  simpa using Nat.xor_lt_two_pow h1 h2

/-- Two different running checksums stay different after the same byte. -/
theorem crc32Update_injective_crc (c1 c2 : Nat) (b : Byte) (h1 : c1 < 4294967296)
    (h2 : c2 < 4294967296) (h : crc32Update c1 b = crc32Update c2 b) : c1 = c2 := by
  rw [crc32Update_eq, crc32Update_eq] at h
  have := crc32BitStep_iterate_injective 8 _ _ (xor_byte_lt c1 b h1) (xor_byte_lt c2 b h2) h
  exact Nat.xor_left_inj.mp this

/-- Two different bytes give different running checksums. -/
theorem crc32Update_injective_byte (c : Nat) (b1 b2 : Byte) (hc : c < 4294967296)
    (h : crc32Update c b1 = crc32Update c b2) : b1 = b2 := by
  rw [crc32Update_eq, crc32Update_eq] at h
  have := crc32BitStep_iterate_injective 8 _ _ (xor_byte_lt c b1 hc) (xor_byte_lt c b2 hc) h
  exact Fin.ext (Nat.xor_right_inj.mp this)

theorem foldl_crc32Update_injective (bs : List Byte) (c1 c2 : Nat) (h1 : c1 < 4294967296)
    (h2 : c2 < 4294967296) (hne : c1 ≠ c2) :
    bs.foldl crc32Update c1 ≠ bs.foldl crc32Update c2 := by
  induction bs generalizing c1 c2 with
  | nil => simpa using hne
  | cons b bs ih =>
    simp only [List.foldl_cons]
    exact ih _ _ (crc32Update_lt c1 b h1) (crc32Update_lt c2 b h2)
      (fun h => hne (crc32Update_injective_crc c1 c2 b h1 h2 h))

theorem foldl_crc32Update_set_ne (bs : List Byte) (i : Nat) (b : Byte) (c : Nat)
    (hc : c < 4294967296) (hi : i < bs.length) (hb : b ≠ bs.get ⟨i, hi⟩) :
    (bs.set i b).foldl crc32Update c ≠ bs.foldl crc32Update c := by
  induction bs generalizing i c with
  | nil => simp at hi
  | cons x xs ih =>
    cases i with
    | zero =>
      simp only [List.set_cons_zero, List.foldl_cons]
      exact foldl_crc32Update_injective xs _ _ (crc32Update_lt c b hc) (crc32Update_lt c x hc)
        (fun h => hb (crc32Update_injective_byte c b x hc h))
    | succ j =>
      simp only [List.set_cons_succ, List.foldl_cons]
      exact ih j (crc32Update c x) (crc32Update_lt c x hc) (by simpa using hi) hb

theorem calculateCRC32_of_readBytes (p : Ptr) (bs : List Byte)
    (h : readBytes p 0 bs.length = bs) :
    calculateCRC32 p bs.length = (bs.foldl crc32Update 0xFFFFFFFF) ^^^ 0xFFFFFFFF := by
  rw [calculateCRC32_eq_foldl, h]

/-- Changing one byte of a non-empty sequence changes its CRC-32. -/
theorem calculateCRC32_set_ne (p q : Ptr) (bs : List Byte) (i : Nat) (b : Byte)
    (hi : i < bs.length) (hb : b ≠ bs.get ⟨i, hi⟩)
    (hp : readBytes p 0 bs.length = bs) (hq : readBytes q 0 bs.length = bs.set i b) :
    calculateCRC32 q bs.length ≠ calculateCRC32 p bs.length := by
  have hlen : (bs.set i b).length = bs.length := List.length_set _ _ _
  have hq2 : readBytes q 0 (bs.set i b).length = bs.set i b := by rw [hlen]; exact hq
  have e1 := calculateCRC32_of_readBytes p bs hp
  have e2 := calculateCRC32_of_readBytes q (bs.set i b) hq2
  rw [hlen] at e2
  rw [e1, e2]
  intro h
  exact foldl_crc32Update_set_ne bs i b 0xFFFFFFFF (by norm_num) hi hb
    (Nat.xor_left_inj.mp h)

/-- C18: for every non-empty byte sequence, every position in it and every
replacement byte different from the byte at that position, `calculateCRC32` of
the modified sequence differs from `calculateCRC32` of the original.  Hence a
receiver in Receiving that gets a well-indexed Chunk packet whose header carries
the CRC of the original payload while the payload has one byte changed finds
`validateChunkCRC` false, answers `Nack(rxCurrentChunk)`, increments its 8-bit
retry count and writes nothing to flash. -/
theorem single_byte_corruption_detected :
    (∀ (bs : List Byte) (i : Nat) (hi : i < bs.length) (b : Byte), b ≠ bs.get ⟨i, hi⟩ →
      calculateCRC32 (ptrOfList (bs.set i b)) bs.length
        ≠ calculateCRC32 (ptrOfList bs) bs.length) ∧
    (∀ (env : Env) (s : LoRaOTA) (data : Ptr) (length : Nat) (bs : List Byte) (i : Nat)
      (hi : i < bs.length) (b : Byte), b ≠ bs.get ⟨i, hi⟩ →
      s.state = LORA_OTA_RECEIVING → sizeofChunkHeader + 1 ≤ length →
      (readChunkHeader (data.add 1)).chunkIndex = s.rxCurrentChunk →
      (readChunkHeader (data.add 1)).chunkSize = bs.length →
      (readChunkHeader (data.add 1)).chunkCRC = calculateCRC32 (ptrOfList bs) bs.length →
      readBytes (data.add (1 + sizeofChunkHeader)) 0 bs.length = bs.set i b →
      validateChunkCRC (data.add (1 + sizeofChunkHeader)) bs.length
          (calculateCRC32 (ptrOfList bs) bs.length) = false ∧
      s.handleChunkMessage env data length
        = (false, { s with
            calls := s.calls + 1
            trace := s.trace ++ [Effect.send (nackPacket s.rxCurrentChunk)]
            rxRetryCount := u8 (s.rxRetryCount + 1) }) ∧
      (s.rxRetryCount < 255 → u8 (s.rxRetryCount + 1) = s.rxRetryCount + 1)) := by
  constructor
  · intro bs i hi b hb
    apply calculateCRC32_set_ne (ptrOfList bs) (ptrOfList (bs.set i b)) bs i b hi hb
      (readBytes_ptrOfList bs)
    have := readBytes_ptrOfList (bs.set i b)
    rwa [List.length_set] at this
  · intro env s data length bs i hi b hb hrx hl hidx hsz hcrc hpay
    have hne := calculateCRC32_set_ne (ptrOfList bs) (data.add (1 + sizeofChunkHeader)) bs i b
      hi hb (readBytes_ptrOfList bs) hpay
    have hv : validateChunkCRC (data.add (1 + sizeofChunkHeader)) bs.length
        (calculateCRC32 (ptrOfList bs) bs.length) = false := by
      simp only [validateChunkCRC, beq_eq_false_iff_ne, ne_eq]
      exact hne
    refine ⟨hv, ?_, ?_⟩
    · exact handleChunkMessage_crc_mismatch env s data length hrx hl hidx
        (by rw [hsz, hcrc]; exact hv)
    · intro h
      simp only [u8]
      omega

set_option maxRecDepth 1000000 in
theorem single_byte_corruption_detected_witness :
    (0xFF : Byte) ≠ testFirmware.get ⟨3, by decide⟩ ∧
    calculateCRC32 (ptrOfList (testFirmware.set 3 0xFF)) testFirmware.length
      ≠ calculateCRC32 (ptrOfList testFirmware) testFirmware.length ∧
    (receiver16.handleChunkMessage (quietEnv 16) (ptrOfList (chunk0of16.set 16 0xFF)) 29).2.trace
      = receiver16.trace ++ [Effect.send (nackPacket receiver16.rxCurrentChunk)] :=
  ⟨by decide,
    single_byte_corruption_detected.1 testFirmware 3 (by decide) 0xFF (by decide),
    by
      rw [(single_byte_corruption_detected.2 (quietEnv 16) receiver16
        (ptrOfList (chunk0of16.set 16 0xFF)) 29 testFirmware 3 (by decide) 0xFF (by decide)
        (by decide) (by decide) (by decide) (by decide) (by decide) (by decide)).2.1]⟩

/-! ## Receiver timeouts -/

/-- A service call of a receiver with nothing to receive, timed out and below the
retry ceiling: `Nack(rxCurrentChunk)` is sent, the retry counted, the time
restamped. -/
theorem handle_receive_retry (env : Env) (s : LoRaOTA)
    (hinit : s.initialized = true) (hen : s.enabled = true)
    (hst : s.state = LORA_OTA_RECEIVING) (hav : env.available s.calls = false)
    (hto : sub32 (u32 (env.millis (s.calls + 1))) s.rxLastReceiveTime > LORA_OTA_TIMEOUT_MS)
    (hretry : s.rxRetryCount < LORA_OTA_MAX_RETRIES) :
    LoRaOTA.handle env s
      = { s with
          calls := s.calls + 4
          trace := s.trace ++ [Effect.send (nackPacket s.rxCurrentChunk)]
          rxRetryCount := s.rxRetryCount + 1
          rxLastReceiveTime := u32 (env.millis (s.calls + 3)) } := by
  have hu : u8 (s.rxRetryCount + 1) = s.rxRetryCount + 1 := by
    simp only [u8, LORA_OTA_MAX_RETRIES] at *; omega
  simp [LoRaOTA.handle, hinit, hen, LoRaOTA.handleIncoming, hav, LoRaOTA.handleReceiveTimeout,
    hst, LoRaOTA.handleTransmitTimeout, LoRaOTA.millis, hto, hretry, LoRaOTA.sendNack,
    LoRaOTA.loraSendData, LoRaOTA.emit, hu]

/-- A service call of a receiver with nothing to receive, timed out and at the
retry ceiling: no Nack, the error is recorded, the Flash Sink told to discard and
the transfer aborted. -/
theorem handle_receive_give_up (env : Env) (s : LoRaOTA)
    (hinit : s.initialized = true) (hen : s.enabled = true)
    (hst : s.state = LORA_OTA_RECEIVING) (hav : env.available s.calls = false)
    (hto : sub32 (u32 (env.millis (s.calls + 1))) s.rxLastReceiveTime > LORA_OTA_TIMEOUT_MS)
    (hretry : ¬ s.rxRetryCount < LORA_OTA_MAX_RETRIES) :
    LoRaOTA.handle env s
      = { s with
          calls := s.calls + 4
          trace := s.trace ++ [Effect.updateAbort, Effect.send [byteOf LORA_OTA_ABORT]]
          lastError := "Timeout: No response from sender"
          state := LORA_OTA_IDLE
          txFirmwareData := none
          txFirmwareSize := 0 } := by
  simp [LoRaOTA.handle, hinit, hen, LoRaOTA.handleIncoming, hav, LoRaOTA.handleReceiveTimeout,
    hst, LoRaOTA.handleTransmitTimeout, LoRaOTA.millis, hto, hretry, LoRaOTA.abortUpdate,
    LoRaOTA.sendAbort, LoRaOTA.loraSendData, LoRaOTA.emit]

theorem handle_receive_retry_props (env : Env) (s : LoRaOTA)
    (hinit : s.initialized = true) (hen : s.enabled = true)
    (hst : s.state = LORA_OTA_RECEIVING) (hav : env.available s.calls = false)
    (hto : sub32 (u32 (env.millis (s.calls + 1))) s.rxLastReceiveTime > LORA_OTA_TIMEOUT_MS)
    (hretry : s.rxRetryCount < LORA_OTA_MAX_RETRIES) :
    (LoRaOTA.handle env s).initialized = true ∧ (LoRaOTA.handle env s).enabled = true ∧
    (LoRaOTA.handle env s).state = LORA_OTA_RECEIVING ∧
    (LoRaOTA.handle env s).rxCurrentChunk = s.rxCurrentChunk ∧
    (LoRaOTA.handle env s).rxRetryCount = s.rxRetryCount + 1 ∧
    (LoRaOTA.handle env s).lastError = s.lastError ∧
    (LoRaOTA.handle env s).trace = s.trace ++ [Effect.send (nackPacket s.rxCurrentChunk)] ∧
    (LoRaOTA.handle env s).rxLastReceiveTime = u32 (env.millis (s.calls + 3)) := by
  rw [handle_receive_retry env s hinit hen hst hav hto hretry]
  exact ⟨hinit, hen, hst, rfl, rfl, rfl, rfl, rfl⟩

/-- C21: a receiver in Receiving with retry count 0 that receives no packets and
whose every service call finds more than 5000 ms elapsed since the last activity
sends `Nack(rxCurrentChunk)` on each of the first three calls, counting the retry
(1, 2, 3) and restamping the activity time with the clock value read after the
Nack; the fourth such call, the retry count having reached 3, sends no Nack,
records "Timeout: No response from sender", tells the Flash Sink to discard,
sends Abort and leaves the state Idle. -/
theorem receiver_timeout_policy (env : Env) (s : LoRaOTA)
    (hinit : s.initialized = true) (hen : s.enabled = true)
    (hst : s.state = LORA_OTA_RECEIVING)
    (h0 : s.rxRetryCount = 0)
    (hquiet : ∀ t, env.available t = false)
    (hto : ∀ k < 4,
      sub32 (u32 (env.millis (((LoRaOTA.handle env)^[k] s).calls + 1)))
        ((LoRaOTA.handle env)^[k] s).rxLastReceiveTime > LORA_OTA_TIMEOUT_MS) :
    (∀ k < 3,
      ((LoRaOTA.handle env)^[k + 1] s).trace
        = ((LoRaOTA.handle env)^[k] s).trace ++ [Effect.send (nackPacket s.rxCurrentChunk)] ∧
      ((LoRaOTA.handle env)^[k + 1] s).rxRetryCount = k + 1 ∧
      ((LoRaOTA.handle env)^[k + 1] s).rxLastReceiveTime
        = u32 (env.millis (((LoRaOTA.handle env)^[k] s).calls + 3)) ∧
      ((LoRaOTA.handle env)^[k + 1] s).state = LORA_OTA_RECEIVING ∧
      ((LoRaOTA.handle env)^[k + 1] s).rxCurrentChunk = s.rxCurrentChunk ∧
      ((LoRaOTA.handle env)^[k + 1] s).lastError = s.lastError) ∧
    ((LoRaOTA.handle env)^[4] s).trace
      = ((LoRaOTA.handle env)^[3] s).trace
          ++ [Effect.updateAbort, Effect.send [byteOf LORA_OTA_ABORT]] ∧
    ((LoRaOTA.handle env)^[4] s).lastError = "Timeout: No response from sender" ∧
    ((LoRaOTA.handle env)^[4] s).state = LORA_OTA_IDLE := by
  have it : ∀ k, (LoRaOTA.handle env)^[k + 1] s
      = LoRaOTA.handle env ((LoRaOTA.handle env)^[k] s) :=
    fun k => Function.iterate_succ_apply' _ k s
  have hto0 := hto 0 (by decide)
  have hto1 := hto 1 (by decide)
  have hto2 := hto 2 (by decide)
  have hto3 := hto 3 (by decide)
  rw [it 0] at hto1
  rw [it 1, it 0] at hto2
  rw [it 2, it 1, it 0] at hto3
  simp only [Function.iterate_zero, id_eq] at hto0 hto1 hto2 hto3
  obtain ⟨a1, a2, a3, a4, a5, a6, a7, a8⟩ :=
    handle_receive_retry_props env s hinit hen hst (hquiet _) hto0 (by rw [h0]; decide)
  obtain ⟨b1, b2, b3, b4, b5, b6, b7, b8⟩ :=
    handle_receive_retry_props env (LoRaOTA.handle env s) a1 a2 a3 (hquiet _) hto1
      (by rw [a5, h0]; decide)
  obtain ⟨c1, c2, c3, c4, c5, c6, c7, c8⟩ :=
    handle_receive_retry_props env (LoRaOTA.handle env (LoRaOTA.handle env s)) b1 b2 b3
      (hquiet _) hto2 (by rw [b5, a5, h0]; decide)
  have hfin := handle_receive_give_up env
    (LoRaOTA.handle env (LoRaOTA.handle env (LoRaOTA.handle env s))) c1 c2 c3 (hquiet _) hto3
    (by rw [c5, b5, a5, h0]; decide)
  refine ⟨?_, ?_, ?_, ?_⟩
  · intro k hk
    rw [it k]
    rcases k with _ | _ | _ | k
    · simp only [Function.iterate_zero, id_eq]
      exact ⟨a7, by rw [a5, h0], a8, a3, a4, a6⟩
    · rw [it 0]
      simp only [Function.iterate_zero, id_eq]
      exact ⟨by rw [b7, a4], by rw [b5, a5, h0], b8, b3, by rw [b4, a4], by rw [b6, a6]⟩
    · rw [it 1, it 0]
      simp only [Function.iterate_zero, id_eq]
      exact ⟨by rw [c7, b4, a4], by rw [c5, b5, a5, h0], c8, c3, by rw [c4, b4, a4],
        by rw [c6, b6, a6]⟩
    · omega
  · rw [it 3, it 2, it 1, it 0]
    simp only [Function.iterate_zero, id_eq]
    rw [hfin]
  · rw [it 3, it 2, it 1, it 0]
    simp only [Function.iterate_zero, id_eq]
    rw [hfin]
  · rw [it 3, it 2, it 1, it 0]
    simp only [Function.iterate_zero, id_eq]
    rw [hfin]

set_option maxRecDepth 1000000 in
theorem receiver_timeout_policy_witness :
    receiver16.state = LORA_OTA_RECEIVING ∧ receiver16.rxRetryCount = 0 ∧
    ((LoRaOTA.handle slowEnv)^[3] receiver16).rxRetryCount = 3 ∧
    ((LoRaOTA.handle slowEnv)^[4] receiver16).trace
      = ((LoRaOTA.handle slowEnv)^[3] receiver16).trace
          ++ [Effect.updateAbort, Effect.send [byteOf LORA_OTA_ABORT]] ∧
    ((LoRaOTA.handle slowEnv)^[4] receiver16).state = LORA_OTA_IDLE :=
  have h := receiver_timeout_policy slowEnv receiver16 (by decide) (by decide)
    (by decide) (by decide) (fun _ => rfl) (by decide)
  ⟨by decide, by decide, (h.1 2 (by decide)).2.1, h.2.1, h.2.2.2⟩

/-! ## Sender to receiver round trip -/

/-- C22: for every non-empty image with chunk count at most 65535 and every index
`i` below the chunk count, the packet `sendChunk(i)` hands to the transport, when
processed by `handleChunkMessage` of a receiver in Receiving with
`rxCurrentChunk = i` whose flash write succeeds, passes the size, index and CRC
checks: the only flash write is of chunk `i` with exactly the bytes
`image[240*i .. min(S, 240*(i+1)))`, followed by the reply `Ack(i)`;
`rxCurrentChunk` becomes `i + 1` and the retry count 0.  Nothing else happens
unless `i + 1` reaches the receiver's `totalChunks`, in which case the receiver
goes on to finalize. -/
theorem chunk_round_trip (envS envR : Env) (sender receiver : LoRaOTA) (image : List Byte)
    (i : Nat)
    (hdata : sender.txFirmwareData = some (ptrOfList image))
    (hsize : sender.txFirmwareSize = image.length)
    (hpos : 0 < image.length)
    (hfit : ceilDiv image.length 240 ≤ 65535)
    (hi : i < ceilDiv image.length 240)
    (hrx : receiver.state = LORA_OTA_RECEIVING)
    (hcur : receiver.rxCurrentChunk = i)
    (hwrite : u32 (envR.updateWrite receiver.calls)
      = min image.length (240 * (i + 1)) - 240 * i) :
    ∃ pkt rest,
      (sender.sendChunk envS i).2.trace = sender.trace ++ [Effect.send pkt] ∧
      sizeofChunkHeader + 1 ≤ pkt.length ∧
      (readChunkHeader ((ptrOfList pkt).add 1)).chunkIndex = receiver.rxCurrentChunk ∧
      validateChunkCRC ((ptrOfList pkt).add (1 + sizeofChunkHeader))
        (readChunkHeader ((ptrOfList pkt).add 1)).chunkSize
        (readChunkHeader ((ptrOfList pkt).add 1)).chunkCRC = true ∧
      (receiver.handleChunkMessage envR (ptrOfList pkt) pkt.length).2.trace
        = receiver.trace ++
          [Effect.updateWrite i
             ((image.drop (240 * i)).take (min image.length (240 * (i + 1)) - 240 * i)),
           Effect.send (ackPacket i)] ++ rest ∧
      (i + 1 < receiver.rxMetadata.totalChunks → rest = [] ∧
        (receiver.handleChunkMessage envR (ptrOfList pkt) pkt.length).1 = true ∧
        (receiver.handleChunkMessage envR (ptrOfList pkt) pkt.length).2.state
          = LORA_OTA_RECEIVING) ∧
      (∀ e ∈ rest, ∀ k bs, e ≠ Effect.updateWrite k bs) ∧
      (receiver.handleChunkMessage envR (ptrOfList pkt) pkt.length).2.rxCurrentChunk = i + 1 ∧
      (receiver.handleChunkMessage envR (ptrOfList pkt) pkt.length).2.rxRetryCount = 0 := by
  have hS : image.length + 239 < 4294967296 := by
    have := (ceilDiv_spec image.length hpos).1
    omega
  have hcc : LoRaOTA.chunkCount sender.txFirmwareSize = ceilDiv image.length 240 := by
    rw [hsize, chunkCount_eq_ceilDiv _ hS]
  have hoff : 240 * i < image.length := by
    have h2 := (ceilDiv_spec image.length hpos).2
    have : i * 240 ≤ (ceilDiv image.length 240 - 1) * 240 := Nat.mul_le_mul_right _ (by omega)
    omega
  have hlen : min 240 (sub32 sender.txFirmwareSize (i * 240))
      = min image.length (240 * (i + 1)) - 240 * i := by
    rw [hsize]; simp only [sub32]; omega
  have hsend := sendChunk_sends envS sender (ptrOfList image) i hdata (by rw [hcc]; exact hi)
  have hhdr := chunkHeaderOf_chunkPacket (envS.uninit sender.calls) (ptrOfList image)
    sender.txFirmwareSize i (by omega)
  simp only [chunkHeaderOf] at hhdr
  have hval := chunkPacket_validates (envS.uninit sender.calls) (ptrOfList image)
    sender.txFirmwareSize i (by omega)
  have hplen := chunkPacket_length (envS.uninit sender.calls) (ptrOfList image)
    sender.txFirmwareSize i
  have hidx : (readChunkHeader ((ptrOfList (LoRaOTA.chunkPacket (envS.uninit sender.calls)
      (ptrOfList image) sender.txFirmwareSize i)).add 1)).chunkIndex = receiver.rxCurrentChunk := by
    rw [hhdr, hcur]
  have hsz : (readChunkHeader ((ptrOfList (LoRaOTA.chunkPacket (envS.uninit sender.calls)
      (ptrOfList image) sender.txFirmwareSize i)).add 1)).chunkSize
      = min image.length (240 * (i + 1)) - 240 * i := by
    rw [hhdr]; exact hlen
  have hl : sizeofChunkHeader + 1 ≤ (LoRaOTA.chunkPacket (envS.uninit sender.calls)
      (ptrOfList image) sender.txFirmwareSize i).length := by
    rw [hplen]; omega
  have hacc := handleChunkMessage_accept envR receiver _ _ hrx hl hidx hval
    (by rw [hsz]; exact hwrite)
  have hbytes : readBytes ((ptrOfList (LoRaOTA.chunkPacket (envS.uninit sender.calls)
      (ptrOfList image) sender.txFirmwareSize i)).add (1 + sizeofChunkHeader)) 0
      (readChunkHeader ((ptrOfList (LoRaOTA.chunkPacket (envS.uninit sender.calls)
        (ptrOfList image) sender.txFirmwareSize i)).add 1)).chunkSize
      = (image.drop (240 * i)).take (min image.length (240 * (i + 1)) - 240 * i) := by
    rw [hsz, ← hlen, readBytes_chunkPacket, hlen, Nat.mul_comm i 240]
    exact readBytes_add_ptrOfList image _ _ (by omega)
  have hu : u16 (receiver.rxCurrentChunk + 1) = i + 1 := by
    rw [hcur]; simp only [u16]; omega
  have htr : (receiver.afterAccept envR (ptrOfList (LoRaOTA.chunkPacket
      (envS.uninit sender.calls) (ptrOfList image) sender.txFirmwareSize i))).trace
      = receiver.trace ++
          [Effect.updateWrite i
             ((image.drop (240 * i)).take (min image.length (240 * (i + 1)) - 240 * i)),
           Effect.send (ackPacket i)] := by
    simp only [LoRaOTA.afterAccept, hbytes, hcur]
  by_cases hlast : u16 (receiver.rxCurrentChunk + 1) ≥ receiver.rxMetadata.totalChunks
  · rw [if_pos hlast] at hacc
    cases hend : envR.updateEnd (receiver.afterAccept envR (ptrOfList (LoRaOTA.chunkPacket
        (envS.uninit sender.calls) (ptrOfList image) sender.txFirmwareSize i))).calls
    · rw [finalizeUpdate_failed _ _ hend] at hacc
      refine ⟨_, [Effect.updateEnd], hsend, hl, hidx, hval, ?_, ?_, ?_, ?_, ?_⟩
      · rw [hacc]; simp only [htr]
      · intro h; rw [hu] at hlast; omega
      · intro e he k bs; simp at he; rw [he]; simp
      · rw [hacc]; exact hu
      · rw [hacc]; rfl
    · rw [finalizeUpdate_ok _ _ hend] at hacc
      refine ⟨_, [Effect.updateEnd, Effect.send [byteOf LORA_OTA_COMPLETE],
        Effect.delay 3000, Effect.restart], hsend, hl, hidx, hval, ?_, ?_, ?_, ?_, ?_⟩
      · rw [hacc]; simp only [htr]
      · intro h; rw [hu] at hlast; omega
      · intro e he k bs
        simp at he
        rcases he with he | he | he | he <;> rw [he] <;> simp
      · rw [hacc]; exact hu
      · rw [hacc]; rfl
  · rw [if_neg hlast] at hacc
    refine ⟨_, [], hsend, hl, hidx, hval, ?_, ?_, ?_, ?_, ?_⟩
    · rw [hacc]; simp only [htr, List.append_nil]
    · intro _; rw [hacc]; exact ⟨rfl, rfl, hrx⟩
    · intro e he; simp at he
    · rw [hacc]; exact hu
    · rw [hacc]; rfl

set_option maxRecDepth 1000000 in
theorem chunk_round_trip_witness :
    receiver500.state = LORA_OTA_RECEIVING ∧ receiver500.rxCurrentChunk = 0 ∧
    0 < ceilDiv image500.length 240 ∧
    ∃ pkt,
      (sender500.sendChunk (quietEnv 0) 0).2.trace = sender500.trace ++ [Effect.send pkt] ∧
      (receiver500.handleChunkMessage (quietEnv 240) (ptrOfList pkt) pkt.length).2.rxCurrentChunk
        = 0 + 1 :=
  have hrx : receiver500.state = LORA_OTA_RECEIVING := by decide
  have hcur : receiver500.rxCurrentChunk = 0 := by decide
  have hi : 0 < ceilDiv image500.length 240 := by rw [image500_length]; decide
  have h := chunk_round_trip (quietEnv 0) (quietEnv 240) sender500 receiver500 image500 0
    rfl image500_length.symm (by rw [image500_length]; decide)
    (by rw [image500_length]; decide) hi hrx hcur (by rw [image500_length]; decide)
  ⟨hrx, hcur, hi, h.elim fun pkt hp => hp.elim fun _ hq => ⟨pkt, hq.1, hq.2.2.2.2.2.2.2.1⟩⟩

/-! ## The divisor of the progress computation -/

set_option maxRecDepth 1000000 in
/-- C23 (code at the failing input): `sendFirmware` accepts an image of 15728401
bytes and leaves the session in Transmitting with `txFirmwareSize > 0`, which is
all `getProgress` checks; the 16-bit divisor it then computes is
`65536 mod 2^16 = 0`, so the progress computation divides by zero. -/
theorem getProgress_divides_by_zero :
    (idleSession.sendFirmware (quietEnv 0) (some (fun _ => 0)) 15728401 testVersion "").1
      = true ∧
    senderHuge.state = LORA_OTA_TRANSMITTING ∧
    senderHuge.txFirmwareSize = 15728401 ∧ 0 < senderHuge.txFirmwareSize ∧
    senderHuge.txCurrentChunk = 0 ∧
    LoRaOTA.chunkCount senderHuge.txFirmwareSize = 65536 ∧
    u16 (LoRaOTA.chunkCount senderHuge.txFirmwareSize) = 0 ∧
    senderHuge.getProgress = none := by
  decide

/-! ## Bounds of the reads of `sendChunk` -/

theorem readBytes_congr (p q : Ptr) (off n : Nat) (h : ∀ j, j < n → p (off + j) = q (off + j)) :
    readBytes p off n = readBytes q off n := by
  simp only [readBytes]
  apply List.map_congr_left
  intro j hj
  exact h j (List.mem_range.mp hj)

/-- The packet `sendChunk` builds is determined by the image bytes between
`offset` and `offset + chunkSize`. -/
theorem chunkPacket_congr (pad d e : Ptr) (size k : Nat)
    (h : ∀ j, j < min 240 (sub32 size (k * 240)) → d (k * 240 + j) = e (k * 240 + j)) :
    LoRaOTA.chunkPacket pad d size k = LoRaOTA.chunkPacket pad e size k := by
  have hb : readBytes (d.add (k * 240)) 0 (min 240 (sub32 size (k * 240)))
      = readBytes (e.add (k * 240)) 0 (min 240 (sub32 size (k * 240))) := by
    rw [readBytes_add, readBytes_add]
    exact readBytes_congr d e _ _ h
  have hc : calculateCRC32 (d.add (k * 240)) (min 240 (sub32 size (k * 240)))
      = calculateCRC32 (e.add (k * 240)) (min 240 (sub32 size (k * 240))) := by
    rw [calculateCRC32_eq_foldl, calculateCRC32_eq_foldl, hb]
  simp only [LoRaOTA.chunkPacket, LORA_OTA_CHUNK_SIZE, hb, hc]

theorem sendChunk_out_of_range (env : Env) (s : LoRaOTA) (k : Nat)
    (h : s.txFirmwareData = none ∨ k ≥ LoRaOTA.chunkCount s.txFirmwareSize) :
    s.sendChunk env k = (false, s) := by
  unfold LoRaOTA.sendChunk
  cases hd : s.txFirmwareData with
  | none => rfl
  | some d =>
    have hk : k ≥ LoRaOTA.chunkCount s.txFirmwareSize := by
      rcases h with h | h
      · rw [hd] at h; cases h
      · exact h
    simp [hk]

theorem chunkCount_le_ceilDiv (size : Nat) (h : size < 4294967296) :
    LoRaOTA.chunkCount size ≤ ceilDiv size 240 := by
  by_cases hw : size + 239 < 4294967296
  · rw [chunkCount_eq_ceilDiv _ hw]
  · simp only [LoRaOTA.chunkCount, LORA_OTA_CHUNK_SIZE, u32, ceilDiv]
    have : (size + 240 - 1) % 2 ^ 32 = size + 239 - 4294967296 := by
      norm_num; omega
    rw [this]
    split <;> omega

/-- C24: for a stored image of size `S > 0` (a `size_t` value) and every 16-bit
chunk index `k`.  If `k ≥ ceil(S/240)`, `sendChunk` sends nothing and returns
false.  Otherwise `offset = 240*k` satisfies `offset < S`, and the chunk size
`min(240, S - offset)` the code computes satisfies `1 ≤ chunkSize ≤ 240` and
`offset + chunkSize ≤ S`; the packet `sendChunk` sends has the payload
`image[offset .. offset + chunkSize)`, depends on no byte outside the image (any
memory that agrees with the image on `[0, S)` gives the same packet) and fits the
`1 + sizeof(ChunkHeader) + 240` byte buffer.  (For the sizes within 239 bytes of
the `size_t` maximum the chunk count the code computes wraps to 0 and nothing is
sent.) -/
theorem sendChunk_reads_inside_image (env : Env) (s : LoRaOTA) (d : Ptr) (k : Nat)
    (hdata : s.txFirmwareData = some d)
    (hpos : 0 < s.txFirmwareSize) (hS : s.txFirmwareSize < 4294967296) (hk : k < 65536) :
    (k ≥ ceilDiv s.txFirmwareSize 240 → s.sendChunk env k = (false, s)) ∧
    (k < ceilDiv s.txFirmwareSize 240 →
      240 * k < s.txFirmwareSize ∧
      min 240 (sub32 s.txFirmwareSize (k * 240)) = min 240 (s.txFirmwareSize - 240 * k) ∧
      1 ≤ min 240 (s.txFirmwareSize - 240 * k) ∧
      min 240 (s.txFirmwareSize - 240 * k) ≤ 240 ∧
      240 * k + min 240 (s.txFirmwareSize - 240 * k) ≤ s.txFirmwareSize ∧
      (4294967296 ≤ s.txFirmwareSize + 239 → s.sendChunk env k = (false, s)) ∧
      (s.txFirmwareSize + 239 < 4294967296 →
        ∃ pkt,
          s.sendChunk env k = (env.sendData s.calls,
            { s with calls := s.calls + 1, trace := s.trace ++ [Effect.send pkt] }) ∧
          (chunkHeaderOf pkt).chunkSize = min 240 (s.txFirmwareSize - 240 * k) ∧
          chunkPayload pkt = readBytes d (240 * k) (min 240 (s.txFirmwareSize - 240 * k)) ∧
          pkt.length ≤ 1 + sizeofChunkHeader + LORA_OTA_CHUNK_SIZE ∧
          (∀ e : Ptr, (∀ j, j < s.txFirmwareSize → e j = d j) →
            LoRaOTA.chunkPacket (env.uninit s.calls) e s.txFirmwareSize k = pkt))) := by
  constructor
  · intro hge
    have := chunkCount_le_ceilDiv s.txFirmwareSize hS
    exact sendChunk_out_of_range env s k (Or.inr (by omega))
  · intro hlt
    have hspec := ceilDiv_spec s.txFirmwareSize hpos
    have hoff : 240 * k < s.txFirmwareSize := by
      have : k * 240 ≤ (ceilDiv s.txFirmwareSize 240 - 1) * 240 :=
        Nat.mul_le_mul_right _ (by omega)
      omega
    have hsub : sub32 s.txFirmwareSize (k * 240) = s.txFirmwareSize - 240 * k := by
      simp only [sub32]; omega
    refine ⟨hoff, by rw [hsub], by omega, Nat.min_le_left _ _, by omega, ?_, ?_⟩
    · intro hw
      apply sendChunk_out_of_range env s k (Or.inr ?_)
      simp only [LoRaOTA.chunkCount, LORA_OTA_CHUNK_SIZE, u32]
      have : (s.txFirmwareSize + 240 - 1) % 2 ^ 32 = s.txFirmwareSize + 239 - 4294967296 := by
        norm_num; omega
      rw [this]
      omega
    · intro hw
      have hin : k < LoRaOTA.chunkCount s.txFirmwareSize := by
        rw [chunkCount_eq_ceilDiv _ hw]; exact hlt
      have hge : ¬ (k ≥ LoRaOTA.chunkCount s.txFirmwareSize) := by omega
      refine ⟨LoRaOTA.chunkPacket (env.uninit s.calls) d s.txFirmwareSize k, ?_, ?_, ?_, ?_, ?_⟩
      · simp [LoRaOTA.sendChunk, hdata, hge, LoRaOTA.loraSendData, LoRaOTA.emit]
      · rw [chunkHeaderOf_chunkPacket _ _ _ _ hk, hsub]
      · rw [chunkPayload_chunkPacket, hsub, readBytes_add, Nat.mul_comm k 240]
      · rw [chunkPacket_length]
        have : min 240 (sub32 s.txFirmwareSize (k * 240)) ≤ 240 := Nat.min_le_left _ _
        simp only [LORA_OTA_CHUNK_SIZE]
        omega
      · intro e he
        apply chunkPacket_congr
        intro j hj
        rw [hsub] at hj
        exact he _ (by omega)

set_option maxRecDepth 1000000 in
theorem sendChunk_reads_inside_image_witness :
    sender500.txFirmwareData = some (ptrOfList image500) ∧ 0 < sender500.txFirmwareSize ∧
    sender500.sendChunk (quietEnv 0) 3 = (false, sender500) ∧
    240 * 2 + min 240 (sender500.txFirmwareSize - 240 * 2) ≤ sender500.txFirmwareSize :=
  have h := sendChunk_reads_inside_image (quietEnv 0) sender500 (ptrOfList image500)
  ⟨rfl, by decide,
    (h 3 rfl (by decide) (by decide) (by decide)).1 (by decide),
    ((h 2 rfl (by decide) (by decide) (by decide)).2 (by decide)).2.2.2.2.1⟩

/-! ## Clock wrap-around -/

theorem sub32_elapsed (t0 d : Nat) (ht0 : t0 < 4294967296) (hd : d < 4294967296) :
    sub32 (u32 (t0 + d)) t0 = d := by
  simp only [sub32, u32]
  omega

/-- The object after `sendChunk` differs from the one before at most in the
record of external calls. -/
theorem sendChunk_frame (env : Env) (s : LoRaOTA) (k : Nat) :
    ∃ c tr, (s.sendChunk env k).2 = { s with calls := c, trace := tr } ∧ c ≥ s.calls := by
  by_cases h : s.txFirmwareData = none ∨ k ≥ LoRaOTA.chunkCount s.txFirmwareSize
  · rw [sendChunk_out_of_range env s k h]
    exact ⟨s.calls, s.trace, rfl, le_refl _⟩
  · push_neg at h
    obtain ⟨h1, h2⟩ := h
    obtain ⟨d, hd⟩ := Option.ne_none_iff_exists'.mp h1
    have hge : ¬ (k ≥ LoRaOTA.chunkCount s.txFirmwareSize) := by omega
    refine ⟨s.calls + 1, s.trace ++ [Effect.send
      (LoRaOTA.chunkPacket (env.uninit s.calls) d s.txFirmwareSize k)], ?_, by omega⟩
    simp [LoRaOTA.sendChunk, hd, hge, LoRaOTA.loraSendData, LoRaOTA.emit]

/-- C25: with 32-bit time stamps and subtraction modulo `2^32`, for every
last-activity stamp `t0` and every elapsed time `d < 2^32` ms, the test
`millis() - stamp > 5000` that `handle()` evaluates with
`millis() = (t0 + d) mod 2^32` is true exactly when `d > 5000`, in the Receiving
check and in the Transmitting check alike: up to 5000 ms the check only reads the
clock; beyond 5000 ms it takes the timeout path (a Nack, respectively a resend,
with the retry counted below the ceiling, and the abort at the ceiling). -/
theorem timeout_test_wraparound (env : Env) (s : LoRaOTA) (t0 d : Nat)
    (ht0 : t0 < 4294967296) (hd : d < 4294967296)
    (hnow : u32 (env.millis s.calls) = (t0 + d) % 4294967296) :
    (sub32 (u32 (t0 + d)) t0 > LORA_OTA_TIMEOUT_MS ↔ d > 5000) ∧
    (s.rxLastReceiveTime = t0 →
      (sub32 (s.millis env).1 (s.millis env).2.rxLastReceiveTime > LORA_OTA_TIMEOUT_MS
        ↔ d > 5000)) ∧
    (s.txLastSendTime = t0 →
      (sub32 (s.millis env).1 (s.millis env).2.txLastSendTime > LORA_OTA_TIMEOUT_MS
        ↔ d > 5000)) ∧
    (s.state = LORA_OTA_RECEIVING → s.rxLastReceiveTime = t0 →
      (d ≤ 5000 → LoRaOTA.handleReceiveTimeout env s = { s with calls := s.calls + 1 }) ∧
      (d > 5000 → s.rxRetryCount < LORA_OTA_MAX_RETRIES →
        (LoRaOTA.handleReceiveTimeout env s).trace
          = s.trace ++ [Effect.send (nackPacket s.rxCurrentChunk)] ∧
        (LoRaOTA.handleReceiveTimeout env s).rxRetryCount = u8 (s.rxRetryCount + 1) ∧
        (LoRaOTA.handleReceiveTimeout env s).rxLastReceiveTime
          = u32 (env.millis (s.calls + 2))) ∧
      (d > 5000 → ¬ s.rxRetryCount < LORA_OTA_MAX_RETRIES →
        (LoRaOTA.handleReceiveTimeout env s).state = LORA_OTA_IDLE ∧
        (LoRaOTA.handleReceiveTimeout env s).lastError = "Timeout: No response from sender")) ∧
    (s.state = LORA_OTA_TRANSMITTING → s.txLastSendTime = t0 →
      (d ≤ 5000 → LoRaOTA.handleTransmitTimeout env s = { s with calls := s.calls + 1 }) ∧
      (d > 5000 → s.txRetryCount < LORA_OTA_MAX_RETRIES →
        (LoRaOTA.handleTransmitTimeout env s).trace
          = (({ s with calls := s.calls + 1 } : LoRaOTA).sendChunk env s.txCurrentChunk).2.trace ∧
        (LoRaOTA.handleTransmitTimeout env s).txRetryCount = u8 (s.txRetryCount + 1) ∧
        (LoRaOTA.handleTransmitTimeout env s).calls > s.calls + 1) ∧
      (d > 5000 → ¬ s.txRetryCount < LORA_OTA_MAX_RETRIES →
        (LoRaOTA.handleTransmitTimeout env s).state = LORA_OTA_IDLE ∧
        (LoRaOTA.handleTransmitTimeout env s).lastError
          = "Timeout: No acknowledgment from receiver")) := by
  have hel := sub32_elapsed t0 d ht0 hd
  have hnow2 : u32 (env.millis s.calls) = u32 (t0 + d) := hnow
  have hiff : sub32 (u32 (t0 + d)) t0 > LORA_OTA_TIMEOUT_MS ↔ d > 5000 := by
    rw [hel]; rfl
  refine ⟨hiff, ?_, ?_, ?_, ?_⟩
  · intro h
    simp only [LoRaOTA.millis, hnow2, h]
    exact hiff
  · intro h
    simp only [LoRaOTA.millis, hnow2, h]
    exact hiff
  · intro hst h
    refine ⟨?_, ?_, ?_⟩
    · intro hle
      have hn : ¬ (sub32 (u32 (t0 + d)) t0 > LORA_OTA_TIMEOUT_MS) := by rw [hiff]; omega
      simp [LoRaOTA.handleReceiveTimeout, hst, LoRaOTA.millis, hnow2, h, hn]
    · intro hgt hr
      have hy : sub32 (u32 (t0 + d)) t0 > LORA_OTA_TIMEOUT_MS := hiff.mpr hgt
      simp [LoRaOTA.handleReceiveTimeout, hst, LoRaOTA.millis, hnow2, h, hy, hr,
        LoRaOTA.sendNack, LoRaOTA.loraSendData, LoRaOTA.emit]
    · intro hgt hr
      have hy : sub32 (u32 (t0 + d)) t0 > LORA_OTA_TIMEOUT_MS := hiff.mpr hgt
      simp [LoRaOTA.handleReceiveTimeout, hst, LoRaOTA.millis, hnow2, h, hy, hr,
        LoRaOTA.abortUpdate, LoRaOTA.sendAbort, LoRaOTA.loraSendData, LoRaOTA.emit]
  · intro hst h
    refine ⟨?_, ?_, ?_⟩
    · intro hle
      have hn : ¬ (sub32 (u32 (t0 + d)) t0 > LORA_OTA_TIMEOUT_MS) := by rw [hiff]; omega
      simp [LoRaOTA.handleTransmitTimeout, hst, LoRaOTA.millis, hnow2, h, hn]
    · intro hgt hr
      have hy : sub32 (u32 (t0 + d)) t0 > LORA_OTA_TIMEOUT_MS := hiff.mpr hgt
      obtain ⟨c, tr, hf, hc⟩ :=
        sendChunk_frame env { s with calls := s.calls + 1 } s.txCurrentChunk
      have hret : (({ s with calls := s.calls + 1 } : LoRaOTA).sendChunk env
          s.txCurrentChunk).2.txRetryCount = s.txRetryCount := by
        rw [hf]
      have hcalls : (({ s with calls := s.calls + 1 } : LoRaOTA).sendChunk env
          s.txCurrentChunk).2.calls ≥ s.calls + 1 := by
        rw [hf]; exact hc
      have hres : LoRaOTA.handleTransmitTimeout env s
          = { ({ s with calls := s.calls + 1 } : LoRaOTA).sendChunk env s.txCurrentChunk |>.2 with
              txRetryCount := u8 ((({ s with calls := s.calls + 1 } : LoRaOTA).sendChunk env
                s.txCurrentChunk).2.txRetryCount + 1)
              calls := (({ s with calls := s.calls + 1 } : LoRaOTA).sendChunk env
                s.txCurrentChunk).2.calls + 1
              txLastSendTime := u32 (env.millis
                (({ s with calls := s.calls + 1 } : LoRaOTA).sendChunk env
                  s.txCurrentChunk).2.calls) } := by
        have hy2 : sub32 (u32 (t0 + d)) s.txLastSendTime > LORA_OTA_TIMEOUT_MS := by
          rw [h]; exact hy
        simp only [LoRaOTA.handleTransmitTimeout, LoRaOTA.millis, hnow2]
        rw [if_pos hst, if_pos hy2, if_pos hr]
      rw [hres]
      refine ⟨rfl, ?_, ?_⟩
      · show u8 (_ + 1) = u8 (s.txRetryCount + 1)
        rw [hret]
      · show _ + 1 > s.calls + 1
        omega
    · intro hgt hr
      have hy : sub32 (u32 (t0 + d)) t0 > LORA_OTA_TIMEOUT_MS := hiff.mpr hgt
      simp [LoRaOTA.handleTransmitTimeout, hst, LoRaOTA.millis, hnow2, h, hy, hr,
        LoRaOTA.abortUpdate, LoRaOTA.sendAbort, LoRaOTA.loraSendData, LoRaOTA.emit]

set_option maxRecDepth 1000000 in
theorem timeout_test_wraparound_witness :
    u32 (wrapEnv.millis wrapReceiver.calls) = (4294967000 + 6000) % 4294967296 ∧
    wrapReceiver.state = LORA_OTA_RECEIVING ∧ wrapReceiver.rxLastReceiveTime = 4294967000 ∧
    (sub32 (wrapReceiver.millis wrapEnv).1 (wrapReceiver.millis wrapEnv).2.rxLastReceiveTime
      > LORA_OTA_TIMEOUT_MS ↔ 6000 > 5000) ∧
    (LoRaOTA.handleReceiveTimeout wrapEnv wrapReceiver).trace
      = wrapReceiver.trace ++ [Effect.send (nackPacket wrapReceiver.rxCurrentChunk)] :=
  have h := timeout_test_wraparound wrapEnv wrapReceiver 4294967000 6000 (by decide)
    (by decide) (by decide)
  ⟨by decide, by decide, rfl, h.2.1 rfl,
    ((h.2.2.2.1 (by decide) rfl).2.1 (by decide) (by decide)).1⟩

end BRAVO
